import Mathlib

/-!
# Postfix: TLS proxy client attribute encoders, dnsblog and postconf

A shallow embedding of `src/tls/tls_proxy_client_print.c`,
`src/dnsblog/dnsblog.c` and `postconf/postconf.c`.

* A C routine becomes a function from the process state to an `Outcome`: it
  either returns a value together with the new state, or the process is
  terminated (`msg_panic`, `msg_fatal`) in some state.
* The attribute print routine `print_fn`, the verbosity flag `msg_verbose`,
  the logging routine `msg_info` and the flag bit `ATTR_FLAG_MORE` are not
  defined in the encoders' file; they are parameters of the embedding. The
  same holds for the DNS library of dnsblog and the configuration library of
  postconf.
* `SEND_ATTR_FUNC(f, ptr)` is a function pointer with its argument; it is
  embedded as a `Callback` value naming the function and holding the argument.
-/

namespace Postfix

/-! ## Process state and control flow -/

/-- The result of running a routine from a process state: a normal return with
the returned value, or termination of the process with the panic message. -/
inductive Outcome (σ : Type) (α : Type) where
  | ret (val : α) (w : σ)
  | fatal (msg : String) (w : σ)
deriving DecidableEq, Repr

/-- A routine acting on the process state `σ` and returning an `α`. -/
def Proc (σ : Type) (α : Type) : Type := σ → Outcome σ α

/-- Sequencing of two routines: a terminated process runs nothing further. -/
def Proc.bind {σ α β : Type} (m : Proc σ α) (f : α → Proc σ β) : Proc σ β :=
  fun w =>
    match m w with
    | .ret a w1 => f a w1
    | .fatal msg w1 => .fatal msg w1

/-- Normal return. -/
def Proc.pure {σ α : Type} (a : α) : Proc σ α := fun w => .ret a w

instance {σ : Type} : Monad (Proc σ) where
  pure := Proc.pure
  bind := Proc.bind

/-- The C routine msg_panic: log the message and terminate the process. -/
def msg_panic {σ α : Type} (msg : String) : Proc σ α := fun w => .fatal msg w

/-- The value of a C truth test used as an int, as in `dane != 0`. -/
def c_bool (b : Bool) : Int := if b then 1 else 0

/-! ## Data model -/

/-- Attribute names: the string macros of tls_proxy.h, argv_attr.h and
mail_proto.h, kept symbolic. -/
inductive AttrName where
  | TLS_ATTR_LOG_PARAM | TLS_ATTR_LOG_LEVEL | TLS_ATTR_VERIFYDEPTH
  | TLS_ATTR_CACHE_TYPE | TLS_ATTR_CERT_FILE | TLS_ATTR_KEY_FILE
  | TLS_ATTR_DCERT_FILE | TLS_ATTR_DKEY_FILE | TLS_ATTR_ECCERT_FILE
  | TLS_ATTR_ECKEY_FILE | TLS_ATTR_CAFILE | TLS_ATTR_CAPATH | TLS_ATTR_MDALG
  | TLS_ATTR_COUNT | TLS_ATTR_CERT | TLS_ATTR_PKEY | TLS_ATTR_DANE
  | TLS_ATTR_DOMAIN | TLS_ATTR_FLAGS | TLS_ATTR_EXP
  | TLS_ATTR_TIMEOUT | TLS_ATTR_TLS_LEVEL | TLS_ATTR_NEXTHOP | TLS_ATTR_HOST
  | TLS_ATTR_NAMADDR | TLS_ATTR_SERVERID | TLS_ATTR_HELO | TLS_ATTR_PROTOCOLS
  | TLS_ATTR_CIPHER_GRADE | TLS_ATTR_CIPHER_EXCLUSIONS
  | ARGV_ATTR_SIZE | ARGV_ATTR_VALUE
  | MAIL_ATTR_RBL_DOMAIN | MAIL_ATTR_ADDR | MAIL_ATTR_STATUS
deriving DecidableEq, Repr

open AttrName

/-- A C string pointer: `none` is the null pointer. -/
abbrev CStr := Option String

/-- Modelled from the spec: the ARGV type (util/argv.h) is not under src/; the
spec's data model calls the match patterns, certificate names and key names
"simple string lists". -/
abbrev ARGV := List String

/-- An X.509 object as the encoder sees it, through `i2d_X509` only: the
length the DER encoder reports when called without an output pointer, and the
bytes it stores when called with one. -/
structure X509 where
  i2d_len : Nat
  i2d_out : List Nat
deriving DecidableEq, Repr

/-- A public key as the encoder sees it, through `i2d_PUBKEY` only. -/
structure EVP_PKEY where
  i2d_len : Nat
  i2d_out : List Nat
deriving DecidableEq, Repr

/-- A null-terminated chain of TLS_CERTS nodes (`cert`, `next`). -/
abbrev TLS_CERTS := List X509

/-- A null-terminated chain of TLS_PKEYS nodes (`pkey`, `next`). -/
abbrev TLS_PKEYS := List EVP_PKEY

/-- One TLS_TLSA node without its `next` pointer. -/
structure TLS_TLSA_NODE where
  mdalg : CStr
  certs : ARGV
  pkeys : ARGV
deriving DecidableEq, Repr

/-- A null-terminated chain of TLS_TLSA nodes. -/
abbrev TLS_TLSA := List TLS_TLSA_NODE

/-- The TLS_DANE members the encoder reads. -/
structure TLS_DANE where
  ta : TLS_TLSA
  ee : TLS_TLSA
  certs : TLS_CERTS
  pkeys : TLS_PKEYS
  base_domain : CStr
  flags : Int
  expires : Int
deriving DecidableEq, Repr

/-- The TLS_CLIENT_INIT_PROPS members the encoder reads. -/
structure TLS_CLIENT_INIT_PROPS where
  log_param : CStr
  log_level : CStr
  verifydepth : Int
  cache_type : CStr
  cert_file : CStr
  key_file : CStr
  dcert_file : CStr
  dkey_file : CStr
  eccert_file : CStr
  eckey_file : CStr
  CAfile : CStr
  CApath : CStr
  mdalg : CStr
deriving DecidableEq, Repr

/-- The TLS_CLIENT_START_PROPS members the encoder reads; `dane` may be the
null pointer. -/
structure TLS_CLIENT_START_PROPS where
  timeout : Int
  tls_level : Int
  nexthop : CStr
  host : CStr
  namaddr : CStr
  serverid : CStr
  helo : CStr
  protocols : CStr
  cipher_grade : CStr
  cipher_exclusions : CStr
  matchargv : ARGV
  mdalg : CStr
  dane : Option TLS_DANE
deriving DecidableEq, Repr

/-- The function pointer and argument of a SEND_ATTR_FUNC item. -/
inductive Callback where
  | argv_attr_print (ptr : ARGV)
  | tls_proxy_client_tlsa_print (ptr : TLS_TLSA)
  | tls_proxy_client_certs_print (ptr : TLS_CERTS)
  | tls_proxy_client_pkeys_print (ptr : TLS_PKEYS)
  | tls_proxy_client_dane_print (ptr : Option TLS_DANE)
deriving DecidableEq, Repr

/-- One item of the argument list of a print routine call. A string item holds
the pointer it was given; a data item holds its byte count and the bytes found
at its pointer. -/
inductive Attr where
  | str (name : AttrName) (val : CStr)
  | int (name : AttrName) (val : Int)
  | long (name : AttrName) (val : Int)
  | data (name : AttrName) (len : Nat) (val : List Nat)
  | func (cb : Callback)
deriving DecidableEq, Repr

/-- The macro SEND_ATTR_STR. -/
def SEND_ATTR_STR (name : AttrName) (val : CStr) : Attr := .str name val

/-- The macro SEND_ATTR_INT. -/
def SEND_ATTR_INT (name : AttrName) (val : Int) : Attr := .int name val

/-- The macro SEND_ATTR_LONG. -/
def SEND_ATTR_LONG (name : AttrName) (val : Int) : Attr := .long name val

/-- The macro SEND_ATTR_DATA: a byte count and a pointer; the item stands for
the `len` bytes that start at the pointer. -/
def SEND_ATTR_DATA (name : AttrName) (len : Nat) (val : List Nat) : Attr :=
  .data name len (val.take len)

/-- The macro SEND_ATTR_FUNC. -/
def SEND_ATTR_FUNC (cb : Callback) : Attr := .func cb

/-- The macro STRING_OR_EMPTY: `(s) ? (s) : ""`. -/
def STRING_OR_EMPTY (s : CStr) : CStr :=
  match s with
  | some v => some v
  | none => some ""

/-- A stream handle (the VSTREAM pointer). -/
abbrev VSTREAM := Nat

/-- The type of an attribute print routine: stream, flags, argument list. -/
abbrev ATTR_PRINT_MASTER_FN (σ : Type) := VSTREAM → Nat → List Attr → Proc σ Int

/-- What the encoders use and the file does not define: the flag bit
ATTR_FLAG_MORE, the global msg_verbose, and the effect of msg_info on the
process state. -/
structure Env (σ : Type) where
  ATTR_FLAG_MORE : Nat
  msg_verbose : Int
  msg_info : String → σ → σ

/-- The statement `if (msg_verbose) msg_info(text)`. -/
def Env.verbose_info {σ : Type} (E : Env σ) (text : String) : Proc σ Unit :=
  fun w => .ret () (if E.msg_verbose ≠ 0 then E.msg_info text w else w)

/-! ## VSTRING buffers -/

/-- Modelled from the spec: the VSTRING type and its macros (util/vstring.h,
util/vbuf.h) are not under src/. A buffer is its allocated bytes `data` and the
write position `ptr`, an offset into `data`; the payload is the bytes before
the write position. -/
structure VSTRING where
  data : List Nat
  ptr : Nat
deriving DecidableEq, Repr

/-- Modelled from the spec: vstring_alloc(len), a buffer of `len` bytes with an
empty payload. -/
def vstring_alloc (len : Nat) : VSTRING := ⟨List.replicate len 0, 0⟩

/-- Modelled from the spec: the macro VSTRING_LEN, the payload length: the
distance from the start of the buffer to the write position. -/
def LEN (vp : VSTRING) : Nat := vp.ptr

/-- Modelled from the spec: the macro vstring_str, a pointer to the start of
the buffer. -/
def STR (vp : VSTRING) : List Nat := vp.data

/-- Modelled from the spec: the macro VSTRING_RESET, which moves the write
position back to the start of the buffer. -/
def VSTRING_RESET (vp : VSTRING) : VSTRING := { vp with ptr := 0 }

/-- Modelled from the spec: the macro VSTRING_SPACE(vp, len), which makes room
for `len` bytes after the write position and leaves the write position and the
stored bytes alone. -/
def VSTRING_SPACE (vp : VSTRING) (len : Nat) : VSTRING :=
  let cnt := vp.data.length - vp.ptr
  if len > cnt then
    let need := len - cnt
    let incr := if vp.data.length > need then vp.data.length else need
    { vp with data := vp.data ++ List.replicate incr 0 }
  else vp

/-- A store of `bytes` through a raw pointer to the start of the buffer: the
bytes land in the buffer, the VSTRING bookkeeping is not touched. -/
def VSTRING.store (vp : VSTRING) (bytes : List Nat) : VSTRING :=
  { vp with data := bytes ++ vp.data.drop bytes.length }

/-- The call `i2d_X509(cert, &bp)` with `bp = STR(buf)`: the encoder stores its
bytes at the pointer and advances it; the result is the buffer and the new
value of `bp - STR(buf)`. -/
def i2d_X509 (cert : X509) (buf : VSTRING) : VSTRING × Nat :=
  (buf.store cert.i2d_out, cert.i2d_out.length)

/-- The call `i2d_PUBKEY(pkey, &bp)` with `bp = STR(buf)`. -/
def i2d_PUBKEY (pkey : EVP_PKEY) (buf : VSTRING) : VSTRING × Nat :=
  (buf.store pkey.i2d_out, pkey.i2d_out.length)

/-! ## The encoders -/

section Encoders

variable {σ : Type}

/-- The counting loop `for (tp = head, count = 0; tp != 0; tp = tp->next,
count++)`, started at `count`. The counter is a C int; a chain is taken to be
shorter than 2^31 nodes, so the count is kept as a natural number. -/
def chain_count {α : Type} : List α → Nat → Nat
  | [], count => count
  | _ :: next, count => chain_count next (count + 1)

/-- The function tls_proxy_client_init_print. -/
def tls_proxy_client_init_print (E : Env σ) (print_fn : ATTR_PRINT_MASTER_FN σ)
    (fp : VSTREAM) (flags : Nat) (props : TLS_CLIENT_INIT_PROPS) : Proc σ Int := do
  E.verbose_info "begin tls_proxy_client_init_print"
  let ret ← print_fn fp (flags ||| E.ATTR_FLAG_MORE)
    [SEND_ATTR_STR TLS_ATTR_LOG_PARAM (STRING_OR_EMPTY props.log_param),
     SEND_ATTR_STR TLS_ATTR_LOG_LEVEL (STRING_OR_EMPTY props.log_level),
     SEND_ATTR_INT TLS_ATTR_VERIFYDEPTH props.verifydepth,
     SEND_ATTR_STR TLS_ATTR_CACHE_TYPE (STRING_OR_EMPTY props.cache_type),
     SEND_ATTR_STR TLS_ATTR_CERT_FILE (STRING_OR_EMPTY props.cert_file),
     SEND_ATTR_STR TLS_ATTR_KEY_FILE (STRING_OR_EMPTY props.key_file),
     SEND_ATTR_STR TLS_ATTR_DCERT_FILE (STRING_OR_EMPTY props.dcert_file),
     SEND_ATTR_STR TLS_ATTR_DKEY_FILE (STRING_OR_EMPTY props.dkey_file),
     SEND_ATTR_STR TLS_ATTR_ECCERT_FILE (STRING_OR_EMPTY props.eccert_file),
     SEND_ATTR_STR TLS_ATTR_ECKEY_FILE (STRING_OR_EMPTY props.eckey_file),
     SEND_ATTR_STR TLS_ATTR_CAFILE (STRING_OR_EMPTY props.CAfile),
     SEND_ATTR_STR TLS_ATTR_CAPATH (STRING_OR_EMPTY props.CApath),
     SEND_ATTR_STR TLS_ATTR_MDALG (STRING_OR_EMPTY props.mdalg)]
  E.verbose_info ("tls_proxy_client_init_print ret=" ++ toString ret)
  return ret

/-- The body loop of tls_proxy_client_certs_print:
`for (tp = tls_certs, n = 0; ret == 0 && n < count; tp = tp->next, n++)`,
entered with the current `tp`, `n`, `ret` and buffer. Reading `tp->cert`
through a null `tp` ends the process. -/
def tls_proxy_client_certs_loop (E : Env σ) (print_fn : ATTR_PRINT_MASTER_FN σ)
    (fp : VSTREAM) (flags : Nat) (count : Nat) :
    TLS_CERTS → Nat → Int → VSTRING → Proc σ Int
  | [], n, ret, _ =>
    if ret = 0 ∧ n < count then msg_panic "null pointer dereference" else pure ret
  | cert :: next, n, ret, buf =>
    if ret = 0 ∧ n < count then do
      let len := cert.i2d_len
      let buf := VSTRING_RESET buf
      let buf := VSTRING_SPACE buf len
      let (buf, bp) := i2d_X509 cert buf
      if bp ≠ len then
        msg_panic "i2d_X509 failed to encode certificate"
      else do
        let ret ← print_fn fp (flags ||| E.ATTR_FLAG_MORE)
          [SEND_ATTR_DATA TLS_ATTR_CERT (LEN buf) (STR buf)]
        tls_proxy_client_certs_loop E print_fn fp flags count next (n + 1) ret buf
    else pure ret

/-- The function tls_proxy_client_certs_print. -/
def tls_proxy_client_certs_print (E : Env σ) (print_fn : ATTR_PRINT_MASTER_FN σ)
    (fp : VSTREAM) (flags : Nat) (tls_certs : TLS_CERTS) : Proc σ Int := do
  let count := chain_count tls_certs 0
  E.verbose_info ("tls_proxy_client_certs_print count=" ++ toString count)
  let ret ← print_fn fp (flags ||| E.ATTR_FLAG_MORE)
    [SEND_ATTR_INT TLS_ATTR_COUNT count]
  let ret ←
    if ret = 0 ∧ count > 0 then
      tls_proxy_client_certs_loop E print_fn fp flags count tls_certs 0 ret
        (vstring_alloc 100)
    else pure ret
  E.verbose_info ("tls_proxy_client_certs_print ret=" ++ toString count)
  return ret

/-- The body loop of tls_proxy_client_pkeys_print. -/
def tls_proxy_client_pkeys_loop (E : Env σ) (print_fn : ATTR_PRINT_MASTER_FN σ)
    (fp : VSTREAM) (flags : Nat) (count : Nat) :
    TLS_PKEYS → Nat → Int → VSTRING → Proc σ Int
  | [], n, ret, _ =>
    if ret = 0 ∧ n < count then msg_panic "null pointer dereference" else pure ret
  | pkey :: next, n, ret, buf =>
    if ret = 0 ∧ n < count then do
      let len := pkey.i2d_len
      let buf := VSTRING_RESET buf
      let buf := VSTRING_SPACE buf len
      let (buf, bp) := i2d_PUBKEY pkey buf
      if bp ≠ len then
        msg_panic "i2d_PUBKEY failed to encode public key"
      else do
        let ret ← print_fn fp (flags ||| E.ATTR_FLAG_MORE)
          [SEND_ATTR_DATA TLS_ATTR_PKEY (LEN buf) (STR buf)]
        tls_proxy_client_pkeys_loop E print_fn fp flags count next (n + 1) ret buf
    else pure ret

/-- The function tls_proxy_client_pkeys_print. -/
def tls_proxy_client_pkeys_print (E : Env σ) (print_fn : ATTR_PRINT_MASTER_FN σ)
    (fp : VSTREAM) (flags : Nat) (tls_pkeys : TLS_PKEYS) : Proc σ Int := do
  let count := chain_count tls_pkeys 0
  E.verbose_info ("tls_proxy_client_pkeys_print count=" ++ toString count)
  let ret ← print_fn fp (flags ||| E.ATTR_FLAG_MORE)
    [SEND_ATTR_INT TLS_ATTR_COUNT count]
  let ret ←
    if ret = 0 ∧ count > 0 then
      tls_proxy_client_pkeys_loop E print_fn fp flags count tls_pkeys 0 ret
        (vstring_alloc 100)
    else pure ret
  E.verbose_info ("tls_proxy_client_pkeys_print ret=" ++ toString count)
  return ret

/-- The body loop of tls_proxy_client_tlsa_print. -/
def tls_proxy_client_tlsa_loop (E : Env σ) (print_fn : ATTR_PRINT_MASTER_FN σ)
    (fp : VSTREAM) (flags : Nat) (count : Nat) :
    TLS_TLSA → Nat → Int → Proc σ Int
  | [], n, ret =>
    if ret = 0 ∧ n < count then msg_panic "null pointer dereference" else pure ret
  | tp :: next, n, ret =>
    if ret = 0 ∧ n < count then do
      let ret ← print_fn fp (flags ||| E.ATTR_FLAG_MORE)
        [SEND_ATTR_STR TLS_ATTR_MDALG tp.mdalg,
         SEND_ATTR_FUNC (.argv_attr_print tp.certs),
         SEND_ATTR_FUNC (.argv_attr_print tp.pkeys)]
      tls_proxy_client_tlsa_loop E print_fn fp flags count next (n + 1) ret
    else pure ret

/-- The function tls_proxy_client_tlsa_print. -/
def tls_proxy_client_tlsa_print (E : Env σ) (print_fn : ATTR_PRINT_MASTER_FN σ)
    (fp : VSTREAM) (flags : Nat) (tls_tlsa : TLS_TLSA) : Proc σ Int := do
  let count := chain_count tls_tlsa 0
  E.verbose_info ("tls_proxy_client_tlsa_print count=" ++ toString count)
  let ret ← print_fn fp (flags ||| E.ATTR_FLAG_MORE)
    [SEND_ATTR_INT TLS_ATTR_COUNT count]
  let ret ←
    if ret = 0 ∧ count > 0 then
      tls_proxy_client_tlsa_loop E print_fn fp flags count tls_tlsa 0 ret
    else pure ret
  E.verbose_info ("tls_proxy_client_tlsa_print ret=" ++ toString count)
  return ret

/-- The function tls_proxy_client_dane_print; `none` is the null pointer. -/
def tls_proxy_client_dane_print (E : Env σ) (print_fn : ATTR_PRINT_MASTER_FN σ)
    (fp : VSTREAM) (flags : Nat) (ptr : Option TLS_DANE) : Proc σ Int := do
  let ret ← print_fn fp (flags ||| E.ATTR_FLAG_MORE)
    [SEND_ATTR_INT TLS_ATTR_DANE (c_bool ptr.isSome)]
  E.verbose_info ("tls_proxy_client_dane_print dane=" ++ toString (c_bool ptr.isSome))
  let ret ←
    match ptr with
    | some dane =>
      if ret = 0 then
        print_fn fp (flags ||| E.ATTR_FLAG_MORE)
          [SEND_ATTR_FUNC (.tls_proxy_client_tlsa_print dane.ta),
           SEND_ATTR_FUNC (.tls_proxy_client_tlsa_print dane.ee),
           SEND_ATTR_FUNC (.tls_proxy_client_certs_print dane.certs),
           SEND_ATTR_FUNC (.tls_proxy_client_pkeys_print dane.pkeys),
           SEND_ATTR_STR TLS_ATTR_DOMAIN (STRING_OR_EMPTY dane.base_domain),
           SEND_ATTR_INT TLS_ATTR_FLAGS dane.flags,
           SEND_ATTR_LONG TLS_ATTR_EXP dane.expires]
      else pure ret
    | none => pure ret
  E.verbose_info ("tls_proxy_client_dane_print ret=" ++ toString ret)
  return ret

/-- The function tls_proxy_client_start_print. -/
def tls_proxy_client_start_print (E : Env σ) (print_fn : ATTR_PRINT_MASTER_FN σ)
    (fp : VSTREAM) (flags : Nat) (props : TLS_CLIENT_START_PROPS) : Proc σ Int := do
  E.verbose_info "begin tls_proxy_client_start_print"
  let ret ← print_fn fp (flags ||| E.ATTR_FLAG_MORE)
    [SEND_ATTR_INT TLS_ATTR_TIMEOUT props.timeout,
     SEND_ATTR_INT TLS_ATTR_TLS_LEVEL props.tls_level,
     SEND_ATTR_STR TLS_ATTR_NEXTHOP (STRING_OR_EMPTY props.nexthop),
     SEND_ATTR_STR TLS_ATTR_HOST (STRING_OR_EMPTY props.host),
     SEND_ATTR_STR TLS_ATTR_NAMADDR (STRING_OR_EMPTY props.namaddr),
     SEND_ATTR_STR TLS_ATTR_SERVERID (STRING_OR_EMPTY props.serverid),
     SEND_ATTR_STR TLS_ATTR_HELO (STRING_OR_EMPTY props.helo),
     SEND_ATTR_STR TLS_ATTR_PROTOCOLS (STRING_OR_EMPTY props.protocols),
     SEND_ATTR_STR TLS_ATTR_CIPHER_GRADE (STRING_OR_EMPTY props.cipher_grade),
     SEND_ATTR_STR TLS_ATTR_CIPHER_EXCLUSIONS (STRING_OR_EMPTY props.cipher_exclusions),
     SEND_ATTR_FUNC (.argv_attr_print props.matchargv),
     SEND_ATTR_STR TLS_ATTR_MDALG (STRING_OR_EMPTY props.mdalg),
     SEND_ATTR_FUNC (.tls_proxy_client_dane_print props.dane)]
  E.verbose_info ("tls_proxy_client_start_print ret=" ++ toString ret)
  return ret

end Encoders

/-! ## The print routine and the string-list encoder -/

section Driver

variable {σ : Type}

/-- Modelled from the spec: the element loop of argv_attr_print, one string
item per element in order, stopping at the first nonzero status. -/
def argv_attr_print_loop (E : Env σ) (print_fn : ATTR_PRINT_MASTER_FN σ)
    (fp : VSTREAM) (flags : Nat) : ARGV → Int → Proc σ Int
  | [], ret => pure ret
  | s :: rest, ret =>
    if ret = 0 then do
      let ret ← print_fn fp (flags ||| E.ATTR_FLAG_MORE)
        [SEND_ATTR_STR ARGV_ATTR_VALUE (some s)]
      argv_attr_print_loop E print_fn fp flags rest ret
    else pure ret

/-- Modelled from the spec: argv_attr_print (util/argv_attr_print.c) is not
under src/. It is the spec's count-prefixed "generic string-list form": the
count of strings first, then the strings in order, short-circuiting on the
first nonzero status. -/
def argv_attr_print (E : Env σ) (print_fn : ATTR_PRINT_MASTER_FN σ)
    (fp : VSTREAM) (flags : Nat) (argv : ARGV) : Proc σ Int := do
  let ret ← print_fn fp (flags ||| E.ATTR_FLAG_MORE)
    [SEND_ATTR_INT ARGV_ATTR_SIZE argv.length]
  argv_attr_print_loop E print_fn fp flags argv ret

/-- The call `f(print_fn, fp, flags, ptr)` a print routine makes for a
SEND_ATTR_FUNC item. -/
def call_callback (E : Env σ) (print_fn : ATTR_PRINT_MASTER_FN σ)
    (fp : VSTREAM) (flags : Nat) : Callback → Proc σ Int
  | .argv_attr_print ptr => argv_attr_print E print_fn fp flags ptr
  | .tls_proxy_client_tlsa_print ptr => tls_proxy_client_tlsa_print E print_fn fp flags ptr
  | .tls_proxy_client_certs_print ptr => tls_proxy_client_certs_print E print_fn fp flags ptr
  | .tls_proxy_client_pkeys_print ptr => tls_proxy_client_pkeys_print E print_fn fp flags ptr
  | .tls_proxy_client_dane_print ptr => tls_proxy_client_dane_print E print_fn fp flags ptr

/-- Modelled from the spec: the item loop of the attribute print routine. The
items are handled in order: a SEND_ATTR_FUNC item through `callback`, any other
item through the stream write `write`; the first nonzero status ends the call
and is returned, and 0 is returned when every item succeeded. -/
def attr_print_items (write : VSTREAM → Nat → Attr → Proc σ Int)
    (callback : VSTREAM → Nat → Callback → Proc σ Int)
    (fp : VSTREAM) (flags : Nat) : List Attr → Proc σ Int
  | [] => pure 0
  | a :: rest => do
    let ret ←
      match a with
      | .func cb => callback fp flags cb
      | _ => write fp flags a
    if ret ≠ 0 then
      return ret
    else
      attr_print_items write callback fp flags rest

/-- Modelled from the spec: the attribute print routine (attr_print0 and its
siblings in util/) is not under src/. It is the spec's "generic
attribute-printing driver": it writes the items to the stream in order and
invokes the encoder of a SEND_ATTR_FUNC item as a callback with itself as the
print routine. `depth` bounds how deep callbacks may nest. -/
def attr_print (E : Env σ) (write : VSTREAM → Nat → Attr → Proc σ Int) :
    Nat → ATTR_PRINT_MASTER_FN σ
  | 0 => fun fp flags attrs =>
    attr_print_items write (fun _ _ _ => msg_panic "attr_print: callbacks nested too deep")
      fp flags attrs
  | depth + 1 => fun fp flags attrs =>
    attr_print_items write (fun fp flags cb => call_callback E (attr_print E write depth) fp flags cb)
      fp flags attrs

/-- A stream that keeps the items written to it, in order; every write
succeeds. -/
def wire_write : VSTREAM → Nat → Attr → Proc (List Attr) Int :=
  fun _ _ a w => .ret 0 (w ++ [a])

/-- An environment in which diagnostics leave the process state alone. -/
def plain_env {σ : Type} (more : Nat) (verbose : Int) : Env σ :=
  { ATTR_FLAG_MORE := more, msg_verbose := verbose, msg_info := fun _ w => w }

/-- The print routine on `wire_write` streams, deep enough for every nesting
the encoders produce (start, DANE, TLSA, string list). -/
def wire_print (more : Nat) (verbose : Int) : ATTR_PRINT_MASTER_FN (List Attr) :=
  attr_print (plain_env more verbose) wire_write 4

/-- A print routine on which every call succeeds and which leaves the process
state alone. -/
def ok_print {σ : Type} : ATTR_PRINT_MASTER_FN σ := fun _ _ _ w => .ret 0 w

/-- A print routine on which every call fails with status `r`. -/
def fail_print {σ : Type} (r : Int) : ATTR_PRINT_MASTER_FN σ := fun _ _ _ w => .ret r w

end Driver

/-! ## Observing the print routine calls -/

section Observation

variable {σ α : Type}

/-- The process state an outcome ends in. -/
def Outcome.state : Outcome σ α → σ
  | .ret _ w => w
  | .fatal _ w => w

/-- How a call ended: it returned a status, or the process was terminated
inside it with a panic message. -/
inductive Ending where
  | returned (status : Int)
  | terminated (msg : String)
deriving DecidableEq, Repr

/-- How a run ended. -/
def Outcome.ending : Outcome σ Int → Ending
  | .ret r _ => .returned r
  | .fatal msg _ => .terminated msg

/-- One call of the print routine: its arguments and how it ended. -/
structure Call where
  fp : VSTREAM
  flags : Nat
  attrs : List Attr
  ending : Ending
deriving DecidableEq, Repr

/-- A print routine together with a record of the calls made to it: the
routine runs as before on the first component of the state, and every call
is appended to the second. -/
def logged (print_fn : ATTR_PRINT_MASTER_FN σ) : ATTR_PRINT_MASTER_FN (σ × List Call) :=
  fun fp flags attrs w =>
    match print_fn fp flags attrs w.1 with
    | .ret r w1 => .ret r (w1, w.2 ++ [⟨fp, flags, attrs, .returned r⟩])
    | .fatal msg w1 => .fatal msg (w1, w.2 ++ [⟨fp, flags, attrs, .terminated msg⟩])

/-- The environment on states that carry a call record: msg_info acts on the
first component. -/
def Env.logged (E : Env σ) : Env (σ × List Call) :=
  { ATTR_FLAG_MORE := E.ATTR_FLAG_MORE
    msg_verbose := E.msg_verbose
    msg_info := fun text w => (E.msg_info text w.1, w.2) }

/-- The calls recorded by a run. -/
def Outcome.calls (o : Outcome (σ × List Call) α) : List Call := o.state.2

end Observation

/-! ## dnsblog: the DNS blocklist lookup service (src/dnsblog/dnsblog.c)

The DNS library, the address conversion routines, the attribute scan routine
and the constants of their headers are not defined in the file; they are
parameters of the embedding (`DNSBLOG_ENV`). The static buffers and what the
service logs and sends are the process state (`DNSBLOG_STATE`). -/

section Dnsblog

/-- The C routine msg_fatal: log the message and terminate the process. -/
def msg_fatal {σ α : Type} (msg : String) : Proc σ α := fun w => .fatal msg w

/-- The C string at a pointer: the characters before the first null. -/
def c_string (mem : List Nat) : String :=
  String.mk ((mem.takeWhile (fun c => c ≠ 0)).map Char.ofNat)

/-- Modelled from the spec: vstring_strcat (util/vstring.c) is not under src/.
It stores the characters of `src` at the write position, moves the write
position past them, and stores a terminating null after them, which is not part
of the payload. Characters are kept as their codes. -/
def vstring_strcat (vp : VSTRING) (src : String) : VSTRING :=
  { data := vp.data.take vp.ptr ++ src.toList.map Char.toNat ++ [0] ++
      vp.data.drop (vp.ptr + src.length + 1),
    ptr := vp.ptr + src.length }

/-- The conversion `%x` of printf: lowercase hexadecimal, no padding. -/
def fmt_x (n : Nat) : String := String.mk (Nat.toDigits 16 n)

/-- Modelled from the spec: vstring_sprintf_append (util/vstring.c) is not
under src/; this is the call with the format "%x.%x.", which appends the
formatted text at the write position like vstring_strcat. -/
def vstring_sprintf_append_x_x (vp : VSTRING) (a b : Nat) : VSTRING :=
  vstring_strcat vp (fmt_x a ++ "." ++ fmt_x b ++ ".")

/-- Modelled from the spec: the token loop of argv_split, with the characters
of the token being read in `cur`. -/
def argv_split_loop (delim : List Char) : List Char → List Char → ARGV
  | [], cur => if cur = [] then [] else [String.mk cur]
  | c :: cs, cur =>
    if c ∈ delim then
      if cur = [] then argv_split_loop delim cs []
      else String.mk cur :: argv_split_loop delim cs []
    else argv_split_loop delim cs (cur ++ [c])

/-- Modelled from the spec: argv_split (util/argv_split.c) is not under src/.
It breaks a string into the tokens that its delimiter characters separate;
a token is never empty. -/
def argv_split (string : String) (delim : String) : ARGV :=
  argv_split_loop delim.toList string.toList []

/-- A DNS resource record as the service sees it: its type, and the rest of it,
which only the DNS library reads. -/
structure DNS_RR where
  type : Nat
  data : List Nat
deriving DecidableEq, Repr

/-- What dns_lookup hands back: its status, the reply records, and the text it
leaves in `why`. -/
structure DNS_REPLY where
  status : Int
  addr_list : List DNS_RR
  why : String
deriving DecidableEq, Repr

/-- What hostaddr_to_sockaddr hands back on success: the address family and the
bytes of the IPv6 address. -/
structure ADDRINFO where
  ai_family : Int
  sin6_addr : List Nat
deriving DecidableEq, Repr

/-- What dnsblog.c uses and does not define. `hostaddr_to_sockaddr` and
`dns_rr_to_pa` give `none` where the C routine reports failure;
`attr_scan` gives the number of attributes received and the strings it left in
the buffers `rbl_domain` and `addr`. -/
structure DNSBLOG_ENV where
  msg_verbose : Int
  HAS_IPV6 : Bool
  valid_ipv6_hostaddr : String → Bool
  hostaddr_to_sockaddr : String → Option ADDRINFO
  PF_INET6 : Int
  dns_lookup : String → DNS_REPLY
  DNS_OK : Int
  DNS_NOTFOUND : Int
  dns_rr_to_pa : DNS_RR → Option String
  dns_strtype : Nat → String
  attr_scan : VSTREAM → Int × String × String
  ATTR_FLAG_NONE : Nat

/-- The state of a dnsblog process: the four static buffers (`rbl_domain`,
`addr` and `why` by their text), the records logged with msg_info and
msg_warn, the attr_print calls made (stream, flags, items) and the streams
flushed. -/
structure DNSBLOG_STATE where
  rbl_domain : String
  addr : String
  query : VSTRING
  why : String
  log : List String
  sent : List (VSTREAM × Nat × List Attr)
  flushed : List VSTREAM
deriving DecidableEq, Repr

/-- The routines msg_info and msg_warn: the text is logged. -/
def dnsblog_log (text : String) : Proc DNSBLOG_STATE Unit :=
  fun s => .ret () { s with log := s.log ++ [text] }

/-- The statement `if (msg_verbose) msg_info(text)`. -/
def dnsblog_verbose_log (D : DNSBLOG_ENV) (text : String) : Proc DNSBLOG_STATE Unit :=
  fun s => .ret () (if D.msg_verbose ≠ 0 then { s with log := s.log ++ [text] } else s)

/-- An update of the static buffer `query`. -/
def dnsblog_query_update (f : VSTRING → VSTRING) : Proc DNSBLOG_STATE Unit :=
  fun s => .ret () { s with query := f s.query }

/-- The IPv4 loop `for (i = octets->argc - 1; i >= 0; i--)`, entered with
`i + 1` passes to go. -/
def dnsblog_octets_loop (octets : ARGV) : Nat → VSTRING → VSTRING
  | 0, query => query
  | i + 1, query =>
    dnsblog_octets_loop octets i
      (vstring_strcat (vstring_strcat query (octets.getD i "")) ".")

/-- The IPv6 loop `for (i = sizeof(...) - 1; i >= 0; i--)`, entered with
`i + 1` passes to go. -/
def dnsblog_ipv6_loop (ipv6_addr : List Nat) : Nat → VSTRING → VSTRING
  | 0, query => query
  | i + 1, query =>
    dnsblog_ipv6_loop ipv6_addr i
      (vstring_sprintf_append_x_x query (ipv6_addr.getD i 0 &&& 0xf) (ipv6_addr.getD i 0 >>> 4))

/-- The reply loop `for (rr = addr_list; rr != 0; rr = rr->next)` of
dnsblog_query, entered with the current value of `found`. -/
def dnsblog_rr_loop (D : DNSBLOG_ENV) (myname dnsbl_domain addr query : String) :
    List DNS_RR → Int → Proc DNSBLOG_STATE Int
  | [], found => pure found
  | rr :: next, found =>
    match D.dns_rr_to_pa rr with
    | none => do
      dnsblog_log (myname ++ ": skipping reply record type " ++ D.dns_strtype rr.type ++
        " for query " ++ query)
      dnsblog_rr_loop D myname dnsbl_domain addr query next found
    | some hostaddr => do
      dnsblog_log ("addr " ++ addr ++ " blocked by domain " ++ dnsbl_domain ++ " as " ++ hostaddr)
      dnsblog_rr_loop D myname dnsbl_domain addr query next 1

/-- The function dnsblog_query. -/
def dnsblog_query (D : DNSBLOG_ENV) (dnsbl_domain addr : String) : Proc DNSBLOG_STATE Int := do
  let myname := "dnsblog_query"
  dnsblog_verbose_log D (myname ++ ": addr " ++ addr ++ " dnsbl_domain " ++ dnsbl_domain)
  dnsblog_query_update VSTRING_RESET
  if D.HAS_IPV6 = true ∧ D.valid_ipv6_hostaddr addr = true then
    match D.hostaddr_to_sockaddr addr with
    | none => msg_fatal (myname ++ ": unable to convert address " ++ addr)
    | some res =>
      if res.ai_family ≠ D.PF_INET6 then
        msg_fatal (myname ++ ": unable to convert address " ++ addr)
      else
        dnsblog_query_update (dnsblog_ipv6_loop res.sin6_addr 16)
  else
    dnsblog_query_update
      (dnsblog_octets_loop (argv_split addr ".") (argv_split addr ".").length)
  dnsblog_query_update (fun query => vstring_strcat query dnsbl_domain)
  let reply ← (fun s => .ret (D.dns_lookup (c_string (STR s.query))) s :
    Proc DNSBLOG_STATE DNS_REPLY)
  (fun s => .ret () { s with why := reply.why } : Proc DNSBLOG_STATE Unit)
  let query ← (fun s => .ret (c_string (STR s.query)) s : Proc DNSBLOG_STATE String)
  if reply.status = D.DNS_OK then
    dnsblog_rr_loop D myname dnsbl_domain addr query reply.addr_list 0
  else if reply.status = D.DNS_NOTFOUND then do
    dnsblog_verbose_log D
      (myname ++ ": addr " ++ addr ++ " not listed under domain " ++ dnsbl_domain)
    return 0
  else do
    dnsblog_log (myname ++ ": lookup error for DNS query " ++ query ++ ": " ++ reply.why)
    return 0

/-- The function dnsblog_service; `argv` is the null-terminated argument
vector. -/
def dnsblog_service (D : DNSBLOG_ENV) (client_stream : VSTREAM) (_unused_service : String)
    (argv : List String) : Proc DNSBLOG_STATE Unit :=
  match argv with
  | arg :: _ => msg_fatal ("unexpected command-line argument: " ++ arg)
  | [] => do
    let scanned := D.attr_scan client_stream
    (fun s => .ret () { s with rbl_domain := scanned.2.1, addr := scanned.2.2 } :
      Proc DNSBLOG_STATE Unit)
    if scanned.1 = 2 then do
      let s ← (fun s => .ret s s : Proc DNSBLOG_STATE DNSBLOG_STATE)
      let found ← dnsblog_query D s.rbl_domain s.addr
      (fun s => .ret () { s with
          sent := s.sent ++ [(client_stream, D.ATTR_FLAG_NONE,
            [Attr.str MAIL_ATTR_RBL_DOMAIN (some s.rbl_domain),
             Attr.str MAIL_ATTR_ADDR (some s.addr),
             Attr.int MAIL_ATTR_STATUS found])],
          flushed := s.flushed ++ [client_stream] } : Proc DNSBLOG_STATE Unit)
    else pure ()

end Dnsblog

/-! ## postconf: the configuration utility (postconf/postconf.c)

The parameter tables, the configuration dictionary routines, get_hostname and
mynetworks are not defined in the file; the tables' entries are arguments, the
dictionary is part of the process state (`POSTCONF_STATE`), and the other
routines and the parameter name macros are parameters (`POSTCONF_ENV`). -/

section Postconf

/-- The macro SHOW_NONDEF, `(1<<0)`: show non-default settings. -/
def SHOW_NONDEF : Nat := 1 <<< 0

/-- The macro SHOW_DEFS, `(1<<1)`: show default setting. -/
def SHOW_DEFS : Nat := 1 <<< 1

/-- The macro SHOW_NAME, `(1<<2)`: show parameter name. -/
def SHOW_NAME : Nat := 1 <<< 2

/-- The bitwise complement `~x` of a 32-bit int, as its 32-bit pattern. -/
def c_not32 (x : Nat) : Nat := 4294967295 ^^^ x

/-- An entry of bool_table: the members the printing code reads. -/
structure CONFIG_BOOL_TABLE where
  name : String
  defval : Int
deriving DecidableEq, Repr

/-- An entry of int_table: the members the printing code reads. -/
structure CONFIG_INT_TABLE where
  name : String
  defval : Int
deriving DecidableEq, Repr

/-- An entry of str_table: the members the printing code reads. -/
structure CONFIG_STR_TABLE where
  name : String
  defval : String
deriving DecidableEq, Repr

/-- The default-value functions that str_fn_table and str_fn_table_2 point
to. -/
inductive STR_FN where
  | check_myhostname
  | check_mydomainname
  | check_mynetworks
deriving DecidableEq, Repr

/-- An entry of str_fn_table or str_fn_table_2: the members the printing code
reads. -/
structure CONFIG_STR_FN_TABLE where
  name : String
  defval : STR_FN
deriving DecidableEq, Repr

/-- What postconf.c uses and does not define: the result of get_hostname, the
routine mail_conf_lookup_eval (as a function of the dictionary), the result of
mynetworks, and the macros of mail_params.h that the code names. -/
structure POSTCONF_ENV where
  get_hostname : String
  mail_conf_lookup_eval : List (String × String) → String → Option String
  mynetworks : String
  VAR_MYHOSTNAME : String
  VAR_MYDOMAIN : String
  VAR_MYNETWORKS : String
  DEF_INET_INTERFACES : String
  var_config_dir : String

/-- The state of a postconf process: the globals `mode`, `msg_verbose`,
`var_myhostname` and `var_inet_interfaces`, the dictionary CONFIG_DICT (name
and value pairs; a lookup takes the first pair with the name), the texts
written to VSTREAM_OUT with vstream_printf, the number of times it was
flushed, and the warnings logged. -/
structure POSTCONF_STATE where
  mode : Nat
  msg_verbose : Int
  var_myhostname : Option String
  var_inet_interfaces : Option String
  config_dict : List (String × String)
  out : List String
  flushes : Nat
  warnings : List String
deriving DecidableEq, Repr

/-- The call `dict_lookup(CONFIG_DICT, name)`; `none` is the null pointer. -/
def dict_lookup_CONFIG_DICT (name : String) : Proc POSTCONF_STATE (Option String) :=
  fun s => .ret (s.config_dict.lookup name) s

/-- The call `vstream_printf(...)` with the formatted text. -/
def vstream_printf (text : String) : Proc POSTCONF_STATE Unit :=
  fun s => .ret () { s with out := s.out ++ [text] }

/-- The function check_myhostname; it reads the global `mode`. -/
def check_myhostname (P : POSTCONF_ENV) : Proc POSTCONF_STATE String := do
  let name := P.get_hostname
  let s ← (fun s => .ret s s : Proc POSTCONF_STATE POSTCONF_STATE)
  if s.mode &&& SHOW_DEFS = 0 ∧ '.' ∉ name.toList then
    match P.mail_conf_lookup_eval s.config_dict P.VAR_MYDOMAIN with
    | none =>
      msg_fatal ("My hostname " ++ name ++ " is not a fully qualified name - set " ++
        P.VAR_MYHOSTNAME ++ " or " ++ P.VAR_MYDOMAIN ++ " in " ++ P.var_config_dir ++ "/main.cf")
    | some domain => return name ++ "." ++ domain
  else return name

/-- The function get_myhostname. -/
def get_myhostname (P : POSTCONF_ENV) : Proc POSTCONF_STATE Unit := do
  let value ← dict_lookup_CONFIG_DICT P.VAR_MYHOSTNAME
  let name ←
    match value with
    | some name => pure name
    | none => check_myhostname P
  (fun s => .ret () { s with var_myhostname := some name } : Proc POSTCONF_STATE Unit)

/-- The function check_mydomainname: the host name when it has no dot or no
second dot, and otherwise the text after its first dot. -/
def check_mydomainname (P : POSTCONF_ENV) : Proc POSTCONF_STATE String := do
  let s ← (fun s => .ret s s : Proc POSTCONF_STATE POSTCONF_STATE)
  if s.var_myhostname = none then
    get_myhostname P
  let s ← (fun s => .ret s s : Proc POSTCONF_STATE POSTCONF_STATE)
  let var_myhostname := s.var_myhostname.getD ""
  let dot := var_myhostname.toList.dropWhile (fun c => c ≠ '.')
  if dot = [] ∨ '.' ∉ dot.tail then
    return var_myhostname
  else
    return String.mk dot.tail

/-- The function check_mynetworks. -/
def check_mynetworks (P : POSTCONF_ENV) : Proc POSTCONF_STATE String := do
  let s ← (fun s => .ret s s : Proc POSTCONF_STATE POSTCONF_STATE)
  if s.var_inet_interfaces = none then
    (fun s => .ret () { s with var_inet_interfaces := some P.DEF_INET_INTERFACES } :
      Proc POSTCONF_STATE Unit)
  return P.mynetworks

/-- The call `csft->defval()`. -/
def call_defval (P : POSTCONF_ENV) : STR_FN → Proc POSTCONF_STATE String
  | .check_myhostname => check_myhostname P
  | .check_mydomainname => check_mydomainname P
  | .check_mynetworks => check_mynetworks P

/-- The function show_strval. -/
def show_strval (mode : Nat) (name value : String) : Proc POSTCONF_STATE Unit :=
  if mode &&& SHOW_NAME ≠ 0 then
    vstream_printf (name ++ " = " ++ value ++ "\n")
  else
    vstream_printf (value ++ "\n")

/-- The function show_intval; `%d` prints the decimal value. -/
def show_intval (mode : Nat) (name : String) (value : Int) : Proc POSTCONF_STATE Unit :=
  if mode &&& SHOW_NAME ≠ 0 then
    vstream_printf (name ++ " = " ++ toString value ++ "\n")
  else
    vstream_printf (toString value ++ "\n")

/-- The function print_bool. -/
def print_bool (mode : Nat) (cbt : CONFIG_BOOL_TABLE) : Proc POSTCONF_STATE Unit :=
  if mode &&& SHOW_DEFS ≠ 0 then
    show_strval mode cbt.name (if cbt.defval ≠ 0 then "yes" else "no")
  else do
    let value ← dict_lookup_CONFIG_DICT cbt.name
    if mode &&& SHOW_NONDEF = 0 then
      match value with
      | none => show_strval mode cbt.name (if cbt.defval ≠ 0 then "yes" else "no")
      | some value => show_strval mode cbt.name value
    else
      match value with
      | some value => show_strval mode cbt.name value
      | none => pure ()

/-- The function print_int. -/
def print_int (mode : Nat) (cit : CONFIG_INT_TABLE) : Proc POSTCONF_STATE Unit :=
  if mode &&& SHOW_DEFS ≠ 0 then
    show_intval mode cit.name cit.defval
  else do
    let value ← dict_lookup_CONFIG_DICT cit.name
    if mode &&& SHOW_NONDEF = 0 then
      match value with
      | none => show_intval mode cit.name cit.defval
      | some value => show_strval mode cit.name value
    else
      match value with
      | some value => show_strval mode cit.name value
      | none => pure ()

/-- The function print_str. -/
def print_str (mode : Nat) (cst : CONFIG_STR_TABLE) : Proc POSTCONF_STATE Unit :=
  if mode &&& SHOW_DEFS ≠ 0 then
    show_strval mode cst.name cst.defval
  else do
    let value ← dict_lookup_CONFIG_DICT cst.name
    if mode &&& SHOW_NONDEF = 0 then
      match value with
      | none => show_strval mode cst.name cst.defval
      | some value => show_strval mode cst.name value
    else
      match value with
      | some value => show_strval mode cst.name value
      | none => pure ()

/-- The function print_str_fn. -/
def print_str_fn (P : POSTCONF_ENV) (mode : Nat) (csft : CONFIG_STR_FN_TABLE) :
    Proc POSTCONF_STATE Unit :=
  if mode &&& SHOW_DEFS ≠ 0 then do
    let defval ← call_defval P csft.defval
    show_strval mode csft.name defval
  else do
    let value ← dict_lookup_CONFIG_DICT csft.name
    if mode &&& SHOW_NONDEF = 0 then
      match value with
      | none => do
        let defval ← call_defval P csft.defval
        show_strval mode csft.name defval
      | some value => show_strval mode csft.name value
    else
      match value with
      | some value => show_strval mode csft.name value
      | none => pure ()

/-- The function print_str_fn_2. -/
def print_str_fn_2 (P : POSTCONF_ENV) (mode : Nat) (csft : CONFIG_STR_FN_TABLE) :
    Proc POSTCONF_STATE Unit :=
  if mode &&& SHOW_DEFS ≠ 0 then do
    let defval ← call_defval P csft.defval
    show_strval mode csft.name defval
  else do
    let value ← dict_lookup_CONFIG_DICT csft.name
    if mode &&& SHOW_NONDEF = 0 then
      match value with
      | none => do
        let defval ← call_defval P csft.defval
        show_strval mode csft.name defval
      | some value => show_strval mode csft.name value
    else
      match value with
      | some value => show_strval mode csft.name value
      | none => pure ()

/-- The option loop of main, `while ((ch = GETOPT(argc, argv, "dhnv")) > 0)`,
over the option letters GETOPT returns in order; a letter outside "dhnv"
reaches the default case. -/
def postconf_options (argv0 : String) : List Char → Proc POSTCONF_STATE Unit
  | [] => pure ()
  | ch :: rest =>
    if ch = 'd' then do
      let s ← (fun s => .ret s s : Proc POSTCONF_STATE POSTCONF_STATE)
      if s.mode &&& SHOW_NONDEF ≠ 0 then
        msg_fatal "specify one of -d and -n"
      else do
        (fun s => .ret () { s with mode := s.mode ||| SHOW_DEFS } : Proc POSTCONF_STATE Unit)
        postconf_options argv0 rest
    else if ch = 'h' then do
      (fun s => .ret () { s with mode := s.mode &&& c_not32 SHOW_NAME } :
        Proc POSTCONF_STATE Unit)
      postconf_options argv0 rest
    else if ch = 'n' then do
      let s ← (fun s => .ret s s : Proc POSTCONF_STATE POSTCONF_STATE)
      if s.mode &&& SHOW_DEFS ≠ 0 then
        msg_fatal "specify one of -d and -n"
      else do
        (fun s => .ret () { s with mode := s.mode ||| SHOW_NONDEF } : Proc POSTCONF_STATE Unit)
        postconf_options argv0 rest
    else if ch = 'v' then do
      (fun s => .ret () { s with msg_verbose := s.msg_verbose + 1 } : Proc POSTCONF_STATE Unit)
      postconf_options argv0 rest
    else
      msg_fatal ("usage: " ++ argv0 ++
        " [-d (defaults)] [-h (no names)] [-n (non-defaults)] [-v] name...")

/-- A pointer into one of the five parameter tables, as the hash table stores
it: the table it points into and the entry it points at. -/
inductive PARAM_PTR where
  | bool_table (cbt : CONFIG_BOOL_TABLE)
  | int_table (cit : CONFIG_INT_TABLE)
  | str_table (cst : CONFIG_STR_TABLE)
  | str_fn_table (csft : CONFIG_STR_FN_TABLE)
  | str_fn_table_2 (csft : CONFIG_STR_FN_TABLE)
deriving DecidableEq, Repr

/-- Modelled from the spec: an entry of a hash table (util/htable.h is not
under src/), its key and its value. -/
structure HTABLE_INFO where
  key : String
  value : PARAM_PTR
deriving DecidableEq, Repr

/-- Modelled from the spec: the hash table type HTABLE (util/htable.c is not
under src/), as the list of its entries in the order htable_list gives them. -/
abbrev HTABLE := List HTABLE_INFO

/-- Modelled from the spec: htable_create, an empty table. -/
def htable_create (_size : Nat) : HTABLE := []

/-- Modelled from the spec: htable_enter, which adds an entry and does not
look for an entry with the same key. -/
def htable_enter (table : HTABLE) (key : String) (value : PARAM_PTR) : HTABLE :=
  ⟨key, value⟩ :: table

/-- Modelled from the spec: htable_find, the value of an entry with the key;
`none` is the null pointer it returns when there is no such entry. -/
def htable_find (table : HTABLE) (key : String) : Option PARAM_PTR :=
  (table.find? (fun ht => ht.key = key)).map HTABLE_INFO.value

/-- Modelled from the spec: htable_list, the entries of the table. -/
def htable_list (table : HTABLE) : List HTABLE_INFO := table

/-- The comparison loop of the C library routine strcmp on strings without
null characters: zero for equal strings, and otherwise the sign of the
difference at the first position where the strings differ, the end of a string
being less than any character. -/
def strcmp_loop : List Char → List Char → Int
  | [], [] => 0
  | [], _ :: _ => -1
  | _ :: _, [] => 1
  | c1 :: s1, c2 :: s2 =>
    if c1.toNat = c2.toNat then strcmp_loop s1 s2 else (c1.toNat : Int) - (c2.toNat : Int)

/-- The C library routine strcmp. -/
def strcmp (s1 s2 : String) : Int := strcmp_loop s1.toList s2.toList

/-- The C library routine qsort on an array of table entries: the entries in
ascending order of the comparison function. The order it gives entries that
compare equal is not specified; here they keep their order. -/
def qsort (base : List HTABLE_INFO) (compar : HTABLE_INFO → HTABLE_INFO → Int) :
    List HTABLE_INFO :=
  base.insertionSort (fun a b => compar a b ≤ 0)

/-- The tables that postconf.c includes from generated headers: bool_table,
int_table and str_table, each without its terminating entry. -/
structure POSTCONF_TABLES where
  bool_table : List CONFIG_BOOL_TABLE
  int_table : List CONFIG_INT_TABLE
  str_table : List CONFIG_STR_TABLE
deriving DecidableEq, Repr

/-- The table str_fn_table. -/
def str_fn_table (P : POSTCONF_ENV) : List CONFIG_STR_FN_TABLE :=
  [⟨P.VAR_MYHOSTNAME, .check_myhostname⟩, ⟨P.VAR_MYDOMAIN, .check_mydomainname⟩]

/-- The table str_fn_table_2. -/
def str_fn_table_2 (P : POSTCONF_ENV) : List CONFIG_STR_FN_TABLE :=
  [⟨P.VAR_MYNETWORKS, .check_mynetworks⟩]

/-- The function hash_parameters; its result is the global `param_table`. -/
def hash_parameters (P : POSTCONF_ENV) (T : POSTCONF_TABLES) : HTABLE :=
  let param_table := htable_create 100
  let param_table := T.bool_table.foldl
    (fun table cbt => htable_enter table cbt.name (.bool_table cbt)) param_table
  let param_table := T.int_table.foldl
    (fun table cit => htable_enter table cit.name (.int_table cit)) param_table
  let param_table := T.str_table.foldl
    (fun table cst => htable_enter table cst.name (.str_table cst)) param_table
  let param_table := (str_fn_table P).foldl
    (fun table csft => htable_enter table csft.name (.str_fn_table csft)) param_table
  (str_fn_table_2 P).foldl
    (fun table csft => htable_enter table csft.name (.str_fn_table_2 csft)) param_table

/-- The routine msg_warn: the text is logged. -/
def msg_warn (text : String) : Proc POSTCONF_STATE Unit :=
  fun s => .ret () { s with warnings := s.warnings ++ [text] }

/-- The statement `if (msg_verbose) vstream_fflush(VSTREAM_OUT)`. -/
def verbose_fflush : Proc POSTCONF_STATE Unit :=
  fun s => .ret () (if s.msg_verbose ≠ 0 then { s with flushes := s.flushes + 1 } else s)

/-- The function print_parameter. Of the five tests `INSIDE(ptr, table)` the
one for the table the pointer points into holds. -/
def print_parameter (P : POSTCONF_ENV) (mode : Nat) (ptr : PARAM_PTR) :
    Proc POSTCONF_STATE Unit :=
  (match ptr with
    | .bool_table cbt => print_bool mode cbt
    | .int_table cit => print_int mode cit
    | .str_table cst => print_str mode cst
    | .str_fn_table csft => print_str_fn P mode csft
    | .str_fn_table_2 csft => print_str_fn_2 P mode csft) >>= fun _ =>
  verbose_fflush

/-- The function comp_names. -/
def comp_names (a b : HTABLE_INFO) : Int := strcmp a.key b.key

/-- The loop `for (ht = list; *ht; ht++)` of show_parameters. -/
def show_parameters_list_loop (P : POSTCONF_ENV) (mode : Nat) :
    List HTABLE_INFO → Proc POSTCONF_STATE Unit
  | [] => pure ()
  | ht :: rest => do
    print_parameter P mode ht.value
    show_parameters_list_loop P mode rest

/-- The loop `for (namep = names; *namep; namep++)` of show_parameters. -/
def show_parameters_names_loop (P : POSTCONF_ENV) (mode : Nat) (param_table : HTABLE) :
    List String → Proc POSTCONF_STATE Unit
  | [] => pure ()
  | name :: rest =>
    (match htable_find param_table name with
      | none => msg_warn (name ++ ": unknown parameter")
      | some value => print_parameter P mode value) >>= fun _ =>
    show_parameters_names_loop P mode param_table rest

/-- The function show_parameters, with the global `param_table` as an
argument; `names` is the null-terminated vector of names. -/
def show_parameters (P : POSTCONF_ENV) (mode : Nat) (param_table : HTABLE)
    (names : List String) : Proc POSTCONF_STATE Unit :=
  match names with
  | [] =>
    let list := htable_list param_table
    let list := qsort list comp_names
    show_parameters_list_loop P mode list
  | _ :: _ => show_parameters_names_loop P mode param_table names

end Postconf

/-! ## Devices for stating and proving the properties -/

section Devices

variable {σ ν : Type}

/-- The state after `if (msg_verbose) msg_info(text)`. -/
def Env.told (E : Env σ) (text : String) (w : σ) : σ :=
  if E.msg_verbose ≠ 0 then E.msg_info text w else w

/-- A run of calls that follows a plan: the calls are made on stream `fp`
with flags `fl`, carry the planned argument lists in order, each call after a
call that returned 0, and the run ends either after the whole plan with status
`fin`, or at the first call that did not return 0 with the status of that
call. -/
def Follows (fp : VSTREAM) (fl : Nat) (fin : Ending) :
    List (List Attr) → List Call → Ending → Prop
  | [], cs, st => cs = [] ∧ st = fin
  | _ :: _, [], _ => False
  | a :: rest, c :: cs, st =>
    c.fp = fp ∧ c.flags = fl ∧ c.attrs = a ∧
      if c.ending = .returned 0 then Follows fp fl fin rest cs st else cs = [] ∧ st = c.ending

/-- The common shape of the three body loops: one print call per node with the
argument list `body` computes, or a panic with the message `body` gives. -/
def chain_loop (E : Env σ) (print_fn : ATTR_PRINT_MASTER_FN σ) (fp : VSTREAM) (flags : Nat)
    (count : Nat) (body : ν → Except String (List Attr)) :
    List ν → Nat → Int → Proc σ Int
  | [], n, ret =>
    if ret = 0 ∧ n < count then msg_panic "null pointer dereference" else pure ret
  | x :: next, n, ret =>
    if ret = 0 ∧ n < count then
      match body x with
      | .error msg => msg_panic msg
      | .ok attrs => do
        let ret ← print_fn fp (flags ||| E.ATTR_FLAG_MORE) attrs
        chain_loop E print_fn fp flags count body next (n + 1) ret
    else pure ret

/-- The common shape of the three chain encoders. -/
def chain_print (E : Env σ) (print_fn : ATTR_PRINT_MASTER_FN σ) (fp : VSTREAM) (flags : Nat)
    (msg1 msg2 : Nat → String) (body : ν → Except String (List Attr))
    (chain : List ν) : Proc σ Int := do
  let count := chain_count chain 0
  E.verbose_info (msg1 count)
  let ret ← print_fn fp (flags ||| E.ATTR_FLAG_MORE)
    [SEND_ATTR_INT TLS_ATTR_COUNT count]
  let ret ←
    if ret = 0 ∧ count > 0 then
      chain_loop E print_fn fp flags count body chain 0 ret
    else pure ret
  E.verbose_info (msg2 count)
  return ret

/-- The argument lists of the nodes before the first node `body` rejects. -/
def chain_plan (body : ν → Except String (List Attr)) : List ν → List (List Attr)
  | [] => []
  | x :: next =>
    match body x with
    | .error _ => []
    | .ok attrs => attrs :: chain_plan body next

/-- How a chain encoder ends when every call returns 0: status 0, or no status
when `body` rejects a node. -/
def chain_fin (body : ν → Except String (List Attr)) : List ν → Ending
  | [] => .returned 0
  | x :: next =>
    match body x with
    | .error msg => .terminated msg
    | .ok _ => chain_fin body next

/-- What one pass of the certificate loop does with a node: a panic when the
DER encoder stored a different number of bytes than it reported, and otherwise
one print call with the data item the buffer yields (`data_attr_after_store`:
its length is LEN(buf), which is 0 at that point). -/
def cert_body (cert : X509) : Except String (List Attr) :=
  if cert.i2d_out.length ≠ cert.i2d_len then
    .error "i2d_X509 failed to encode certificate"
  else .ok [Attr.data TLS_ATTR_CERT 0 []]

/-- What one pass of the public-key loop does with a node: as for a
certificate. -/
def pkey_body (pkey : EVP_PKEY) : Except String (List Attr) :=
  if pkey.i2d_out.length ≠ pkey.i2d_len then
    .error "i2d_PUBKEY failed to encode public key"
  else .ok [Attr.data TLS_ATTR_PKEY 0 []]

/-- What one pass of the TLSA loop does with a node. -/
def tlsa_body (tp : TLS_TLSA_NODE) : Except String (List Attr) :=
  .ok [Attr.str TLS_ATTR_MDALG tp.mdalg,
       Attr.func (.argv_attr_print tp.certs),
       Attr.func (.argv_attr_print tp.pkeys)]

/-- The argument lists tls_proxy_client_dane_print submits when every call
returns 0. -/
def dane_plan (ptr : Option TLS_DANE) : List (List Attr) :=
  [Attr.int TLS_ATTR_DANE (c_bool ptr.isSome)] ::
    match ptr with
    | none => []
    | some dane =>
      [[Attr.func (.tls_proxy_client_tlsa_print dane.ta),
        Attr.func (.tls_proxy_client_tlsa_print dane.ee),
        Attr.func (.tls_proxy_client_certs_print dane.certs),
        Attr.func (.tls_proxy_client_pkeys_print dane.pkeys),
        Attr.str TLS_ATTR_DOMAIN (STRING_OR_EMPTY dane.base_domain),
        Attr.int TLS_ATTR_FLAGS dane.flags,
        Attr.long TLS_ATTR_EXP dane.expires]]

end Devices

/-! ## Inputs and readings used by the properties -/

section ClaimDevices

variable {σ : Type}

/-- The items submitted over a run, in order, call after call. -/
def Outcome.submitted (o : Outcome (σ × List Call) Int) : List Attr :=
  (o.calls.map Call.attrs).flatten

/-- A start record with an attached DANE record holding one certificate. -/
def start_with_cert (cert : X509) : TLS_CLIENT_START_PROPS :=
  { timeout := 300, tls_level := 2, nexthop := some "example.com",
    host := some "mail.example.com", namaddr := some "mail.example.com[192.0.2.1]:25",
    serverid := some "smtp", helo := some "client.example.org", protocols := some ">=TLSv1.2",
    cipher_grade := some "medium", cipher_exclusions := none, matchargv := ["nexthop"],
    mdalg := some "sha256",
    dane := some { ta := [], ee := [], certs := [cert], pkeys := [], base_domain := none,
                   flags := 0, expires := 1700000000 } }

/-- An absent string read as the empty string. -/
def absent_to_empty (s : CStr) : CStr :=
  match s with
  | none => some ""
  | some v => some v

/-- An init record with every absent string field replaced by the empty
string. -/
def init_normalize (p : TLS_CLIENT_INIT_PROPS) : TLS_CLIENT_INIT_PROPS :=
  { log_param := absent_to_empty p.log_param
    log_level := absent_to_empty p.log_level
    verifydepth := p.verifydepth
    cache_type := absent_to_empty p.cache_type
    cert_file := absent_to_empty p.cert_file
    key_file := absent_to_empty p.key_file
    dcert_file := absent_to_empty p.dcert_file
    dkey_file := absent_to_empty p.dkey_file
    eccert_file := absent_to_empty p.eccert_file
    eckey_file := absent_to_empty p.eckey_file
    CAfile := absent_to_empty p.CAfile
    CApath := absent_to_empty p.CApath
    mdalg := absent_to_empty p.mdalg }

/-- Read one string item off the front of an item list. -/
def scan_str : List Attr → Option (CStr × List Attr)
  | .str _ v :: rest => some (v, rest)
  | _ => none

/-- Read one integer item off the front of an item list. -/
def scan_int : List Attr → Option (Int × List Attr)
  | .int _ v :: rest => some (v, rest)
  | _ => none

/-- A decoder for the items of an init record: thirteen items in wire order,
the third an integer and the others strings, and nothing after them. -/
def init_scan (items : List Attr) : Option TLS_CLIENT_INIT_PROPS := do
  let (log_param, r) ← scan_str items
  let (log_level, r) ← scan_str r
  let (verifydepth, r) ← scan_int r
  let (cache_type, r) ← scan_str r
  let (cert_file, r) ← scan_str r
  let (key_file, r) ← scan_str r
  let (dcert_file, r) ← scan_str r
  let (dkey_file, r) ← scan_str r
  let (eccert_file, r) ← scan_str r
  let (eckey_file, r) ← scan_str r
  let (CAfile, r) ← scan_str r
  let (CApath, r) ← scan_str r
  let (mdalg, r) ← scan_str r
  match r with
  | [] =>
    some { log_param := log_param, log_level := log_level, verifydepth := verifydepth,
           cache_type := cache_type, cert_file := cert_file, key_file := key_file,
           dcert_file := dcert_file, dkey_file := dkey_file, eccert_file := eccert_file,
           eckey_file := eckey_file, CAfile := CAfile, CApath := CApath, mdalg := mdalg }
  | _ :: _ => none

/-- An init record with some strings absent and some present. -/
def init_example : TLS_CLIENT_INIT_PROPS :=
  { log_param := some "smtp_tls_loglevel", log_level := some "1", verifydepth := 9,
    cache_type := none, cert_file := some "/etc/postfix/cert.pem",
    key_file := some "/etc/postfix/key.pem", dcert_file := none, dkey_file := none,
    eccert_file := none, eckey_file := none, CAfile := some "/etc/ssl/ca.pem",
    CApath := none, mdalg := some "sha256" }

/-- A DANE record with one trust-anchor TLSA entry, one certificate, one
public key and no base domain. -/
def dane_example : TLS_DANE :=
  { ta := [⟨some "sha256", ["A"], []⟩], ee := [], certs := [⟨5, [48, 3, 1, 2, 3]⟩],
    pkeys := [⟨4, [48, 2, 5, 0]⟩], base_domain := none, flags := 0, expires := 1700000000 }

/-- First failure wins: a call that returned a nonzero status is the last call
of the run and the run returns that status; and a run that returns 0 made only
calls that returned 0. -/
def FirstFailureWins (cs : List Call) (st : Ending) : Prop :=
  (∀ (pre : List Call) (c : Call) (post : List Call) (r : Int),
      cs = pre ++ c :: post → c.ending = .returned r → r ≠ 0 →
        post = [] ∧ st = .returned r) ∧
  (st = .returned 0 → ∀ c ∈ cs, c.ending = .returned 0)

end ClaimDevices

/-! ## Readings used by the later properties -/

section ClaimDevices2

variable {σ : Type}

/-- A DANE record with an absent base domain replaced by the empty string. -/
def dane_normalize (dane : TLS_DANE) : TLS_DANE :=
  { dane with base_domain := absent_to_empty dane.base_domain }

/-- A start record with every absent string field replaced by the empty
string, in the record itself and in the base domain of its DANE record. -/
def start_normalize (p : TLS_CLIENT_START_PROPS) : TLS_CLIENT_START_PROPS :=
  { timeout := p.timeout
    tls_level := p.tls_level
    nexthop := absent_to_empty p.nexthop
    host := absent_to_empty p.host
    namaddr := absent_to_empty p.namaddr
    serverid := absent_to_empty p.serverid
    helo := absent_to_empty p.helo
    protocols := absent_to_empty p.protocols
    cipher_grade := absent_to_empty p.cipher_grade
    cipher_exclusions := absent_to_empty p.cipher_exclusions
    matchargv := p.matchargv
    mdalg := absent_to_empty p.mdalg
    dane := p.dane.map dane_normalize }

/-- A start record with every string absent, and a DANE record without a base
domain. -/
def start_all_absent : TLS_CLIENT_START_PROPS :=
  { timeout := 300, tls_level := 2, nexthop := none, host := none, namaddr := none,
    serverid := none, helo := none, protocols := none, cipher_grade := none,
    cipher_exclusions := none, matchargv := [], mdalg := none,
    dane := some { ta := [], ee := [], certs := [], pkeys := [], base_domain := none,
                   flags := 0, expires := 0 } }

/-- The items of a string list on the wire: the count and then the strings. -/
def argv_wire (argv : ARGV) : List Attr :=
  Attr.int ARGV_ATTR_SIZE argv.length :: argv.map (fun s => Attr.str ARGV_ATTR_VALUE (some s))

/-- The items of one TLSA entry on the wire: the digest algorithm name, the
certificate name list, the key name list. -/
def tlsa_wire (tp : TLS_TLSA_NODE) : List Attr :=
  Attr.str TLS_ATTR_MDALG tp.mdalg :: (argv_wire tp.certs ++ argv_wire tp.pkeys)

/-- A TLSA chain of two entries. -/
def tlsa_example : TLS_TLSA :=
  [⟨some "sha256", ["A"], []⟩, ⟨some "sha512", [], ["K1", "K2"]⟩]

/-- The DANE record of the concrete scenario: one trust-anchor TLSA entry with
algorithm "sha256", certificate names ["A"] and no key names; no end-entity
entries; empty certificate and key chains; no base domain; flags 0; expiry
1700000000. -/
def dane_scenario : TLS_DANE :=
  { ta := [⟨some "sha256", ["A"], []⟩], ee := [], certs := [], pkeys := [],
    base_domain := none, flags := 0, expires := 1700000000 }

/-- The status dnsblog_query returns for a DNS reply: 1 when the lookup status
is DNS_OK and some reply record converts to a printable address, 0 otherwise. -/
def dnsblog_found (D : DNSBLOG_ENV) (reply : DNS_REPLY) : Int :=
  if reply.status = D.DNS_OK ∧ ∃ rr ∈ reply.addr_list, (D.dns_rr_to_pa rr).isSome then 1 else 0

/-- The contents of the buffer `query` when dnsblog_query calls dns_lookup, as
far as the address conversion succeeds: the buffer is reset, the reversed
address is appended (IPv6 nibbles, or IPv4 octets), then the domain. -/
def dnsblog_built (D : DNSBLOG_ENV) (dnsbl_domain addr : String) (query : VSTRING) :
    Option VSTRING :=
  if D.HAS_IPV6 = true ∧ D.valid_ipv6_hostaddr addr = true then
    match D.hostaddr_to_sockaddr addr with
    | none => none
    | some res =>
      if res.ai_family ≠ D.PF_INET6 then none
      else some (vstring_strcat (dnsblog_ipv6_loop res.sin6_addr 16 (VSTRING_RESET query))
        dnsbl_domain)
  else
    some (vstring_strcat (dnsblog_octets_loop (argv_split addr ".") (argv_split addr ".").length
      (VSTRING_RESET query)) dnsbl_domain)

/-- The state after `if (msg_verbose) msg_info(text)` in dnsblog. -/
def dnsblog_told (D : DNSBLOG_ENV) (text : String) (s : DNSBLOG_STATE) : DNSBLOG_STATE :=
  if D.msg_verbose ≠ 0 then { s with log := s.log ++ [text] } else s

/-- The second half of dnsblog_query: the lookup and what follows it. -/
def dnsblog_query_tail (D : DNSBLOG_ENV) (dnsbl_domain addr : String) : Proc DNSBLOG_STATE Int :=
  (fun s => .ret (D.dns_lookup (c_string (STR s.query))) s :
      Proc DNSBLOG_STATE DNS_REPLY) >>= fun reply =>
    (fun s => .ret () { s with why := reply.why } : Proc DNSBLOG_STATE Unit) >>= fun _ =>
    (fun s => .ret (c_string (STR s.query)) s : Proc DNSBLOG_STATE String) >>= fun query =>
    if reply.status = D.DNS_OK then
      dnsblog_rr_loop D "dnsblog_query" dnsbl_domain addr query reply.addr_list 0
    else if reply.status = D.DNS_NOTFOUND then
      dnsblog_verbose_log D
        ("dnsblog_query" ++ ": addr " ++ addr ++ " not listed under domain " ++ dnsbl_domain) >>=
        fun _ => pure 0
    else
      dnsblog_log ("dnsblog_query" ++ ": lookup error for DNS query " ++ query ++ ": " ++
        reply.why) >>= fun _ => pure 0

/-- What dnsblog_query leaves alone: the buffers `rbl_domain` and `addr`, the
replies sent and the streams flushed. -/
def dnsblog_frame (s s2 : DNSBLOG_STATE) : Prop :=
  s2.rbl_domain = s.rbl_domain ∧ s2.addr = s.addr ∧ s2.sent = s.sent ∧ s2.flushed = s.flushed

/-- A DNS library whose lookup of "4.3.2.1.example.com" returns DNS_OK with one
reply record, and whose dns_rr_to_pa converts a record exactly when `convert`
is set; IPv6 support is compiled out. -/
def dns_env_example (convert : Bool) : DNSBLOG_ENV :=
  { msg_verbose := 0, HAS_IPV6 := false, valid_ipv6_hostaddr := fun _ => false,
    hostaddr_to_sockaddr := fun _ => none, PF_INET6 := 10,
    dns_lookup := fun name =>
      if name = "4.3.2.1.example.com" then ⟨0, [⟨1, [127, 0, 0, 2]⟩], ""⟩
      else ⟨-3, [], "Host not found"⟩,
    DNS_OK := 0, DNS_NOTFOUND := -3,
    dns_rr_to_pa := fun _ => if convert then some "127.0.0.2" else none,
    dns_strtype := fun _ => "A",
    attr_scan := fun _ => (2, "example.com", "1.2.3.4"), ATTR_FLAG_NONE := 0 }

/-- A dnsblog process state after post_jail_init, with residue of an earlier
request in the buffer `query`. -/
def dnsblog_state_example : DNSBLOG_STATE :=
  { rbl_domain := "", addr := "", query := ⟨[57, 46, 57, 46, 57, 46, 57, 46, 122, 0], 9⟩,
    why := "", log := [], sent := [], flushed := [] }

/-- The line postconf prints for a parameter value: `name = value` when
SHOW_NAME is set in the mode and the bare value otherwise. -/
def postconf_line (mode : Nat) (name value : String) : String :=
  if mode &&& SHOW_NAME ≠ 0 then name ++ " = " ++ value ++ "\n" else value ++ "\n"

/-- The lines postconf prints for a parameter in SHOW_NONDEF mode, given the
result of the dictionary lookup. -/
def nondef_lines (mode : Nat) (name : String) : Option String → List String
  | none => []
  | some value => [postconf_line mode name value]

/-- The value selected for a parameter with built-in default `defval`: the
default in SHOW_DEFS mode, and otherwise the dictionary entry when there is
one and the default when there is none. -/
def selected_value (mode : Nat) (s : POSTCONF_STATE) (name defval : String) : String :=
  if mode &&& SHOW_DEFS ≠ 0 then defval else (s.config_dict.lookup name).getD defval

/-- A host whose name "foo" has no dot, with a configuration that sets no
mydomain. -/
def postconf_env_example : POSTCONF_ENV :=
  { get_hostname := "foo", mail_conf_lookup_eval := fun dict name => dict.lookup name,
    mynetworks := "127.0.0.0/8", VAR_MYHOSTNAME := "myhostname", VAR_MYDOMAIN := "mydomain",
    VAR_MYNETWORKS := "mynetworks", DEF_INET_INTERFACES := "all",
    var_config_dir := "/etc/postfix" }

/-- A postconf process state before any output, with the given mode and
dictionary. -/
def postconf_state_example (mode : Nat) (dict : List (String × String)) : POSTCONF_STATE :=
  { mode := mode, msg_verbose := 0, var_myhostname := none, var_inet_interfaces := none,
    config_dict := dict, out := [], flushes := 0, warnings := [] }

/-- What the default-value functions leave alone: the text written so far, the
global mode and the dictionary. -/
def postconf_frame (s s1 : POSTCONF_STATE) : Prop :=
  s1.out = s.out ∧ s1.mode = s.mode ∧ s1.config_dict = s.config_dict

/-- The value selection of a routine `print` for parameters whose default is
computed by a function, from the state `s`. In SHOW_DEFS mode the function
returns and one line with its result is printed; with neither SHOW_DEFS nor
SHOW_NONDEF, one line with the dictionary entry is printed when there is an
entry, and when there is none one line with the function result is printed if
the function returns, and nothing is printed if it ends in a fatal error. -/
def StrFnSelects (P : POSTCONF_ENV) (mode : Nat) (s : POSTCONF_STATE)
    (print : CONFIG_STR_FN_TABLE → Proc POSTCONF_STATE Unit) : Prop :=
  (mode &&& SHOW_DEFS ≠ 0 → s.mode = mode → ∀ csft : CONFIG_STR_FN_TABLE,
    ∃ defval s1, call_defval P csft.defval s = .ret defval s1 ∧
      print csft s =
        .ret () { s1 with out := s.out ++ [postconf_line mode csft.name defval] }) ∧
  (mode &&& SHOW_DEFS = 0 → mode &&& SHOW_NONDEF = 0 → ∀ csft : CONFIG_STR_FN_TABLE,
    (∀ value, s.config_dict.lookup csft.name = some value →
      print csft s = .ret () { s with out := s.out ++ [postconf_line mode csft.name value] }) ∧
    (s.config_dict.lookup csft.name = none →
      (∀ defval s1, call_defval P csft.defval s = .ret defval s1 →
        print csft s =
          .ret () { s1 with out := s.out ++ [postconf_line mode csft.name defval] }) ∧
      (∀ msg s1, call_defval P csft.defval s = .fatal msg s1 →
        print csft s = .fatal msg s1 ∧ s1.out = s.out)))

/-- Every call of `cs` is made on stream `fp` with flags `flags | more`: each
bit of `more` is set in the flags of the call and every other bit is the bit
of the caller's `flags`. -/
def PassesFlags (more flags : Nat) (fp : VSTREAM) (cs : List Call) : Prop :=
  ∀ c ∈ cs, c.fp = fp ∧ c.flags = flags ||| more ∧
    (∀ i, more.testBit i = true → c.flags.testBit i = true) ∧
    (∀ i, more.testBit i = false → c.flags.testBit i = flags.testBit i)

/-- An item of an argument list that is not a string item with a null
pointer. -/
def attr_present : Attr → Bool
  | .str _ none => false
  | _ => true

/-- No string item handed to the print routine in the calls `cs` is a null
pointer. -/
def StringsPresent (cs : List Call) : Prop :=
  ∀ c ∈ cs, ∀ a ∈ c.attrs, attr_present a = true

/-- An environment whose msg_info appends the text to a diagnostic log kept
next to the process state, with the given verbosity flag. -/
def diag_env {σ : Type} (more : Nat) (verbose : Int) : Env (σ × List String) :=
  { ATTR_FLAG_MORE := more, msg_verbose := verbose,
    msg_info := fun text w => (w.1, w.2 ++ [text]) }

/-- A print routine run next to a diagnostic log, which it leaves alone. -/
def with_diag {σ : Type} (print_fn : ATTR_PRINT_MASTER_FN σ) :
    ATTR_PRINT_MASTER_FN (σ × List String) :=
  fun fp flags attrs w =>
    match print_fn fp flags attrs w.1 with
    | .ret r w1 => .ret r (w1, w.2)
    | .fatal msg w1 => .fatal msg (w1, w.2)

/-- Two states that differ at most in the diagnostic log: the same process
state and the same record of print routine calls. -/
def same_but_diag {σ : Type} (s1 s2 : (σ × List String) × List Call) : Prop :=
  s1.1.1 = s2.1.1 ∧ s1.2 = s2.2

/-- Two outcomes that differ at most in the diagnostic log. -/
def OutcomeAgree {σ α : Type} (o1 o2 : Outcome ((σ × List String) × List Call) α) : Prop :=
  match o1, o2 with
  | .ret a w1, .ret b w2 => a = b ∧ same_but_diag w1 w2
  | .fatal m1 w1, .fatal m2 w2 => m1 = m2 ∧ same_but_diag w1 w2
  | _, _ => False

/-- Two routines that, from states that differ at most in the diagnostic log,
end in outcomes that differ at most in the diagnostic log. -/
def RunsAgree {σ α : Type} (m1 m2 : Proc ((σ × List String) × List Call) α) : Prop :=
  ∀ s1 s2, same_but_diag s1 s2 → OutcomeAgree (m1 s1) (m2 s2)

/-- Two runs with the same observable behaviour: the same sequence of print
routine calls (stream, flags, arguments and how each call ended), the same
returned status or termination, and the same final process state. -/
def SameObservation {σ : Type} (o1 o2 : Outcome ((σ × List String) × List Call) Int) : Prop :=
  o1.calls = o2.calls ∧ o1.ending = o2.ending ∧ o1.state.1.1 = o2.state.1.1

/-- The buffer holds `bytes` as its payload: the write position is at their
end and they are the first bytes stored. -/
def vstring_holds (vp : VSTRING) (bytes : List Nat) : Prop :=
  vp.ptr = bytes.length ∧ ∃ rest, vp.data = bytes ++ rest

/-- The buffer holds `bytes` as its payload, followed by a terminating null. -/
def vstring_text (vp : VSTRING) (bytes : List Nat) : Prop :=
  vp.ptr = bytes.length ∧ ∃ rest, vp.data = bytes ++ 0 :: rest

/-- The character codes of a string. -/
def char_codes (text : String) : List Nat := text.toList.map Char.toNat

/-- A string that can be a C string: none of its characters is the null
character. -/
def c_text (text : String) : Prop := ∀ c ∈ text.toList, c.toNat ≠ 0

/-- A non-empty string of decimal digits. -/
def decimal_octet (text : String) : Prop :=
  text.toList ≠ [] ∧ ∀ c ∈ text.toList, c.isDigit = true

/-- The lowercase hexadecimal digit of a value below 16. -/
def hex_digit (n : Nat) : Char := "0123456789abcdef".toList.getD n '0'

/-- The query name the description gives for an IPv6 address with bytes `b`
and blocklist domain `dom`: for i from 15 down to 0, the low nibble of `b[i]`
then its high nibble, each as one hexadecimal digit followed by a dot, then
the domain. -/
def ipv6_query_name (b : List Nat) (dom : String) : String :=
  String.mk ((List.range 16).reverse.flatMap (fun i =>
    [hex_digit (b.getD i 0 % 16), '.', hex_digit (b.getD i 0 / 16), '.'])) ++ dom

/-- The characters the IPv6 loop appends in its last `n` passes. -/
def ipv6_nibbles (b : List Nat) : Nat → List Char
  | 0 => []
  | i + 1 =>
    [hex_digit (b.getD i 0 % 16), '.', hex_digit (b.getD i 0 / 16), '.'] ++ ipv6_nibbles b i

/-- A DNS library with IPv6 support in which the address "2001:db8::1"
converts to its 16 bytes. -/
def dns_env_ipv6_example : DNSBLOG_ENV :=
  { msg_verbose := 0, HAS_IPV6 := true, valid_ipv6_hostaddr := fun _ => true,
    hostaddr_to_sockaddr := fun _ =>
      some ⟨10, [0x20, 0x01, 0x0d, 0xb8, 0, 0, 0, 0, 0, 0, 0, 0, 0, 0, 0, 1]⟩,
    PF_INET6 := 10,
    dns_lookup := fun _ => ⟨-3, [], "Host not found"⟩,
    DNS_OK := 0, DNS_NOTFOUND := -3,
    dns_rr_to_pa := fun _ => none,
    dns_strtype := fun _ => "A",
    attr_scan := fun _ => (2, "example.com", "2001:db8::1"), ATTR_FLAG_NONE := 0 }

/-- Generated tables with one bool parameter and one string parameter. -/
def postconf_tables_example : POSTCONF_TABLES :=
  { bool_table := [⟨"biff", 1⟩], int_table := [],
    str_table := [⟨"queue_directory", "/var/spool/postfix"⟩] }

/-- Visiting a sequence of parameter names in order, each given with the table
value found for it (`none` when the name is not in the table): a name that is
not in the table gets a warning and nothing else, a name that is in the table
gets one call of print_parameter; a call that ends the process ends the
sequence, and the names after it are not visited. -/
def visit_in_order (P : POSTCONF_ENV) (mode : Nat) :
    List (String × Option PARAM_PTR) → Proc POSTCONF_STATE Unit
  | [] => pure ()
  | (name, none) :: rest => fun s =>
    visit_in_order P mode rest { s with warnings := s.warnings ++ [name ++ ": unknown parameter"] }
  | (_, some ptr) :: rest => fun s =>
    match print_parameter P mode ptr s with
    | .ret _ s1 => visit_in_order P mode rest s1
    | .fatal msg s1 => .fatal msg s1

end ClaimDevices2

/-! ## Lemmas -/

section Lemmas

variable {σ α β ν : Type}

theorem proc_bind_apply (m : Proc σ α) (f : α → Proc σ β) (w : σ) :
    (m >>= f) w = match m w with
      | .ret a w1 => f a w1
      | .fatal msg w1 => .fatal msg w1 := rfl

theorem proc_pure_apply (a : α) (w : σ) : (pure a : Proc σ α) w = .ret a w := rfl

theorem proc_bind_ret (m : Proc σ α) (f : α → Proc σ β) (w w1 : σ) (a : α)
    (h : m w = .ret a w1) : (m >>= f) w = f a w1 := by
  rw [proc_bind_apply, h]

theorem proc_bind_fatal (m : Proc σ α) (f : α → Proc σ β) (w w1 : σ) (msg : String)
    (h : m w = .fatal msg w1) : (m >>= f) w = .fatal msg w1 := by
  rw [proc_bind_apply, h]

theorem Env.verbose_info_bind (E : Env σ) (text : String) (f : Unit → Proc σ β) (w : σ) :
    (E.verbose_info text >>= f) w = f () (E.told text w) := rfl

theorem Env.verbose_info_apply (E : Env σ) (text : String) (w : σ) :
    E.verbose_info text w = .ret () (E.told text w) := rfl

theorem Env.told_logged (E : Env σ) (text : String) (w : σ) (l : List Call) :
    E.logged.told text (w, l) = (E.told text w, l) := by
  unfold Env.told Env.logged
  by_cases h : E.msg_verbose = 0 <;> simp [h]

theorem chain_count_eq {α : Type} (l : List α) (c : Nat) : chain_count l c = c + l.length := by
  induction l generalizing c with
  | nil => simp [chain_count]
  | cons x xs ih => simp [chain_count, ih]; omega

theorem chain_loop_stop (E : Env σ) (p : ATTR_PRINT_MASTER_FN σ) (fp : VSTREAM) (flags count : Nat)
    (body : ν → Except String (List Attr)) (tp : List ν) (n : Nat) (ret : Int) (h : ret ≠ 0) :
    chain_loop E p fp flags count body tp n ret = pure ret := by
  cases tp <;> simp [chain_loop, h]

theorem chain_loop_follows (E : Env σ) (p : ATTR_PRINT_MASTER_FN σ) (fp : VSTREAM)
    (flags count : Nat) (body : ν → Except String (List Attr)) :
    ∀ (tp : List ν) (n : Nat) (w : σ) (log : List Call), n + tp.length = count →
      ∃ cs, (chain_loop E.logged (logged p) fp flags count body tp n 0 (w, log)).calls = log ++ cs ∧
        Follows fp (flags ||| E.ATTR_FLAG_MORE) (chain_fin body tp) (chain_plan body tp) cs
          (chain_loop E.logged (logged p) fp flags count body tp n 0 (w, log)).ending := by
  intro tp
  induction tp with
  | nil =>
    intro n w log h
    have hn : ¬ n < count := by simp at h; omega
    refine ⟨[], ?_, ?_⟩ <;>
      simp [chain_loop, hn, proc_pure_apply, Outcome.calls, Outcome.state, Outcome.ending,
        Follows, chain_fin, chain_plan]
  | cons x next ih =>
    intro n w log h
    have hn : n < count := by simp at h; omega
    have hn1 : n + 1 + next.length = count := by simp at h; omega
    cases hb : body x with
    | error msg =>
      refine ⟨[], ?_, ?_⟩ <;>
        simp [chain_loop, hn, hb, msg_panic, Outcome.calls, Outcome.state, Outcome.ending,
          Follows, chain_fin, chain_plan]
    | ok attrs =>
      have hfl : E.logged.ATTR_FLAG_MORE = E.ATTR_FLAG_MORE := rfl
      cases hp : p fp (flags ||| E.ATTR_FLAG_MORE) attrs w with
      | fatal msg w1 =>
        refine ⟨[⟨fp, flags ||| E.ATTR_FLAG_MORE, attrs, .terminated msg⟩], ?_, ?_⟩ <;>
          simp [chain_loop, hn, hb, proc_bind_apply, logged, hfl, hp, Outcome.calls,
            Outcome.state, Outcome.ending, Follows, chain_fin, chain_plan]
      | ret r w1 =>
        by_cases hr : r = 0
        · subst hr
          obtain ⟨cs, h1, h2⟩ := ih (n + 1) w1
            (log ++ [⟨fp, flags ||| E.ATTR_FLAG_MORE, attrs, .returned 0⟩]) hn1
          refine ⟨⟨fp, flags ||| E.ATTR_FLAG_MORE, attrs, .returned 0⟩ :: cs, ?_, ?_⟩
          · simp [chain_loop, hn, hb, proc_bind_apply, logged, hfl, hp]
            simpa using h1
          · simp [chain_loop, hn, hb, proc_bind_apply, logged, hfl, hp, Follows, chain_fin,
              chain_plan]
            simpa using h2
        · refine ⟨[⟨fp, flags ||| E.ATTR_FLAG_MORE, attrs, .returned r⟩], ?_, ?_⟩ <;>
            simp [chain_loop, hn, hb, proc_bind_apply, logged, hfl, hp, chain_loop_stop, hr,
              proc_pure_apply, Outcome.calls, Outcome.state, Outcome.ending, Follows, chain_fin,
              chain_plan]

theorem finish_calls (E : Env σ) (m : Proc (σ × List Call) Int) (t : Int → String)
    (w : σ × List Call) :
    ((m >>= fun ret => E.logged.verbose_info (t ret) >>= fun _ => pure ret) w).calls
      = (m w).calls := by
  rw [proc_bind_apply]
  cases h : m w with
  | ret r w1 =>
    obtain ⟨w1, l1⟩ := w1
    simp [Env.verbose_info_bind, Env.told_logged, proc_pure_apply, Outcome.calls, Outcome.state]
  | fatal msg w1 => rfl

theorem finish_ending (E : Env σ) (m : Proc (σ × List Call) Int) (t : Int → String)
    (w : σ × List Call) :
    ((m >>= fun ret => E.logged.verbose_info (t ret) >>= fun _ => pure ret) w).ending
      = (m w).ending := by
  rw [proc_bind_apply]
  cases h : m w with
  | ret r w1 =>
    obtain ⟨w1, l1⟩ := w1
    simp [Env.verbose_info_bind, Env.told_logged, proc_pure_apply, Outcome.ending]
  | fatal msg w1 => rfl

theorem chain_print_follows (E : Env σ) (p : ATTR_PRINT_MASTER_FN σ) (fp : VSTREAM)
    (flags : Nat) (msg1 msg2 : Nat → String) (body : ν → Except String (List Attr))
    (chain : List ν) (w : σ) (log : List Call) :
    ∃ cs, (chain_print E.logged (logged p) fp flags msg1 msg2 body chain (w, log)).calls
        = log ++ cs ∧
      Follows fp (flags ||| E.ATTR_FLAG_MORE) (chain_fin body chain)
        ([Attr.int TLS_ATTR_COUNT chain.length] :: chain_plan body chain) cs
        (chain_print E.logged (logged p) fp flags msg1 msg2 body chain (w, log)).ending := by
  have hfl : E.logged.ATTR_FLAG_MORE = E.ATTR_FLAG_MORE := rfl
  have hc : chain_count chain 0 = chain.length := by simp [chain_count_eq]
  unfold chain_print
  simp only [Env.verbose_info_bind, Env.told_logged, hc]
  rw [proc_bind_apply]
  simp only [logged, hfl, SEND_ATTR_INT]
  cases hp : p fp (flags ||| E.ATTR_FLAG_MORE) [Attr.int TLS_ATTR_COUNT chain.length]
      (E.told (msg1 chain.length) w) with
  | fatal msg w1 =>
    refine ⟨[⟨fp, flags ||| E.ATTR_FLAG_MORE, [Attr.int TLS_ATTR_COUNT chain.length], .terminated msg⟩],
      ?_, ?_⟩ <;> simp [Outcome.calls, Outcome.state, Outcome.ending, Follows]
  | ret r w1 =>
    by_cases hr : r = 0
    · subst hr
      by_cases hlen : chain.length > 0
      · obtain ⟨cs, h1, h2⟩ := chain_loop_follows E p fp flags chain.length body chain 0 w1
          (log ++ [⟨fp, flags ||| E.ATTR_FLAG_MORE, [Attr.int TLS_ATTR_COUNT chain.length],
            .returned 0⟩]) (by simp)
        refine ⟨⟨fp, flags ||| E.ATTR_FLAG_MORE, [Attr.int TLS_ATTR_COUNT chain.length],
          .returned 0⟩ :: cs, ?_, ?_⟩
        · simp only [hlen, and_self, if_true]
          rw [finish_calls E _ (fun _ => msg2 chain.length)]
          simpa using h1
        · simp only [hlen, and_self, if_true]
          rw [finish_ending E _ (fun _ => msg2 chain.length)]
          simpa [Follows] using h2
      · have hnil : chain = [] := by
          cases chain with
          | nil => rfl
          | cons x xs => simp at hlen
        subst hnil
        refine ⟨[⟨fp, flags ||| E.ATTR_FLAG_MORE, [Attr.int TLS_ATTR_COUNT 0], .returned 0⟩], ?_, ?_⟩
        · simp only [List.length_nil, gt_iff_lt, lt_self_iff_false, and_false, if_false]
          rw [finish_calls E _ (fun _ => msg2 0)]
          simp [proc_pure_apply, Outcome.calls, Outcome.state]
        · simp only [List.length_nil, gt_iff_lt, lt_self_iff_false, and_false, if_false]
          rw [finish_ending E _ (fun _ => msg2 0)]
          simp [proc_pure_apply, Outcome.ending, Follows, chain_plan, chain_fin]
    · refine ⟨[⟨fp, flags ||| E.ATTR_FLAG_MORE, [Attr.int TLS_ATTR_COUNT chain.length],
        .returned r⟩], ?_, ?_⟩
      · simp only [hr, false_and, if_false]
        rw [finish_calls E _ (fun _ => msg2 chain.length)]
        simp [proc_pure_apply, Outcome.calls, Outcome.state]
      · simp only [hr, false_and, if_false]
        rw [finish_ending E _ (fun _ => msg2 chain.length)]
        simp [proc_pure_apply, Outcome.ending, Follows, hr]

/-- The payload length after VSTRING_RESET, VSTRING_SPACE and a store through
a raw pointer is 0, whatever was stored. -/
theorem LEN_after_store (buf : VSTRING) (len : Nat) (bytes : List Nat) :
    LEN ((VSTRING_SPACE (VSTRING_RESET buf) len).store bytes) = 0 := by
  unfold LEN VSTRING.store VSTRING_SPACE VSTRING_RESET
  dsimp only
  split <;> rfl

/-- The data item built from the buffer after the DER store has length 0 and
no bytes. -/
theorem data_attr_after_store (name : AttrName) (buf : VSTRING) (len : Nat) (bytes : List Nat) :
    SEND_ATTR_DATA name (LEN ((VSTRING_SPACE (VSTRING_RESET buf) len).store bytes))
      (STR ((VSTRING_SPACE (VSTRING_RESET buf) len).store bytes)) = Attr.data name 0 [] := by
  rw [LEN_after_store]
  simp [SEND_ATTR_DATA]

theorem certs_loop_eq (E : Env σ) (p : ATTR_PRINT_MASTER_FN σ) (fp : VSTREAM) (flags count : Nat) :
    ∀ (tp : TLS_CERTS) (n : Nat) (ret : Int) (buf : VSTRING),
      tls_proxy_client_certs_loop E p fp flags count tp n ret buf
        = chain_loop E p fp flags count cert_body tp n ret := by
  intro tp
  induction tp with
  | nil => intro n ret buf; rfl
  | cons cert next ih =>
    intro n ret buf
    unfold tls_proxy_client_certs_loop chain_loop
    by_cases hc : ret = 0 ∧ n < count
    · simp only [hc, and_self, if_true, i2d_X509, cert_body]
      by_cases hl : cert.i2d_out.length = cert.i2d_len
      · simp only [hl, ne_eq, not_true_eq_false, if_false, data_attr_after_store, ih]
      · simp only [hl, ne_eq, not_false_eq_true, if_true]
    · simp only [hc, if_false]

theorem pkeys_loop_eq (E : Env σ) (p : ATTR_PRINT_MASTER_FN σ) (fp : VSTREAM) (flags count : Nat) :
    ∀ (tp : TLS_PKEYS) (n : Nat) (ret : Int) (buf : VSTRING),
      tls_proxy_client_pkeys_loop E p fp flags count tp n ret buf
        = chain_loop E p fp flags count pkey_body tp n ret := by
  intro tp
  induction tp with
  | nil => intro n ret buf; rfl
  | cons pkey next ih =>
    intro n ret buf
    unfold tls_proxy_client_pkeys_loop chain_loop
    by_cases hc : ret = 0 ∧ n < count
    · simp only [hc, and_self, if_true, i2d_PUBKEY, pkey_body]
      by_cases hl : pkey.i2d_out.length = pkey.i2d_len
      · simp only [hl, ne_eq, not_true_eq_false, if_false, data_attr_after_store, ih]
      · simp only [hl, ne_eq, not_false_eq_true, if_true]
    · simp only [hc, if_false]

theorem tlsa_loop_eq (E : Env σ) (p : ATTR_PRINT_MASTER_FN σ) (fp : VSTREAM) (flags count : Nat) :
    ∀ (tp : TLS_TLSA) (n : Nat) (ret : Int),
      tls_proxy_client_tlsa_loop E p fp flags count tp n ret
        = chain_loop E p fp flags count tlsa_body tp n ret := by
  intro tp
  induction tp with
  | nil => intro n ret; rfl
  | cons x next ih =>
    intro n ret
    unfold tls_proxy_client_tlsa_loop chain_loop
    by_cases hc : ret = 0 ∧ n < count
    · simp only [hc, and_self, if_true, tlsa_body, ih, SEND_ATTR_STR, SEND_ATTR_FUNC]
    · simp only [hc, if_false]

theorem certs_print_eq (E : Env σ) (p : ATTR_PRINT_MASTER_FN σ) (fp : VSTREAM) (flags : Nat)
    (chain : TLS_CERTS) :
    tls_proxy_client_certs_print E p fp flags chain
      = chain_print E p fp flags
          (fun count => "tls_proxy_client_certs_print count=" ++ toString count)
          (fun count => "tls_proxy_client_certs_print ret=" ++ toString count)
          cert_body chain := by
  unfold tls_proxy_client_certs_print chain_print
  simp only [certs_loop_eq]

theorem pkeys_print_eq (E : Env σ) (p : ATTR_PRINT_MASTER_FN σ) (fp : VSTREAM) (flags : Nat)
    (chain : TLS_PKEYS) :
    tls_proxy_client_pkeys_print E p fp flags chain
      = chain_print E p fp flags
          (fun count => "tls_proxy_client_pkeys_print count=" ++ toString count)
          (fun count => "tls_proxy_client_pkeys_print ret=" ++ toString count)
          pkey_body chain := by
  unfold tls_proxy_client_pkeys_print chain_print
  simp only [pkeys_loop_eq]

theorem tlsa_print_eq (E : Env σ) (p : ATTR_PRINT_MASTER_FN σ) (fp : VSTREAM) (flags : Nat)
    (chain : TLS_TLSA) :
    tls_proxy_client_tlsa_print E p fp flags chain
      = chain_print E p fp flags
          (fun count => "tls_proxy_client_tlsa_print count=" ++ toString count)
          (fun count => "tls_proxy_client_tlsa_print ret=" ++ toString count)
          tlsa_body chain := by
  unfold tls_proxy_client_tlsa_print chain_print
  simp only [tlsa_loop_eq]

theorem follows_args (fp : VSTREAM) (fl : Nat) (fin : Ending) :
    ∀ (plan : List (List Attr)) (cs : List Call) (st : Ending),
      Follows fp fl fin plan cs st → ∀ c ∈ cs, c.fp = fp ∧ c.flags = fl := by
  intro plan
  induction plan with
  | nil =>
    intro cs st h c hc
    simp only [Follows] at h
    rw [h.1] at hc
    simp at hc
  | cons a rest ih =>
    intro cs st h c hc
    cases cs with
    | nil => simp at hc
    | cons c0 cs0 =>
      simp only [Follows] at h
      obtain ⟨h1, h2, _, h4⟩ := h
      rcases List.mem_cons.mp hc with hc | hc
      · subst hc; exact ⟨h1, h2⟩
      · by_cases h0 : c0.ending = .returned 0
        · rw [if_pos h0] at h4
          exact ih cs0 st h4 c hc
        · rw [if_neg h0] at h4
          rw [h4.1] at hc
          simp at hc

theorem follows_all_ok (fp : VSTREAM) (fl : Nat) (fin : Ending) :
    ∀ (plan : List (List Attr)) (cs : List Call) (st : Ending),
      Follows fp fl fin plan cs st → (∀ c ∈ cs, c.ending = .returned 0) →
        cs.map Call.attrs = plan ∧ st = fin := by
  intro plan
  induction plan with
  | nil =>
    intro cs st h _
    simp only [Follows] at h
    simp [h.1, h.2]
  | cons a rest ih =>
    intro cs st h hok
    cases cs with
    | nil => simp [Follows] at h
    | cons c0 cs0 =>
      simp only [Follows] at h
      obtain ⟨_, _, h3, h4⟩ := h
      have h0 : c0.ending = .returned 0 := hok c0 (List.mem_cons_self _ _)
      rw [if_pos h0] at h4
      obtain ⟨h5, h6⟩ := ih cs0 st h4 (fun c hc => hok c (List.mem_cons_of_mem _ hc))
      simp [h3, h5, h6]

theorem follows_first_failure (fp : VSTREAM) (fl : Nat) (fin : Ending) :
    ∀ (plan : List (List Attr)) (cs : List Call) (st : Ending),
      Follows fp fl fin plan cs st →
        ∀ (pre : List Call) (c : Call) (post : List Call), cs = pre ++ c :: post →
          c.ending ≠ .returned 0 → post = [] ∧ st = c.ending := by
  intro plan
  induction plan with
  | nil =>
    intro cs st h pre c post hcs _
    simp only [Follows] at h
    rw [h.1] at hcs
    simp at hcs
  | cons a rest ih =>
    intro cs st h pre c post hcs hne
    cases cs with
    | nil => simp at hcs
    | cons c0 cs0 =>
      simp only [Follows] at h
      obtain ⟨_, _, _, h4⟩ := h
      cases pre with
      | nil =>
        simp only [List.nil_append, List.cons.injEq] at hcs
        obtain ⟨hc, hpost⟩ := hcs
        subst hc
        rw [if_neg hne] at h4
        subst hpost
        exact h4
      | cons q pre0 =>
        simp only [List.cons_append, List.cons.injEq] at hcs
        obtain ⟨hq, hrest⟩ := hcs
        by_cases h0 : c0.ending = .returned 0
        · rw [if_pos h0] at h4
          exact ih cs0 st h4 pre0 c post hrest hne
        · rw [if_neg h0] at h4
          rw [h4.1] at hrest
          simp at hrest

theorem follows_zero (fp : VSTREAM) (fl : Nat) (fin : Ending) :
    ∀ (plan : List (List Attr)) (cs : List Call) (st : Ending),
      Follows fp fl fin plan cs st → st = .returned 0 →
        ∀ c ∈ cs, c.ending = .returned 0 := by
  intro plan
  induction plan with
  | nil =>
    intro cs st h _ c hc
    simp only [Follows] at h
    rw [h.1] at hc
    simp at hc
  | cons a rest ih =>
    intro cs st h hst c hc
    cases cs with
    | nil => simp at hc
    | cons c0 cs0 =>
      simp only [Follows] at h
      obtain ⟨_, _, _, h4⟩ := h
      by_cases h0 : c0.ending = .returned 0
      · rw [if_pos h0] at h4
        rcases List.mem_cons.mp hc with hc | hc
        · subst hc; exact h0
        · exact ih cs0 st h4 hst c hc
      · rw [if_neg h0] at h4
        exact absurd (h4.2 ▸ hst) h0

theorem follows_ne_nil (fp : VSTREAM) (fl : Nat) (fin : Ending) (a : List Attr)
    (rest : List (List Attr)) (cs : List Call) (st : Ending)
    (h : Follows fp fl fin (a :: rest) cs st) : cs ≠ [] := by
  cases cs with
  | nil => simp [Follows] at h
  | cons c0 cs0 => simp

theorem single_follows (E : Env σ) (p : ATTR_PRINT_MASTER_FN σ) (fp : VSTREAM) (fl : Nat)
    (attrs : List Attr) (t : Int → String) (w : σ) (log : List Call) :
    ∃ cs, ((logged p fp fl attrs >>= fun ret =>
          E.logged.verbose_info (t ret) >>= fun _ => pure ret) (w, log)).calls = log ++ cs ∧
      Follows fp fl (.returned 0) [attrs] cs
        ((logged p fp fl attrs >>= fun ret =>
          E.logged.verbose_info (t ret) >>= fun _ => pure ret) (w, log)).ending := by
  rw [finish_calls, finish_ending]
  cases hp : p fp fl attrs w with
  | fatal msg w1 =>
    refine ⟨[⟨fp, fl, attrs, .terminated msg⟩], ?_, ?_⟩ <;>
      simp [logged, hp, Outcome.calls, Outcome.state, Outcome.ending, Follows]
  | ret r w1 =>
    refine ⟨[⟨fp, fl, attrs, .returned r⟩], ?_, ?_⟩
    · simp [logged, hp, Outcome.calls, Outcome.state]
    · by_cases hr : r = 0 <;> simp [logged, hp, Outcome.ending, Follows, hr]

theorem init_print_follows (E : Env σ) (p : ATTR_PRINT_MASTER_FN σ) (fp : VSTREAM)
    (flags : Nat) (props : TLS_CLIENT_INIT_PROPS) (w : σ) (log : List Call) :
    ∃ cs, (tls_proxy_client_init_print E.logged (logged p) fp flags props (w, log)).calls
        = log ++ cs ∧
      Follows fp (flags ||| E.ATTR_FLAG_MORE) (.returned 0)
        [[Attr.str TLS_ATTR_LOG_PARAM (STRING_OR_EMPTY props.log_param),
          Attr.str TLS_ATTR_LOG_LEVEL (STRING_OR_EMPTY props.log_level),
          Attr.int TLS_ATTR_VERIFYDEPTH props.verifydepth,
          Attr.str TLS_ATTR_CACHE_TYPE (STRING_OR_EMPTY props.cache_type),
          Attr.str TLS_ATTR_CERT_FILE (STRING_OR_EMPTY props.cert_file),
          Attr.str TLS_ATTR_KEY_FILE (STRING_OR_EMPTY props.key_file),
          Attr.str TLS_ATTR_DCERT_FILE (STRING_OR_EMPTY props.dcert_file),
          Attr.str TLS_ATTR_DKEY_FILE (STRING_OR_EMPTY props.dkey_file),
          Attr.str TLS_ATTR_ECCERT_FILE (STRING_OR_EMPTY props.eccert_file),
          Attr.str TLS_ATTR_ECKEY_FILE (STRING_OR_EMPTY props.eckey_file),
          Attr.str TLS_ATTR_CAFILE (STRING_OR_EMPTY props.CAfile),
          Attr.str TLS_ATTR_CAPATH (STRING_OR_EMPTY props.CApath),
          Attr.str TLS_ATTR_MDALG (STRING_OR_EMPTY props.mdalg)]] cs
        (tls_proxy_client_init_print E.logged (logged p) fp flags props (w, log)).ending := by
  unfold tls_proxy_client_init_print
  simp only [Env.verbose_info_bind, Env.told_logged]
  exact single_follows E p fp _ _ (fun ret => "tls_proxy_client_init_print ret=" ++ toString ret) _ log

theorem start_print_follows (E : Env σ) (p : ATTR_PRINT_MASTER_FN σ) (fp : VSTREAM)
    (flags : Nat) (props : TLS_CLIENT_START_PROPS) (w : σ) (log : List Call) :
    ∃ cs, (tls_proxy_client_start_print E.logged (logged p) fp flags props (w, log)).calls
        = log ++ cs ∧
      Follows fp (flags ||| E.ATTR_FLAG_MORE) (.returned 0)
        [[Attr.int TLS_ATTR_TIMEOUT props.timeout,
          Attr.int TLS_ATTR_TLS_LEVEL props.tls_level,
          Attr.str TLS_ATTR_NEXTHOP (STRING_OR_EMPTY props.nexthop),
          Attr.str TLS_ATTR_HOST (STRING_OR_EMPTY props.host),
          Attr.str TLS_ATTR_NAMADDR (STRING_OR_EMPTY props.namaddr),
          Attr.str TLS_ATTR_SERVERID (STRING_OR_EMPTY props.serverid),
          Attr.str TLS_ATTR_HELO (STRING_OR_EMPTY props.helo),
          Attr.str TLS_ATTR_PROTOCOLS (STRING_OR_EMPTY props.protocols),
          Attr.str TLS_ATTR_CIPHER_GRADE (STRING_OR_EMPTY props.cipher_grade),
          Attr.str TLS_ATTR_CIPHER_EXCLUSIONS (STRING_OR_EMPTY props.cipher_exclusions),
          Attr.func (.argv_attr_print props.matchargv),
          Attr.str TLS_ATTR_MDALG (STRING_OR_EMPTY props.mdalg),
          Attr.func (.tls_proxy_client_dane_print props.dane)]] cs
        (tls_proxy_client_start_print E.logged (logged p) fp flags props (w, log)).ending := by
  unfold tls_proxy_client_start_print
  simp only [Env.verbose_info_bind, Env.told_logged]
  exact single_follows E p fp _ _ (fun ret => "tls_proxy_client_start_print ret=" ++ toString ret) _ log

theorem dane_print_follows (E : Env σ) (p : ATTR_PRINT_MASTER_FN σ) (fp : VSTREAM)
    (flags : Nat) (ptr : Option TLS_DANE) (w : σ) (log : List Call) :
    ∃ cs, (tls_proxy_client_dane_print E.logged (logged p) fp flags ptr (w, log)).calls
        = log ++ cs ∧
      Follows fp (flags ||| E.ATTR_FLAG_MORE) (.returned 0) (dane_plan ptr) cs
        (tls_proxy_client_dane_print E.logged (logged p) fp flags ptr (w, log)).ending := by
  have hfl : E.logged.ATTR_FLAG_MORE = E.ATTR_FLAG_MORE := rfl
  unfold tls_proxy_client_dane_print
  rw [proc_bind_apply]
  simp only [hfl, SEND_ATTR_INT, SEND_ATTR_FUNC, SEND_ATTR_STR, SEND_ATTR_LONG]
  cases hp : p fp (flags ||| E.ATTR_FLAG_MORE) [Attr.int TLS_ATTR_DANE (c_bool ptr.isSome)] w with
  | fatal msg w1 =>
    refine ⟨[⟨fp, flags ||| E.ATTR_FLAG_MORE, [Attr.int TLS_ATTR_DANE (c_bool ptr.isSome)],
      .terminated msg⟩], ?_, ?_⟩ <;>
      simp [logged, hp, Outcome.calls, Outcome.state, Outcome.ending, Follows, dane_plan]
  | ret r w1 =>
    simp only [logged, hp, Env.verbose_info_bind, Env.told_logged]
    cases ptr with
    | none =>
      refine ⟨[⟨fp, flags ||| E.ATTR_FLAG_MORE, [Attr.int TLS_ATTR_DANE (c_bool false)],
        .returned r⟩], ?_, ?_⟩
      · simp [proc_bind_apply, proc_pure_apply, Env.verbose_info_apply, Env.told_logged,
          Outcome.calls, Outcome.state]
      · by_cases hr : r = 0 <;>
          simp [proc_bind_apply, proc_pure_apply, Env.verbose_info_apply, Env.told_logged,
            Outcome.ending, Follows, dane_plan, hr]
    | some dane =>
      by_cases hr : r = 0
      · subst hr
        simp only [if_true]
        obtain ⟨cs, h1, h2⟩ := single_follows E p fp (flags ||| E.ATTR_FLAG_MORE)
          [Attr.func (.tls_proxy_client_tlsa_print dane.ta),
            Attr.func (.tls_proxy_client_tlsa_print dane.ee),
            Attr.func (.tls_proxy_client_certs_print dane.certs),
            Attr.func (.tls_proxy_client_pkeys_print dane.pkeys),
            Attr.str TLS_ATTR_DOMAIN (STRING_OR_EMPTY dane.base_domain),
            Attr.int TLS_ATTR_FLAGS dane.flags,
            Attr.long TLS_ATTR_EXP dane.expires]
          (fun ret => "tls_proxy_client_dane_print ret=" ++ toString ret)
          (E.told ("tls_proxy_client_dane_print dane=" ++ toString (c_bool (some dane).isSome)) w1)
          (log ++ [⟨fp, flags ||| E.ATTR_FLAG_MORE, [Attr.int TLS_ATTR_DANE (c_bool true)],
            .returned 0⟩])
        refine ⟨⟨fp, flags ||| E.ATTR_FLAG_MORE, [Attr.int TLS_ATTR_DANE (c_bool true)],
            .returned 0⟩ :: cs, ?_, ?_⟩
        · simpa using h1
        · simpa [Follows, dane_plan] using h2
      · refine ⟨[⟨fp, flags ||| E.ATTR_FLAG_MORE, [Attr.int TLS_ATTR_DANE (c_bool true)],
          .returned r⟩], ?_, ?_⟩
        · simp [hr, proc_bind_apply, proc_pure_apply, Env.verbose_info_apply, Env.told_logged,
            Outcome.calls, Outcome.state]
        · simp [hr, proc_bind_apply, proc_pure_apply, Env.verbose_info_apply, Env.told_logged,
            Outcome.ending, Follows, dane_plan]

theorem follows_single (fp : VSTREAM) (fl : Nat) (a : List Attr) (cs : List Call)
    (st : Ending) (h : Follows fp fl (.returned 0) [a] cs st) : cs = [⟨fp, fl, a, st⟩] := by
  cases cs with
  | nil => simp [Follows] at h
  | cons c cs0 =>
    simp only [Follows] at h
    obtain ⟨h1, h2, h3, h4⟩ := h
    obtain ⟨cfp, cfl, ca, ce⟩ := c
    simp only at h1 h2 h3 h4
    subst h1 h2 h3
    by_cases h0 : ce = .returned 0
    · rw [if_pos h0] at h4
      simp [h4.1, h4.2, h0]
    · rw [if_neg h0] at h4
      simp [h4.1, h4.2]

theorem absent_to_empty_eq (s : CStr) : STRING_OR_EMPTY s = absent_to_empty s := by
  cases s <;> rfl

theorem string_or_empty_eq (s : CStr) : STRING_OR_EMPTY s = some (s.getD "") := by
  cases s <;> rfl

theorem follows_returns (fp : VSTREAM) (fl : Nat) (r0 : Int) :
    ∀ (plan : List (List Attr)) (cs : List Call) (st : Ending),
      Follows fp fl (.returned r0) plan cs st → (∀ c ∈ cs, ∃ r, c.ending = .returned r) →
        ∃ r, st = .returned r := by
  intro plan
  induction plan with
  | nil =>
    intro cs st h _
    simp only [Follows] at h
    exact ⟨r0, h.2⟩
  | cons a rest ih =>
    intro cs st h hret
    cases cs with
    | nil => simp [Follows] at h
    | cons c0 cs0 =>
      simp only [Follows] at h
      obtain ⟨_, _, _, h4⟩ := h
      by_cases h0 : c0.ending = .returned 0
      · rw [if_pos h0] at h4
        exact ih cs0 st h4 (fun c hc => hret c (List.mem_cons_of_mem _ hc))
      · rw [if_neg h0] at h4
        obtain ⟨r, hr⟩ := hret c0 (List.mem_cons_self _ _)
        exact ⟨r, by rw [h4.2, hr]⟩

theorem follows_first_failure_wins (fp : VSTREAM) (fl : Nat) (fin : Ending)
    (plan : List (List Attr)) (cs : List Call) (st : Ending)
    (h : Follows fp fl fin plan cs st) : FirstFailureWins cs st := by
  refine ⟨?_, follows_zero fp fl fin plan cs st h⟩
  intro pre c post r hcs hc hr
  have hne : c.ending ≠ .returned 0 := by
    rw [hc]
    intro h0
    exact hr (Ending.returned.inj h0)
  obtain ⟨h1, h2⟩ := follows_first_failure fp fl fin plan cs st h pre c post hcs hne
  exact ⟨h1, by rw [h2, hc]⟩

theorem cert_plan_ok (chain : TLS_CERTS)
    (h : ∀ cert ∈ chain, cert.i2d_out.length = cert.i2d_len) :
    chain_plan cert_body chain = chain.map (fun _ => [Attr.data TLS_ATTR_CERT 0 []]) ∧
      chain_fin cert_body chain = .returned 0 := by
  induction chain with
  | nil => exact ⟨rfl, rfl⟩
  | cons x xs ih =>
    have hx : x.i2d_out.length = x.i2d_len := h x (List.mem_cons_self _ _)
    obtain ⟨h1, h2⟩ := ih (fun c hc => h c (List.mem_cons_of_mem _ hc))
    simp [chain_plan, chain_fin, cert_body, hx, h1, h2]

theorem cert_plan_bad (pre : TLS_CERTS) (bad : X509) (post : TLS_CERTS)
    (h : ∀ cert ∈ pre, cert.i2d_out.length = cert.i2d_len)
    (hbad : bad.i2d_out.length ≠ bad.i2d_len) :
    chain_plan cert_body (pre ++ bad :: post)
        = pre.map (fun _ => [Attr.data TLS_ATTR_CERT 0 []]) ∧
      chain_fin cert_body (pre ++ bad :: post)
        = .terminated "i2d_X509 failed to encode certificate" := by
  induction pre with
  | nil => simp [chain_plan, chain_fin, cert_body, hbad]
  | cons x xs ih =>
    have hx : x.i2d_out.length = x.i2d_len := h x (List.mem_cons_self _ _)
    obtain ⟨h1, h2⟩ := ih (fun c hc => h c (List.mem_cons_of_mem _ hc))
    simp [chain_plan, chain_fin, cert_body, hx, h1, h2]

theorem pkey_plan_ok (chain : TLS_PKEYS)
    (h : ∀ pkey ∈ chain, pkey.i2d_out.length = pkey.i2d_len) :
    chain_plan pkey_body chain = chain.map (fun _ => [Attr.data TLS_ATTR_PKEY 0 []]) ∧
      chain_fin pkey_body chain = .returned 0 := by
  induction chain with
  | nil => exact ⟨rfl, rfl⟩
  | cons x xs ih =>
    have hx : x.i2d_out.length = x.i2d_len := h x (List.mem_cons_self _ _)
    obtain ⟨h1, h2⟩ := ih (fun c hc => h c (List.mem_cons_of_mem _ hc))
    simp [chain_plan, chain_fin, pkey_body, hx, h1, h2]

theorem pkey_plan_bad (pre : TLS_PKEYS) (bad : EVP_PKEY) (post : TLS_PKEYS)
    (h : ∀ pkey ∈ pre, pkey.i2d_out.length = pkey.i2d_len)
    (hbad : bad.i2d_out.length ≠ bad.i2d_len) :
    chain_plan pkey_body (pre ++ bad :: post)
        = pre.map (fun _ => [Attr.data TLS_ATTR_PKEY 0 []]) ∧
      chain_fin pkey_body (pre ++ bad :: post)
        = .terminated "i2d_PUBKEY failed to encode public key" := by
  induction pre with
  | nil => simp [chain_plan, chain_fin, pkey_body, hbad]
  | cons x xs ih =>
    have hx : x.i2d_out.length = x.i2d_len := h x (List.mem_cons_self _ _)
    obtain ⟨h1, h2⟩ := ih (fun c hc => h c (List.mem_cons_of_mem _ hc))
    simp [chain_plan, chain_fin, pkey_body, hx, h1, h2]

theorem tlsa_plan (chain : TLS_TLSA) :
    chain_plan tlsa_body chain
        = chain.map (fun tp => [Attr.str TLS_ATTR_MDALG tp.mdalg,
            Attr.func (.argv_attr_print tp.certs), Attr.func (.argv_attr_print tp.pkeys)]) ∧
      chain_fin tlsa_body chain = .returned 0 := by
  induction chain with
  | nil => exact ⟨rfl, rfl⟩
  | cons x xs ih => simp [chain_plan, chain_fin, tlsa_body, ih.1, ih.2]

theorem certs_print_follows (E : Env σ) (p : ATTR_PRINT_MASTER_FN σ) (fp : VSTREAM)
    (flags : Nat) (chain : TLS_CERTS) (w : σ) :
    Follows fp (flags ||| E.ATTR_FLAG_MORE) (chain_fin cert_body chain)
      ([Attr.int TLS_ATTR_COUNT chain.length] :: chain_plan cert_body chain)
      (tls_proxy_client_certs_print E.logged (logged p) fp flags chain (w, [])).calls
      (tls_proxy_client_certs_print E.logged (logged p) fp flags chain (w, [])).ending := by
  rw [certs_print_eq]
  obtain ⟨cs, h1, h2⟩ := chain_print_follows E p fp flags
    (fun count => "tls_proxy_client_certs_print count=" ++ toString count)
    (fun count => "tls_proxy_client_certs_print ret=" ++ toString count) cert_body chain w []
  simp only [List.nil_append] at h1
  rw [h1]
  exact h2

theorem pkeys_print_follows (E : Env σ) (p : ATTR_PRINT_MASTER_FN σ) (fp : VSTREAM)
    (flags : Nat) (chain : TLS_PKEYS) (w : σ) :
    Follows fp (flags ||| E.ATTR_FLAG_MORE) (chain_fin pkey_body chain)
      ([Attr.int TLS_ATTR_COUNT chain.length] :: chain_plan pkey_body chain)
      (tls_proxy_client_pkeys_print E.logged (logged p) fp flags chain (w, [])).calls
      (tls_proxy_client_pkeys_print E.logged (logged p) fp flags chain (w, [])).ending := by
  rw [pkeys_print_eq]
  obtain ⟨cs, h1, h2⟩ := chain_print_follows E p fp flags
    (fun count => "tls_proxy_client_pkeys_print count=" ++ toString count)
    (fun count => "tls_proxy_client_pkeys_print ret=" ++ toString count) pkey_body chain w []
  simp only [List.nil_append] at h1
  rw [h1]
  exact h2

theorem tlsa_print_follows (E : Env σ) (p : ATTR_PRINT_MASTER_FN σ) (fp : VSTREAM)
    (flags : Nat) (chain : TLS_TLSA) (w : σ) :
    Follows fp (flags ||| E.ATTR_FLAG_MORE) (.returned 0)
      ([Attr.int TLS_ATTR_COUNT chain.length] ::
        chain.map (fun tp => [Attr.str TLS_ATTR_MDALG tp.mdalg,
          Attr.func (.argv_attr_print tp.certs), Attr.func (.argv_attr_print tp.pkeys)]))
      (tls_proxy_client_tlsa_print E.logged (logged p) fp flags chain (w, [])).calls
      (tls_proxy_client_tlsa_print E.logged (logged p) fp flags chain (w, [])).ending := by
  rw [tlsa_print_eq]
  obtain ⟨cs, h1, h2⟩ := chain_print_follows E p fp flags
    (fun count => "tls_proxy_client_tlsa_print count=" ++ toString count)
    (fun count => "tls_proxy_client_tlsa_print ret=" ++ toString count) tlsa_body chain w []
  simp only [List.nil_append] at h1
  rw [h1, ← (tlsa_plan chain).1, ← (tlsa_plan chain).2]
  exact h2

theorem dane_print_follows_nil (E : Env σ) (p : ATTR_PRINT_MASTER_FN σ) (fp : VSTREAM)
    (flags : Nat) (ptr : Option TLS_DANE) (w : σ) :
    Follows fp (flags ||| E.ATTR_FLAG_MORE) (.returned 0) (dane_plan ptr)
      (tls_proxy_client_dane_print E.logged (logged p) fp flags ptr (w, [])).calls
      (tls_proxy_client_dane_print E.logged (logged p) fp flags ptr (w, [])).ending := by
  obtain ⟨cs, h1, h2⟩ := dane_print_follows E p fp flags ptr w []
  simp only [List.nil_append] at h1
  rw [h1]
  exact h2

/-- A run of data items, one per node of a chain. -/
theorem data_items_exist {ν : Type} (name : AttrName) (chain : List ν) :
    ∃ items : List Attr, items.length = chain.length ∧
      (∀ a ∈ items, ∃ len val, a = Attr.data name len val) ∧
      chain.map (fun _ => [Attr.data name 0 []]) = items.map (fun a => [a]) := by
  refine ⟨chain.map (fun _ => Attr.data name 0 []), by simp, ?_, by simp⟩
  intro a ha
  obtain ⟨_, _, rfl⟩ := List.mem_map.mp ha
  exact ⟨0, [], rfl⟩

theorem plain_told (more : Nat) (verbose : Int) (text : String) (w : σ) :
    (plain_env more verbose : Env σ).told text w = w := by
  simp [Env.told, plain_env]

theorem attr_print_succ (E : Env σ) (write : VSTREAM → Nat → Attr → Proc σ Int) (depth : Nat)
    (fp : VSTREAM) (flags : Nat) (attrs : List Attr) :
    attr_print E write (depth + 1) fp flags attrs
      = attr_print_items write
          (fun fp flags cb => call_callback E (attr_print E write depth) fp flags cb)
          fp flags attrs := rfl

theorem wire_scalar_call (E : Env (List Attr)) (depth : Nat) (fp : VSTREAM) (flags : Nat)
    (a : Attr) (ha : ∀ cb, a ≠ Attr.func cb) (w : List Attr) :
    attr_print E wire_write depth fp flags [a] w = .ret 0 (w ++ [a]) := by
  cases depth <;> cases a <;>
    first
    | exact absurd rfl (ha _)
    | simp [attr_print, attr_print_items, proc_bind_apply, proc_pure_apply, wire_write]

theorem argv_loop_wire (E : Env (List Attr)) (depth : Nat) (fp : VSTREAM) (flags : Nat) :
    ∀ (argv : ARGV) (w : List Attr),
      argv_attr_print_loop E (attr_print E wire_write depth) fp flags argv 0 w
        = .ret 0 (w ++ argv.map (fun s => Attr.str ARGV_ATTR_VALUE (some s))) := by
  intro argv
  induction argv with
  | nil => intro w; simp [argv_attr_print_loop, proc_pure_apply]
  | cons s rest ih =>
    intro w
    simp only [argv_attr_print_loop, if_true, proc_bind_apply, SEND_ATTR_STR]
    rw [wire_scalar_call E depth fp _ _ (by intro cb h; cases h)]
    simp only [ih]
    simp

theorem argv_print_wire (E : Env (List Attr)) (depth : Nat) (fp : VSTREAM) (flags : Nat)
    (argv : ARGV) (w : List Attr) :
    argv_attr_print E (attr_print E wire_write depth) fp flags argv w
      = .ret 0 (w ++ Attr.int ARGV_ATTR_SIZE argv.length ::
          argv.map (fun s => Attr.str ARGV_ATTR_VALUE (some s))) := by
  unfold argv_attr_print
  rw [proc_bind_apply, SEND_ATTR_INT, wire_scalar_call E depth fp _ _ (by intro cb h; cases h)]
  simp only [argv_loop_wire]
  simp

theorem dane_absent_wire (more : Nat) (verbose : Int) (depth : Nat) (fp : VSTREAM) (flags : Nat)
    (w : List Attr) :
    tls_proxy_client_dane_print (plain_env more verbose)
        (attr_print (plain_env more verbose) wire_write depth) fp flags none w
      = .ret 0 (w ++ [Attr.int TLS_ATTR_DANE 0]) := by
  unfold tls_proxy_client_dane_print
  rw [proc_bind_apply, SEND_ATTR_INT, wire_scalar_call _ depth fp _ _ (by intro cb h; cases h)]
  simp [proc_bind_apply, proc_pure_apply, Env.verbose_info_apply, plain_told, c_bool]

end Lemmas

/-! ## Lemmas for the later properties -/

section Lemmas2

variable {σ α β ν : Type}

theorem string_or_empty_absent (s : CStr) :
    STRING_OR_EMPTY (absent_to_empty s) = STRING_OR_EMPTY s := by
  cases s <;> rfl

theorem init_print_normalize (E : Env σ) (p : ATTR_PRINT_MASTER_FN σ) (fp : VSTREAM)
    (flags : Nat) (props : TLS_CLIENT_INIT_PROPS) :
    tls_proxy_client_init_print E p fp flags (init_normalize props)
      = tls_proxy_client_init_print E p fp flags props := by
  unfold tls_proxy_client_init_print
  simp only [init_normalize, string_or_empty_absent]

theorem dane_print_normalize (E : Env σ) (p : ATTR_PRINT_MASTER_FN σ) (fp : VSTREAM)
    (flags : Nat) (ptr : Option TLS_DANE) :
    tls_proxy_client_dane_print E p fp flags (ptr.map dane_normalize)
      = tls_proxy_client_dane_print E p fp flags ptr := by
  cases ptr with
  | none => rfl
  | some dane =>
    unfold tls_proxy_client_dane_print
    simp only [Option.map_some', dane_normalize, string_or_empty_absent, Option.isSome_some]

theorem start_print_normalize_strings (E : Env σ) (p : ATTR_PRINT_MASTER_FN σ) (fp : VSTREAM)
    (flags : Nat) (props : TLS_CLIENT_START_PROPS) :
    tls_proxy_client_start_print E p fp flags { start_normalize props with dane := props.dane }
      = tls_proxy_client_start_print E p fp flags props := by
  unfold tls_proxy_client_start_print
  simp only [start_normalize, string_or_empty_absent]

theorem start_print_normalize_driver (E E2 : Env σ) (write : VSTREAM → Nat → Attr → Proc σ Int)
    (depth : Nat) (fp : VSTREAM) (flags : Nat) (props : TLS_CLIENT_START_PROPS) :
    tls_proxy_client_start_print E (attr_print E2 write (depth + 1)) fp flags
        (start_normalize props)
      = tls_proxy_client_start_print E (attr_print E2 write (depth + 1)) fp flags props := by
  unfold tls_proxy_client_start_print
  simp only [attr_print_succ, SEND_ATTR_FUNC, SEND_ATTR_STR, SEND_ATTR_INT, attr_print_items,
    call_callback, start_normalize, string_or_empty_absent, dane_print_normalize]

theorem tlsa_loop_wire (more : Nat) (verbose : Int) (depth : Nat) (fp : VSTREAM)
    (flags count : Nat) :
    ∀ (tp : TLS_TLSA) (n : Nat) (w : List Attr), n + tp.length = count →
      tls_proxy_client_tlsa_loop (plain_env more verbose)
          (attr_print (plain_env more verbose) wire_write (depth + 1)) fp flags count tp n 0 w
        = .ret 0 (w ++ (tp.map tlsa_wire).flatten) := by
  intro tp
  induction tp with
  | nil =>
    intro n w h
    have hn : ¬ n < count := by simp at h; omega
    simp [tls_proxy_client_tlsa_loop, hn, proc_pure_apply]
  | cons x next ih =>
    intro n w h
    have hn : n < count := by simp at h; omega
    have hn1 : n + 1 + next.length = count := by simp at h; omega
    unfold tls_proxy_client_tlsa_loop
    simp only [hn, and_self, if_true, proc_bind_apply, attr_print_succ, SEND_ATTR_STR,
      SEND_ATTR_FUNC, attr_print_items, call_callback, argv_print_wire, wire_write,
      proc_pure_apply, ne_eq, not_true_eq_false, if_false]
    rw [ih (n + 1) _ hn1]
    simp [tlsa_wire, argv_wire]

theorem tlsa_print_wire (more : Nat) (verbose : Int) (depth : Nat) (fp : VSTREAM)
    (flags : Nat) (chain : TLS_TLSA) (w : List Attr) :
    tls_proxy_client_tlsa_print (plain_env more verbose)
        (attr_print (plain_env more verbose) wire_write (depth + 1)) fp flags chain w
      = .ret 0 (w ++ Attr.int TLS_ATTR_COUNT chain.length :: (chain.map tlsa_wire).flatten) := by
  unfold tls_proxy_client_tlsa_print
  simp only [proc_bind_apply, Env.verbose_info_apply, plain_told, chain_count_eq, Nat.zero_add,
    SEND_ATTR_INT]
  rw [wire_scalar_call _ (depth + 1) fp _ _ (by intro cb h; cases h)]
  simp only
  cases chain with
  | nil => simp [proc_bind_apply, proc_pure_apply, Env.verbose_info_apply, plain_told]
  | cons x xs =>
    simp only [List.length_cons, gt_iff_lt, Nat.zero_lt_succ, and_self, if_true,
      proc_bind_apply]
    rw [tlsa_loop_wire more verbose depth fp flags _ (x :: xs) 0 _ (by simp)]
    simp [proc_bind_apply, proc_pure_apply, Env.verbose_info_apply, plain_told]

theorem certs_print_wire_nil (more : Nat) (verbose : Int) (depth : Nat) (fp : VSTREAM)
    (flags : Nat) (w : List Attr) :
    tls_proxy_client_certs_print (plain_env more verbose)
        (attr_print (plain_env more verbose) wire_write depth) fp flags [] w
      = .ret 0 (w ++ [Attr.int TLS_ATTR_COUNT 0]) := by
  unfold tls_proxy_client_certs_print
  simp only [proc_bind_apply, Env.verbose_info_apply, plain_told, chain_count, SEND_ATTR_INT]
  rw [wire_scalar_call _ depth fp _ _ (by intro cb h; cases h)]
  simp [proc_bind_apply, proc_pure_apply, Env.verbose_info_apply, plain_told]

theorem pkeys_print_wire_nil (more : Nat) (verbose : Int) (depth : Nat) (fp : VSTREAM)
    (flags : Nat) (w : List Attr) :
    tls_proxy_client_pkeys_print (plain_env more verbose)
        (attr_print (plain_env more verbose) wire_write depth) fp flags [] w
      = .ret 0 (w ++ [Attr.int TLS_ATTR_COUNT 0]) := by
  unfold tls_proxy_client_pkeys_print
  simp only [proc_bind_apply, Env.verbose_info_apply, plain_told, chain_count, SEND_ATTR_INT]
  rw [wire_scalar_call _ depth fp _ _ (by intro cb h; cases h)]
  simp [proc_bind_apply, proc_pure_apply, Env.verbose_info_apply, plain_told]

theorem rr_loop_run (D : DNSBLOG_ENV) (myname dnsbl_domain addr query : String) :
    ∀ (l : List DNS_RR) (found : Int) (s : DNSBLOG_STATE),
      (dnsblog_rr_loop D myname dnsbl_domain addr query l found s).ending
          = .returned (if ∃ rr ∈ l, (D.dns_rr_to_pa rr).isSome then 1 else found) ∧
        (dnsblog_rr_loop D myname dnsbl_domain addr query l found s).state.query = s.query := by
  intro l
  induction l with
  | nil => intro found s; exact ⟨by simp [dnsblog_rr_loop, proc_pure_apply, Outcome.ending], rfl⟩
  | cons rr next ih =>
    intro found s
    unfold dnsblog_rr_loop
    cases h : D.dns_rr_to_pa rr with
    | none =>
      have h1 := ih found { s with log := s.log ++ [myname ++
        ": skipping reply record type " ++ D.dns_strtype rr.type ++ " for query " ++ query] }
      simp only [proc_bind_apply, dnsblog_log]
      refine ⟨?_, h1.2⟩
      rw [h1.1]
      simp [h]
    | some hostaddr =>
      have h1 := ih 1 { s with log := s.log ++ ["addr " ++ addr ++
        " blocked by domain " ++ dnsbl_domain ++ " as " ++ hostaddr] }
      simp only [proc_bind_apply, dnsblog_log]
      refine ⟨?_, h1.2⟩
      rw [h1.1]
      simp [h]

theorem dnsblog_verbose_log_bind {β : Type} (D : DNSBLOG_ENV) (text : String)
    (k : Unit → Proc DNSBLOG_STATE β) (s : DNSBLOG_STATE) :
    (dnsblog_verbose_log D text >>= k) s = k () (dnsblog_told D text s) := rfl

theorem dnsblog_query_update_bind {β : Type} (f : VSTRING → VSTRING)
    (k : Unit → Proc DNSBLOG_STATE β) (s : DNSBLOG_STATE) :
    (dnsblog_query_update f >>= k) s = k () { s with query := f s.query } := rfl

theorem dnsblog_told_query (D : DNSBLOG_ENV) (text : String) (s : DNSBLOG_STATE) :
    (dnsblog_told D text s).query = s.query := by
  unfold dnsblog_told
  split <;> rfl

theorem dnsblog_tail_run (D : DNSBLOG_ENV) (dom addr : String) (s1 : DNSBLOG_STATE) :
    (dnsblog_query_tail D dom addr s1).ending
        = .returned (dnsblog_found D (D.dns_lookup (c_string (STR s1.query)))) ∧
      (dnsblog_query_tail D dom addr s1).state.query = s1.query := by
  unfold dnsblog_query_tail
  simp only [proc_bind_apply, dnsblog_found]
  by_cases hok : (D.dns_lookup (c_string (STR s1.query))).status = D.DNS_OK
  · have h1 := rr_loop_run D "dnsblog_query" dom addr (c_string (STR s1.query))
      (D.dns_lookup (c_string (STR s1.query))).addr_list 0
      { s1 with why := (D.dns_lookup (c_string (STR s1.query))).why }
    rw [if_pos hok]
    refine ⟨?_, h1.2⟩
    rw [h1.1]
    simp only [hok, true_and]
  · have hno : ¬ ((D.dns_lookup (c_string (STR s1.query))).status = D.DNS_OK ∧
        ∃ rr ∈ (D.dns_lookup (c_string (STR s1.query))).addr_list,
          (D.dns_rr_to_pa rr).isSome) := fun h => hok h.1
    rw [if_neg hok, if_neg hno]
    by_cases hnf : (D.dns_lookup (c_string (STR s1.query))).status = D.DNS_NOTFOUND
    · rw [if_pos hnf]
      refine ⟨rfl, ?_⟩
      show (dnsblog_told D _ _).query = _
      rw [dnsblog_told_query]
    · rw [if_neg hnf]
      exact ⟨rfl, rfl⟩

theorem dnsblog_query_eq (D : DNSBLOG_ENV) (dom addr : String) (s : DNSBLOG_STATE) :
    dnsblog_query D dom addr s =
      match dnsblog_built D dom addr s.query with
      | some q => dnsblog_query_tail D dom addr
          { dnsblog_told D ("dnsblog_query" ++ ": addr " ++ addr ++ " dnsbl_domain " ++ dom) s
            with query := q }
      | none => .fatal ("dnsblog_query" ++ ": unable to convert address " ++ addr)
          { dnsblog_told D ("dnsblog_query" ++ ": addr " ++ addr ++ " dnsbl_domain " ++ dom) s
            with query := VSTRING_RESET s.query } := by
  unfold dnsblog_built dnsblog_query
  by_cases h6 : D.HAS_IPV6 = true ∧ D.valid_ipv6_hostaddr addr = true
  · rw [if_pos h6, if_pos h6]
    cases hh : D.hostaddr_to_sockaddr addr with
    | none =>
      simp only []
      rw [dnsblog_verbose_log_bind, dnsblog_query_update_bind]
      simp only [dnsblog_told_query]
      rfl
    | some res =>
      by_cases hf : res.ai_family ≠ D.PF_INET6
      · simp only [if_pos hf]
        rw [dnsblog_verbose_log_bind, dnsblog_query_update_bind]
        simp only [dnsblog_told_query]
        rfl
      · simp only [if_neg hf]
        rw [dnsblog_verbose_log_bind, dnsblog_query_update_bind, dnsblog_query_update_bind,
          dnsblog_query_update_bind]
        simp only [dnsblog_told_query]
        rfl
  · rw [if_neg h6, if_neg h6]
    simp only []
    rw [dnsblog_verbose_log_bind, dnsblog_query_update_bind, dnsblog_query_update_bind,
      dnsblog_query_update_bind]
    simp only [dnsblog_told_query]
    rfl

theorem dnsblog_frame_refl (s : DNSBLOG_STATE) : dnsblog_frame s s := ⟨rfl, rfl, rfl, rfl⟩

theorem dnsblog_frame_trans (s s2 s3 : DNSBLOG_STATE) (h1 : dnsblog_frame s s2)
    (h2 : dnsblog_frame s2 s3) : dnsblog_frame s s3 :=
  ⟨h2.1.trans h1.1, h2.2.1.trans h1.2.1, h2.2.2.1.trans h1.2.2.1, h2.2.2.2.trans h1.2.2.2⟩

theorem dnsblog_told_frame (D : DNSBLOG_ENV) (text : String) (s : DNSBLOG_STATE) :
    dnsblog_frame s (dnsblog_told D text s) := by
  unfold dnsblog_told
  split
  · exact ⟨rfl, rfl, rfl, rfl⟩
  · exact dnsblog_frame_refl s

theorem rr_loop_frame (D : DNSBLOG_ENV) (myname dnsbl_domain addr query : String) :
    ∀ (l : List DNS_RR) (found : Int) (s : DNSBLOG_STATE),
      dnsblog_frame s (dnsblog_rr_loop D myname dnsbl_domain addr query l found s).state := by
  intro l
  induction l with
  | nil => intro found s; exact dnsblog_frame_refl s
  | cons rr next ih =>
    intro found s
    unfold dnsblog_rr_loop
    cases h : D.dns_rr_to_pa rr with
    | none =>
      simp only [proc_bind_apply, dnsblog_log]
      exact dnsblog_frame_trans _ _ _ ⟨rfl, rfl, rfl, rfl⟩ (ih found _)
    | some hostaddr =>
      simp only [proc_bind_apply, dnsblog_log]
      exact dnsblog_frame_trans _ _ _ ⟨rfl, rfl, rfl, rfl⟩ (ih 1 _)

theorem dnsblog_tail_frame (D : DNSBLOG_ENV) (dom addr : String) (s1 : DNSBLOG_STATE) :
    dnsblog_frame s1 (dnsblog_query_tail D dom addr s1).state := by
  unfold dnsblog_query_tail
  simp only [proc_bind_apply]
  by_cases hok : (D.dns_lookup (c_string (STR s1.query))).status = D.DNS_OK
  · rw [if_pos hok]
    exact dnsblog_frame_trans _ _ _ ⟨rfl, rfl, rfl, rfl⟩ (rr_loop_frame D _ _ _ _ _ _ _)
  · rw [if_neg hok]
    by_cases hnf : (D.dns_lookup (c_string (STR s1.query))).status = D.DNS_NOTFOUND
    · rw [if_pos hnf]
      exact dnsblog_frame_trans _ _ _ ⟨rfl, rfl, rfl, rfl⟩ (dnsblog_told_frame D _ _)
    · rw [if_neg hnf]
      exact ⟨rfl, rfl, rfl, rfl⟩

theorem dnsblog_query_frame (D : DNSBLOG_ENV) (dom addr : String) (s : DNSBLOG_STATE) :
    dnsblog_frame s (dnsblog_query D dom addr s).state := by
  rw [dnsblog_query_eq]
  cases dnsblog_built D dom addr s.query with
  | none =>
    exact dnsblog_frame_trans _ _ _ (dnsblog_told_frame D _ s) ⟨rfl, rfl, rfl, rfl⟩
  | some q =>
    exact dnsblog_frame_trans _ _ _
      (dnsblog_frame_trans _ _ _ (dnsblog_told_frame D _ s) ⟨rfl, rfl, rfl, rfl⟩)
      (dnsblog_tail_frame D dom addr _)

theorem dnsblog_query_ending (D : DNSBLOG_ENV) (dom addr : String) (s : DNSBLOG_STATE) :
    (dnsblog_query D dom addr s).ending =
      match dnsblog_built D dom addr s.query with
      | some q => .returned (dnsblog_found D (D.dns_lookup (c_string (STR q))))
      | none => .terminated ("dnsblog_query" ++ ": unable to convert address " ++ addr) := by
  rw [dnsblog_query_eq]
  cases dnsblog_built D dom addr s.query with
  | none => rfl
  | some q => exact (dnsblog_tail_run D dom addr _).1

theorem dnsblog_query_final (D : DNSBLOG_ENV) (dom addr : String) (s : DNSBLOG_STATE)
    (q : VSTRING) (h : dnsblog_built D dom addr s.query = some q) :
    (dnsblog_query D dom addr s).state.query = q := by
  rw [dnsblog_query_eq, h]
  exact (dnsblog_tail_run D dom addr _).2

theorem dnsblog_built_none (D : DNSBLOG_ENV) (dom addr : String) (query : VSTRING)
    (h : dnsblog_built D dom addr query = none) :
    D.HAS_IPV6 = true ∧ D.valid_ipv6_hostaddr addr = true ∧
      ∀ res, D.hostaddr_to_sockaddr addr = some res → res.ai_family ≠ D.PF_INET6 := by
  unfold dnsblog_built at h
  by_cases h6 : D.HAS_IPV6 = true ∧ D.valid_ipv6_hostaddr addr = true
  · refine ⟨h6.1, h6.2, ?_⟩
    intro res hres
    rw [if_pos h6, hres] at h
    by_cases hf : res.ai_family ≠ D.PF_INET6
    · exact hf
    · simp [hf] at h
  · rw [if_neg h6] at h
    cases h

theorem dnsblog_service_run (D : DNSBLOG_ENV) (fp : VSTREAM) (name : String)
    (s : DNSBLOG_STATE) :
    dnsblog_service D fp name [] s =
      if (D.attr_scan fp).1 = 2 then
        match dnsblog_query D (D.attr_scan fp).2.1 (D.attr_scan fp).2.2
            { s with rbl_domain := (D.attr_scan fp).2.1, addr := (D.attr_scan fp).2.2 } with
        | .ret found s1 =>
          .ret () { s1 with
            sent := s1.sent ++ [(fp, D.ATTR_FLAG_NONE,
              [Attr.str MAIL_ATTR_RBL_DOMAIN (some s1.rbl_domain),
               Attr.str MAIL_ATTR_ADDR (some s1.addr),
               Attr.int MAIL_ATTR_STATUS found])],
            flushed := s1.flushed ++ [fp] }
        | .fatal msg s1 => .fatal msg s1
      else .ret () { s with rbl_domain := (D.attr_scan fp).2.1, addr := (D.attr_scan fp).2.2 } := by
  unfold dnsblog_service
  simp only [proc_bind_apply]
  by_cases h : (D.attr_scan fp).1 = 2
  · rw [if_pos h, if_pos h]
    simp only [proc_bind_apply]
    cases dnsblog_query D (D.attr_scan fp).2.1 (D.attr_scan fp).2.2
      { s with rbl_domain := (D.attr_scan fp).2.1, addr := (D.attr_scan fp).2.2 } <;> rfl
  · rw [if_neg h, if_neg h]
    rfl

theorem show_strval_run (mode : Nat) (name value : String) (s : POSTCONF_STATE) :
    show_strval mode name value s =
      .ret () { s with out := s.out ++ [postconf_line mode name value] } := by
  unfold show_strval postconf_line
  by_cases h : mode &&& SHOW_NAME ≠ 0
  · rw [if_pos h, if_pos h]; rfl
  · rw [if_neg h, if_neg h]; rfl

theorem show_intval_run (mode : Nat) (name : String) (value : Int) (s : POSTCONF_STATE) :
    show_intval mode name value s =
      .ret () { s with out := s.out ++ [postconf_line mode name (toString value)] } := by
  unfold show_intval postconf_line
  by_cases h : mode &&& SHOW_NAME ≠ 0
  · rw [if_pos h, if_pos h]; rfl
  · rw [if_neg h, if_neg h]; rfl

theorem print_bool_nondef (mode : Nat) (hn : mode &&& SHOW_NONDEF ≠ 0)
    (hd : mode &&& SHOW_DEFS = 0) (cbt : CONFIG_BOOL_TABLE) (s : POSTCONF_STATE) :
    print_bool mode cbt s =
      .ret () { s with
        out := s.out ++ nondef_lines mode cbt.name (s.config_dict.lookup cbt.name) } := by
  unfold print_bool
  rw [if_neg (not_not.mpr hd)]
  simp only [proc_bind_apply, dict_lookup_CONFIG_DICT]
  rw [if_neg hn]
  cases h : s.config_dict.lookup cbt.name with
  | none => simp [nondef_lines, proc_pure_apply]
  | some v => simp only [show_strval_run, nondef_lines]

theorem print_int_nondef (mode : Nat) (hn : mode &&& SHOW_NONDEF ≠ 0)
    (hd : mode &&& SHOW_DEFS = 0) (cit : CONFIG_INT_TABLE) (s : POSTCONF_STATE) :
    print_int mode cit s =
      .ret () { s with
        out := s.out ++ nondef_lines mode cit.name (s.config_dict.lookup cit.name) } := by
  unfold print_int
  rw [if_neg (not_not.mpr hd)]
  simp only [proc_bind_apply, dict_lookup_CONFIG_DICT]
  rw [if_neg hn]
  cases h : s.config_dict.lookup cit.name with
  | none => simp [nondef_lines, proc_pure_apply]
  | some v => simp only [show_strval_run, nondef_lines]

theorem print_str_nondef (mode : Nat) (hn : mode &&& SHOW_NONDEF ≠ 0)
    (hd : mode &&& SHOW_DEFS = 0) (cst : CONFIG_STR_TABLE) (s : POSTCONF_STATE) :
    print_str mode cst s =
      .ret () { s with
        out := s.out ++ nondef_lines mode cst.name (s.config_dict.lookup cst.name) } := by
  unfold print_str
  rw [if_neg (not_not.mpr hd)]
  simp only [proc_bind_apply, dict_lookup_CONFIG_DICT]
  rw [if_neg hn]
  cases h : s.config_dict.lookup cst.name with
  | none => simp [nondef_lines, proc_pure_apply]
  | some v => simp only [show_strval_run, nondef_lines]

theorem print_str_fn_nondef (P : POSTCONF_ENV) (mode : Nat) (hn : mode &&& SHOW_NONDEF ≠ 0)
    (hd : mode &&& SHOW_DEFS = 0) (csft : CONFIG_STR_FN_TABLE) (s : POSTCONF_STATE) :
    print_str_fn P mode csft s =
      .ret () { s with
        out := s.out ++ nondef_lines mode csft.name (s.config_dict.lookup csft.name) } := by
  unfold print_str_fn
  rw [if_neg (not_not.mpr hd)]
  simp only [proc_bind_apply, dict_lookup_CONFIG_DICT]
  rw [if_neg hn]
  cases h : s.config_dict.lookup csft.name with
  | none => simp [nondef_lines, proc_pure_apply]
  | some v => simp only [show_strval_run, nondef_lines]

theorem print_str_fn_2_nondef (P : POSTCONF_ENV) (mode : Nat) (hn : mode &&& SHOW_NONDEF ≠ 0)
    (hd : mode &&& SHOW_DEFS = 0) (csft : CONFIG_STR_FN_TABLE) (s : POSTCONF_STATE) :
    print_str_fn_2 P mode csft s =
      .ret () { s with
        out := s.out ++ nondef_lines mode csft.name (s.config_dict.lookup csft.name) } := by
  unfold print_str_fn_2
  rw [if_neg (not_not.mpr hd)]
  simp only [proc_bind_apply, dict_lookup_CONFIG_DICT]
  rw [if_neg hn]
  cases h : s.config_dict.lookup csft.name with
  | none => simp [nondef_lines, proc_pure_apply]
  | some v => simp only [show_strval_run, nondef_lines]

theorem check_myhostname_state (P : POSTCONF_ENV) (s : POSTCONF_STATE) :
    (check_myhostname P s).state = s := by
  unfold check_myhostname
  simp only [proc_bind_apply]
  split
  · cases P.mail_conf_lookup_eval s.config_dict P.VAR_MYDOMAIN <;> rfl
  · rfl

theorem check_myhostname_defs (P : POSTCONF_ENV) (s : POSTCONF_STATE)
    (h : s.mode &&& SHOW_DEFS ≠ 0) : check_myhostname P s = .ret P.get_hostname s := by
  unfold check_myhostname
  simp only [proc_bind_apply]
  rw [if_neg (fun hc => h hc.1)]
  rfl

theorem postconf_frame_refl (s : POSTCONF_STATE) : postconf_frame s s := ⟨rfl, rfl, rfl⟩

theorem get_myhostname_eq (P : POSTCONF_ENV) (s : POSTCONF_STATE) :
    get_myhostname P s =
      match s.config_dict.lookup P.VAR_MYHOSTNAME with
      | some name => .ret () { s with var_myhostname := some name }
      | none =>
        match check_myhostname P s with
        | .ret name s1 => .ret () { s1 with var_myhostname := some name }
        | .fatal msg s1 => .fatal msg s1 := by
  unfold get_myhostname
  simp only [proc_bind_apply, dict_lookup_CONFIG_DICT]
  cases s.config_dict.lookup P.VAR_MYHOSTNAME with
  | some name => rfl
  | none =>
    simp only [proc_bind_apply]
    cases check_myhostname P s <;> rfl

theorem get_myhostname_frame (P : POSTCONF_ENV) (s : POSTCONF_STATE) :
    postconf_frame s (get_myhostname P s).state := by
  rw [get_myhostname_eq]
  cases s.config_dict.lookup P.VAR_MYHOSTNAME with
  | some name => exact ⟨rfl, rfl, rfl⟩
  | none =>
    have h := check_myhostname_state P s
    cases hc : check_myhostname P s with
    | ret a w =>
      rw [hc] at h
      have hw : w = s := h
      subst hw
      exact ⟨rfl, rfl, rfl⟩
    | fatal m w =>
      rw [hc] at h
      have hw : w = s := h
      subst hw
      exact ⟨rfl, rfl, rfl⟩

theorem get_myhostname_defs (P : POSTCONF_ENV) (s : POSTCONF_STATE)
    (h : s.mode &&& SHOW_DEFS ≠ 0) : ∃ s1, get_myhostname P s = .ret () s1 := by
  rw [get_myhostname_eq]
  cases s.config_dict.lookup P.VAR_MYHOSTNAME with
  | some name => exact ⟨_, rfl⟩
  | none =>
    rw [check_myhostname_defs P s h]
    exact ⟨_, rfl⟩

theorem proc_ite_pure {σ α : Type} (c : Prop) [Decidable c] (a b : α) (w : σ) :
    (if c then (pure a : Proc σ α) else pure b) w = .ret (if c then a else b) w := by
  split <;> rfl

theorem check_mydomainname_eq (P : POSTCONF_ENV) (s : POSTCONF_STATE) :
    ∃ f : String → String, check_mydomainname P s =
      match (if s.var_myhostname = none then get_myhostname P s else .ret () s) with
      | .ret _ s1 => .ret (f (s1.var_myhostname.getD "")) s1
      | .fatal msg s1 => .fatal msg s1 := by
  refine ⟨fun h => if h.toList.dropWhile (fun c => c ≠ '.') = [] ∨
      '.' ∉ (h.toList.dropWhile (fun c => c ≠ '.')).tail then h
    else String.mk (h.toList.dropWhile (fun c => c ≠ '.')).tail, ?_⟩
  unfold check_mydomainname
  by_cases hv : s.var_myhostname = none
  · simp only [proc_bind_apply, if_pos hv]
    cases get_myhostname P s with
    | ret a w => simp only [proc_ite_pure]
    | fatal m w => rfl
  · simp only [proc_bind_apply, if_neg hv, proc_pure_apply, proc_ite_pure]

theorem check_mydomainname_frame (P : POSTCONF_ENV) (s : POSTCONF_STATE) :
    postconf_frame s (check_mydomainname P s).state := by
  obtain ⟨f, hf⟩ := check_mydomainname_eq P s
  rw [hf]
  by_cases hv : s.var_myhostname = none
  · rw [if_pos hv]
    have h := get_myhostname_frame P s
    cases hc : get_myhostname P s with
    | ret a w => rw [hc] at h; exact h
    | fatal m w => rw [hc] at h; exact h
  · rw [if_neg hv]
    exact postconf_frame_refl s

theorem check_mydomainname_defs (P : POSTCONF_ENV) (s : POSTCONF_STATE)
    (h : s.mode &&& SHOW_DEFS ≠ 0) : ∃ v s1, check_mydomainname P s = .ret v s1 := by
  obtain ⟨f, hf⟩ := check_mydomainname_eq P s
  rw [hf]
  by_cases hv : s.var_myhostname = none
  · rw [if_pos hv]
    obtain ⟨s1, hs1⟩ := get_myhostname_defs P s h
    rw [hs1]
    exact ⟨_, _, rfl⟩
  · rw [if_neg hv]
    exact ⟨_, _, rfl⟩

theorem check_mynetworks_run (P : POSTCONF_ENV) (s : POSTCONF_STATE) :
    ∃ s1, check_mynetworks P s = .ret P.mynetworks s1 ∧ postconf_frame s s1 := by
  unfold check_mynetworks
  simp only [proc_bind_apply]
  by_cases hv : s.var_inet_interfaces = none
  · rw [if_pos hv]; exact ⟨_, rfl, rfl, rfl, rfl⟩
  · rw [if_neg hv]; exact ⟨_, rfl, rfl, rfl, rfl⟩

theorem call_defval_frame (P : POSTCONF_ENV) (fn : STR_FN) (s : POSTCONF_STATE) :
    postconf_frame s (call_defval P fn s).state := by
  cases fn with
  | check_myhostname =>
    show postconf_frame s (check_myhostname P s).state
    rw [check_myhostname_state]
    exact postconf_frame_refl s
  | check_mydomainname => exact check_mydomainname_frame P s
  | check_mynetworks =>
    obtain ⟨s1, h1, h2⟩ := check_mynetworks_run P s
    show postconf_frame s (check_mynetworks P s).state
    rw [h1]
    exact h2

theorem call_defval_defs (P : POSTCONF_ENV) (fn : STR_FN) (s : POSTCONF_STATE)
    (h : s.mode &&& SHOW_DEFS ≠ 0) : ∃ v s1, call_defval P fn s = .ret v s1 := by
  cases fn with
  | check_myhostname => exact ⟨_, _, check_myhostname_defs P s h⟩
  | check_mydomainname => exact check_mydomainname_defs P s h
  | check_mynetworks =>
    obtain ⟨s1, h1, _⟩ := check_mynetworks_run P s
    exact ⟨_, s1, h1⟩

theorem print_bool_select (mode : Nat) (h : mode &&& SHOW_DEFS ≠ 0 ∨ mode &&& SHOW_NONDEF = 0)
    (cbt : CONFIG_BOOL_TABLE) (s : POSTCONF_STATE) :
    print_bool mode cbt s =
      .ret () { s with
        out := s.out ++ [postconf_line mode cbt.name
          (selected_value mode s cbt.name (if cbt.defval ≠ 0 then "yes" else "no"))] } := by
  unfold print_bool selected_value
  by_cases hd : mode &&& SHOW_DEFS ≠ 0
  · rw [if_pos hd, if_pos hd, show_strval_run]
  · have hn : mode &&& SHOW_NONDEF = 0 := h.resolve_left hd
    rw [if_neg hd, if_neg hd]
    simp only [proc_bind_apply, dict_lookup_CONFIG_DICT]
    rw [if_pos hn]
    cases s.config_dict.lookup cbt.name with
    | none => simp only [show_strval_run, Option.getD_none]
    | some v => simp only [show_strval_run, Option.getD_some]

theorem print_int_select (mode : Nat) (h : mode &&& SHOW_DEFS ≠ 0 ∨ mode &&& SHOW_NONDEF = 0)
    (cit : CONFIG_INT_TABLE) (s : POSTCONF_STATE) :
    print_int mode cit s =
      .ret () { s with
        out := s.out ++ [postconf_line mode cit.name
          (selected_value mode s cit.name (toString cit.defval))] } := by
  unfold print_int selected_value
  by_cases hd : mode &&& SHOW_DEFS ≠ 0
  · rw [if_pos hd, if_pos hd, show_intval_run]
  · have hn : mode &&& SHOW_NONDEF = 0 := h.resolve_left hd
    rw [if_neg hd, if_neg hd]
    simp only [proc_bind_apply, dict_lookup_CONFIG_DICT]
    rw [if_pos hn]
    cases s.config_dict.lookup cit.name with
    | none => simp only [show_intval_run, Option.getD_none]
    | some v => simp only [show_strval_run, Option.getD_some]

theorem print_str_select (mode : Nat) (h : mode &&& SHOW_DEFS ≠ 0 ∨ mode &&& SHOW_NONDEF = 0)
    (cst : CONFIG_STR_TABLE) (s : POSTCONF_STATE) :
    print_str mode cst s =
      .ret () { s with
        out := s.out ++ [postconf_line mode cst.name
          (selected_value mode s cst.name cst.defval)] } := by
  unfold print_str selected_value
  by_cases hd : mode &&& SHOW_DEFS ≠ 0
  · rw [if_pos hd, if_pos hd, show_strval_run]
  · have hn : mode &&& SHOW_NONDEF = 0 := h.resolve_left hd
    rw [if_neg hd, if_neg hd]
    simp only [proc_bind_apply, dict_lookup_CONFIG_DICT]
    rw [if_pos hn]
    cases s.config_dict.lookup cst.name with
    | none => simp only [show_strval_run, Option.getD_none]
    | some v => simp only [show_strval_run, Option.getD_some]

theorem defval_then_show (P : POSTCONF_ENV) (mode : Nat) (csft : CONFIG_STR_FN_TABLE)
    (s : POSTCONF_STATE) :
    (call_defval P csft.defval >>= fun defval => show_strval mode csft.name defval) s =
      match call_defval P csft.defval s with
      | .ret defval s1 =>
        .ret () { s1 with out := s.out ++ [postconf_line mode csft.name defval] }
      | .fatal msg s1 => .fatal msg s1 := by
  have hf := call_defval_frame P csft.defval s
  rw [proc_bind_apply]
  cases hc : call_defval P csft.defval s with
  | ret v s1 =>
    rw [hc] at hf
    have ho : s1.out = s.out := hf.1
    simp only [show_strval_run, ho]
  | fatal m s1 => rfl

theorem str_fn_selects (P : POSTCONF_ENV) (mode : Nat) (s : POSTCONF_STATE)
    (print : CONFIG_STR_FN_TABLE → Proc POSTCONF_STATE Unit)
    (hdefs : mode &&& SHOW_DEFS ≠ 0 → ∀ csft, print csft s =
      (call_defval P csft.defval >>= fun defval => show_strval mode csft.name defval) s)
    (hsome : mode &&& SHOW_DEFS = 0 → mode &&& SHOW_NONDEF = 0 → ∀ csft value,
      s.config_dict.lookup csft.name = some value →
        print csft s = show_strval mode csft.name value s)
    (hnone : mode &&& SHOW_DEFS = 0 → mode &&& SHOW_NONDEF = 0 → ∀ csft,
      s.config_dict.lookup csft.name = none → print csft s =
        (call_defval P csft.defval >>= fun defval => show_strval mode csft.name defval) s) :
    StrFnSelects P mode s print := by
  refine ⟨fun hd hg csft => ?_, fun hd hn csft => ⟨fun value hv => ?_, fun hv => ⟨?_, ?_⟩⟩⟩
  · obtain ⟨v, s1, h1⟩ := call_defval_defs P csft.defval s (by rw [hg]; exact hd)
    refine ⟨v, s1, h1, ?_⟩
    rw [hdefs hd, defval_then_show, h1]
  · rw [hsome hd hn csft value hv, show_strval_run]
  · intro v s1 h1
    rw [hnone hd hn csft hv, defval_then_show, h1]
  · intro m s1 h1
    have hf := call_defval_frame P csft.defval s
    rw [h1] at hf
    rw [hnone hd hn csft hv, defval_then_show, h1]
    exact ⟨rfl, hf.1⟩

theorem print_str_fn_selects (P : POSTCONF_ENV) (mode : Nat) (s : POSTCONF_STATE) :
    StrFnSelects P mode s (print_str_fn P mode) := by
  apply str_fn_selects
  · intro hd csft
    unfold print_str_fn
    rw [if_pos hd]
  · intro hd hn csft value hv
    unfold print_str_fn
    rw [if_neg (not_not.mpr hd)]
    simp only [proc_bind_apply, dict_lookup_CONFIG_DICT]
    rw [if_pos hn, hv]
  · intro hd hn csft hv
    unfold print_str_fn
    rw [if_neg (not_not.mpr hd)]
    simp only [proc_bind_apply, dict_lookup_CONFIG_DICT]
    rw [if_pos hn, hv]
    rfl

theorem print_str_fn_2_selects (P : POSTCONF_ENV) (mode : Nat) (s : POSTCONF_STATE) :
    StrFnSelects P mode s (print_str_fn_2 P mode) := by
  apply str_fn_selects
  · intro hd csft
    unfold print_str_fn_2
    rw [if_pos hd]
  · intro hd hn csft value hv
    unfold print_str_fn_2
    rw [if_neg (not_not.mpr hd)]
    simp only [proc_bind_apply, dict_lookup_CONFIG_DICT]
    rw [if_pos hn, hv]
  · intro hd hn csft hv
    unfold print_str_fn_2
    rw [if_neg (not_not.mpr hd)]
    simp only [proc_bind_apply, dict_lookup_CONFIG_DICT]
    rw [if_pos hn, hv]
    rfl

theorem postconf_options_d (argv0 : String) (rest : List Char) (s : POSTCONF_STATE) :
    postconf_options argv0 ('d' :: rest) s =
      if s.mode &&& SHOW_NONDEF ≠ 0 then .fatal "specify one of -d and -n" s
      else postconf_options argv0 rest { s with mode := s.mode ||| SHOW_DEFS } := by
  rw [postconf_options]
  simp only [if_true, proc_bind_apply]
  split <;> rfl

theorem postconf_options_n (argv0 : String) (rest : List Char) (s : POSTCONF_STATE) :
    postconf_options argv0 ('n' :: rest) s =
      if s.mode &&& SHOW_DEFS ≠ 0 then .fatal "specify one of -d and -n" s
      else postconf_options argv0 rest { s with mode := s.mode ||| SHOW_NONDEF } := by
  rw [postconf_options]
  rw [if_neg (by decide), if_neg (by decide), if_pos rfl]
  simp only [proc_bind_apply]
  split <;> rfl

theorem postconf_options_h (argv0 : String) (rest : List Char) (s : POSTCONF_STATE) :
    postconf_options argv0 ('h' :: rest) s =
      postconf_options argv0 rest { s with mode := s.mode &&& c_not32 SHOW_NAME } := by
  rw [postconf_options]
  rw [if_neg (by decide), if_pos rfl]
  rfl

theorem postconf_options_v (argv0 : String) (rest : List Char) (s : POSTCONF_STATE) :
    postconf_options argv0 ('v' :: rest) s =
      postconf_options argv0 rest { s with msg_verbose := s.msg_verbose + 1 } := by
  rw [postconf_options]
  rw [if_neg (by decide), if_neg (by decide), if_neg (by decide), if_pos rfl]
  rfl

theorem mode_bits_facts : ∀ m, m < 8 →
    (m ||| SHOW_DEFS) < 8 ∧ (m ||| SHOW_NONDEF) < 8 ∧ (m &&& c_not32 SHOW_NAME) < 8 ∧
    (m ||| SHOW_DEFS) &&& SHOW_DEFS ≠ 0 ∧ (m ||| SHOW_NONDEF) &&& SHOW_NONDEF ≠ 0 ∧
    (m ||| SHOW_DEFS) &&& SHOW_NONDEF = m &&& SHOW_NONDEF ∧
    (m ||| SHOW_NONDEF) &&& SHOW_DEFS = m &&& SHOW_DEFS ∧
    (m &&& c_not32 SHOW_NAME) &&& SHOW_DEFS = m &&& SHOW_DEFS ∧
    (m &&& c_not32 SHOW_NAME) &&& SHOW_NONDEF = m &&& SHOW_NONDEF := by
  decide

theorem postconf_options_run (argv0 : String) : ∀ (opts : List Char),
    (∀ c ∈ opts, c = 'd' ∨ c = 'h' ∨ c = 'n' ∨ c = 'v') → ∀ s : POSTCONF_STATE, s.mode < 8 →
    ¬(s.mode &&& SHOW_DEFS ≠ 0 ∧ s.mode &&& SHOW_NONDEF ≠ 0) →
    (((s.mode &&& SHOW_DEFS ≠ 0 ∨ 'd' ∈ opts) ∧ (s.mode &&& SHOW_NONDEF ≠ 0 ∨ 'n' ∈ opts)) →
      ∃ s1, postconf_options argv0 opts s = .fatal "specify one of -d and -n" s1) ∧
    (¬((s.mode &&& SHOW_DEFS ≠ 0 ∨ 'd' ∈ opts) ∧ (s.mode &&& SHOW_NONDEF ≠ 0 ∨ 'n' ∈ opts)) →
      ∃ s1, postconf_options argv0 opts s = .ret () s1 ∧
        ¬(s1.mode &&& SHOW_DEFS ≠ 0 ∧ s1.mode &&& SHOW_NONDEF ≠ 0)) := by
  intro opts
  induction opts with
  | nil =>
    intro _ s _ hnb
    refine ⟨fun h => ?_, fun _ => ⟨s, rfl, hnb⟩⟩
    simp only [List.not_mem_nil, or_false] at h
    exact absurd h hnb
  | cons ch rest ih =>
    intro hl s hm hnb
    have hrest : ∀ c ∈ rest, c = 'd' ∨ c = 'h' ∨ c = 'n' ∨ c = 'v' :=
      fun c hc => hl c (List.mem_cons_of_mem _ hc)
    obtain ⟨f1, f2, f3, f4, f5, f6, f7, f8, f9⟩ := mode_bits_facts s.mode hm
    rcases hl ch (List.mem_cons_self _ _) with hch | hch | hch | hch <;> subst hch
    · rw [postconf_options_d]
      by_cases hN : s.mode &&& SHOW_NONDEF ≠ 0
      · rw [if_pos hN]
        refine ⟨fun _ => ⟨s, rfl⟩, fun h => absurd ⟨Or.inr (List.mem_cons_self _ _), Or.inl hN⟩ h⟩
      · rw [if_neg hN]
        have hi := ih hrest { s with mode := s.mode ||| SHOW_DEFS } f1
          (by simp only [f6]; exact fun h => hN h.2)
        simp only [f6] at hi
        have hd : ((s.mode ||| SHOW_DEFS) &&& SHOW_DEFS ≠ 0 ∨ 'd' ∈ rest) := Or.inl f4
        have hn : ('n' ∈ 'd' :: rest) ↔ 'n' ∈ rest := by simp
        refine ⟨fun h => hi.1 ⟨hd, h.2.imp id hn.mp⟩, fun h => hi.2 (fun hc => h ⟨Or.inr (List.mem_cons_self _ _), hc.2.imp id hn.mpr⟩)⟩
    · rw [postconf_options_h]
      have hi := ih hrest { s with mode := s.mode &&& c_not32 SHOW_NAME } f3
        (by simp only [f8, f9]; exact hnb)
      simp only [f8, f9] at hi
      have hd : ('d' ∈ 'h' :: rest) ↔ 'd' ∈ rest := by simp
      have hn : ('n' ∈ 'h' :: rest) ↔ 'n' ∈ rest := by simp
      rw [hd, hn]
      exact hi
    · rw [postconf_options_n]
      by_cases hD : s.mode &&& SHOW_DEFS ≠ 0
      · rw [if_pos hD]
        refine ⟨fun _ => ⟨s, rfl⟩, fun h => absurd ⟨Or.inl hD, Or.inr (List.mem_cons_self _ _)⟩ h⟩
      · rw [if_neg hD]
        have hi := ih hrest { s with mode := s.mode ||| SHOW_NONDEF } f2
          (by simp only [f7]; exact fun h => hD h.1)
        simp only [f7] at hi
        have hn : ((s.mode ||| SHOW_NONDEF) &&& SHOW_NONDEF ≠ 0 ∨ 'n' ∈ rest) := Or.inl f5
        have hd : ('d' ∈ 'n' :: rest) ↔ 'd' ∈ rest := by simp
        refine ⟨fun h => hi.1 ⟨h.1.imp id hd.mp, hn⟩, fun h => hi.2 (fun hc => h ⟨hc.1.imp id hd.mpr, Or.inr (List.mem_cons_self _ _)⟩)⟩
    · rw [postconf_options_v]
      have hi := ih hrest { s with msg_verbose := s.msg_verbose + 1 } hm hnb
      have hd : ('d' ∈ 'v' :: rest) ↔ 'd' ∈ rest := by simp
      have hn : ('n' ∈ 'v' :: rest) ↔ 'n' ∈ rest := by simp
      rw [hd, hn]
      exact hi

theorem passes_of_follows (more flags : Nat) (fp : VSTREAM) (fin : Ending)
    (plan : List (List Attr)) (cs : List Call) (st : Ending)
    (h : Follows fp (flags ||| more) fin plan cs st) : PassesFlags more flags fp cs := by
  intro c hc
  obtain ⟨h1, h2⟩ := follows_args fp (flags ||| more) fin plan cs st h c hc
  refine ⟨h1, h2, fun i hi => ?_, fun i hi => ?_⟩
  · rw [h2, Nat.testBit_or, hi, Bool.or_true]
  · rw [h2, Nat.testBit_or, hi, Bool.or_false]

theorem follows_attrs (fp : VSTREAM) (fl : Nat) (fin : Ending) :
    ∀ (plan : List (List Attr)) (cs : List Call) (st : Ending),
      Follows fp fl fin plan cs st → ∀ c ∈ cs, c.attrs ∈ plan := by
  intro plan
  induction plan with
  | nil =>
    intro cs st h c hc
    simp only [Follows] at h
    rw [h.1] at hc
    simp at hc
  | cons a rest ih =>
    intro cs st h c hc
    cases cs with
    | nil => simp at hc
    | cons c0 cs0 =>
      simp only [Follows] at h
      obtain ⟨_, _, h3, h4⟩ := h
      rcases List.mem_cons.mp hc with hc | hc
      · subst hc; rw [h3]; exact List.mem_cons_self _ _
      · by_cases h0 : c0.ending = .returned 0
        · rw [if_pos h0] at h4
          exact List.mem_cons_of_mem _ (ih cs0 st h4 c hc)
        · rw [if_neg h0] at h4
          rw [h4.1] at hc
          simp at hc

theorem strings_present_of_follows (fp : VSTREAM) (fl : Nat) (fin : Ending)
    (plan : List (List Attr)) (cs : List Call) (st : Ending)
    (h : Follows fp fl fin plan cs st)
    (hp : ∀ attrs ∈ plan, ∀ a ∈ attrs, attr_present a = true) : StringsPresent cs :=
  fun c hc a ha => hp c.attrs (follows_attrs fp fl fin plan cs st h c hc) a ha

theorem string_or_empty_present (name : AttrName) (s : CStr) :
    attr_present (Attr.str name (STRING_OR_EMPTY s)) = true := by
  rw [string_or_empty_eq]
  rfl

theorem init_print_strings (E : Env σ) (p : ATTR_PRINT_MASTER_FN σ) (fp : VSTREAM)
    (flags : Nat) (props : TLS_CLIENT_INIT_PROPS) (w : σ) :
    StringsPresent
      (tls_proxy_client_init_print E.logged (logged p) fp flags props (w, [])).calls := by
  obtain ⟨cs, h1, h2⟩ := init_print_follows E p fp flags props w []
  rw [h1, List.nil_append]
  refine strings_present_of_follows _ _ _ _ _ _ h2 ?_
  intro attrs hattrs a ha
  rw [List.mem_singleton] at hattrs
  subst hattrs
  simp only [List.mem_cons, List.mem_singleton, List.not_mem_nil, or_false] at ha
  rcases ha with h | h | h | h | h | h | h | h | h | h | h | h | h <;> subst h <;>
    first | exact string_or_empty_present _ _ | rfl

theorem start_print_strings (E : Env σ) (p : ATTR_PRINT_MASTER_FN σ) (fp : VSTREAM)
    (flags : Nat) (props : TLS_CLIENT_START_PROPS) (w : σ) :
    StringsPresent
      (tls_proxy_client_start_print E.logged (logged p) fp flags props (w, [])).calls := by
  obtain ⟨cs, h1, h2⟩ := start_print_follows E p fp flags props w []
  rw [h1, List.nil_append]
  refine strings_present_of_follows _ _ _ _ _ _ h2 ?_
  intro attrs hattrs a ha
  rw [List.mem_singleton] at hattrs
  subst hattrs
  simp only [List.mem_cons, List.mem_singleton, List.not_mem_nil, or_false] at ha
  rcases ha with h | h | h | h | h | h | h | h | h | h | h | h | h <;> subst h <;>
    first | exact string_or_empty_present _ _ | rfl

theorem dane_print_strings (E : Env σ) (p : ATTR_PRINT_MASTER_FN σ) (fp : VSTREAM)
    (flags : Nat) (ptr : Option TLS_DANE) (w : σ) :
    StringsPresent
      (tls_proxy_client_dane_print E.logged (logged p) fp flags ptr (w, [])).calls := by
  refine strings_present_of_follows _ _ _ _ _ _ (dane_print_follows_nil E p fp flags ptr w) ?_
  intro attrs hattrs a ha
  cases ptr with
  | none =>
    simp only [dane_plan, List.mem_singleton] at hattrs
    subst hattrs
    rw [List.mem_singleton] at ha
    subst ha
    rfl
  | some dane =>
    simp only [dane_plan, List.mem_cons, List.mem_singleton, List.not_mem_nil, or_false]
      at hattrs
    rcases hattrs with h | h <;> subst h
    · rw [List.mem_singleton] at ha
      subst ha
      rfl
    · simp only [List.mem_cons, List.mem_singleton, List.not_mem_nil, or_false] at ha
      rcases ha with h | h | h | h | h | h | h <;> subst h <;>
        first | exact string_or_empty_present _ _ | rfl

theorem tlsa_print_strings (E : Env σ) (p : ATTR_PRINT_MASTER_FN σ) (fp : VSTREAM)
    (flags : Nat) (chain : TLS_TLSA) (w : σ) (hm : ∀ tp ∈ chain, tp.mdalg ≠ none) :
    StringsPresent
      (tls_proxy_client_tlsa_print E.logged (logged p) fp flags chain (w, [])).calls := by
  refine strings_present_of_follows _ _ _ _ _ _ (tlsa_print_follows E p fp flags chain w) ?_
  intro attrs hattrs a ha
  rcases List.mem_cons.mp hattrs with h | h
  · subst h
    rw [List.mem_singleton] at ha
    subst ha
    rfl
  · obtain ⟨tp, htp, h⟩ := List.mem_map.mp h
    subst h
    simp only [List.mem_cons, List.mem_singleton, List.not_mem_nil, or_false] at ha
    rcases ha with h | h | h <;> subst h
    · cases hmd : tp.mdalg with
      | none => exact absurd hmd (hm tp htp)
      | some s => rfl
    · rfl
    · rfl

theorem agree_bind {σ α β : Type} (m1 m2 : Proc ((σ × List String) × List Call) α)
    (f1 f2 : α → Proc ((σ × List String) × List Call) β) (hm : RunsAgree m1 m2)
    (hf : ∀ a, RunsAgree (f1 a) (f2 a)) : RunsAgree (m1 >>= f1) (m2 >>= f2) := by
  intro s1 s2 hs
  have h := hm s1 s2 hs
  rw [proc_bind_apply, proc_bind_apply]
  cases h1 : m1 s1 with
  | ret a w1 =>
    cases h2 : m2 s2 with
    | ret b w2 =>
      rw [h1, h2] at h
      obtain ⟨hab, hw⟩ := h
      subst hab
      exact hf a w1 w2 hw
    | fatal m w2 => rw [h1, h2] at h; exact h.elim
  | fatal m w1 =>
    cases h2 : m2 s2 with
    | ret b w2 => rw [h1, h2] at h; exact h.elim
    | fatal m2 w2 => rw [h1, h2] at h; exact h

theorem agree_pure {σ α : Type} (a : α) :
    RunsAgree (pure a : Proc ((σ × List String) × List Call) α) (pure a) :=
  fun _ _ hs => ⟨rfl, hs⟩

theorem agree_panic {σ α : Type} (msg : String) :
    RunsAgree (msg_panic msg : Proc ((σ × List String) × List Call) α) (msg_panic msg) :=
  fun _ _ hs => ⟨rfl, hs⟩

theorem agree_ite {σ α : Type} (c : Prop) [Decidable c]
    (a1 a2 b1 b2 : Proc ((σ × List String) × List Call) α) (ha : RunsAgree a1 a2)
    (hb : RunsAgree b1 b2) : RunsAgree (if c then a1 else b1) (if c then a2 else b2) := by
  by_cases h : c
  · rw [if_pos h, if_pos h]; exact ha
  · rw [if_neg h, if_neg h]; exact hb

theorem agree_verbose_info {σ : Type} (more : Nat) (v1 v2 : Int) (t1 t2 : String) :
    RunsAgree ((diag_env more v1 : Env (σ × List String)).logged.verbose_info t1)
      ((diag_env more v2 : Env (σ × List String)).logged.verbose_info t2) := by
  intro s1 s2 hs
  rw [Env.verbose_info_apply, Env.verbose_info_apply]
  refine ⟨rfl, ?_⟩
  unfold Env.told
  by_cases h1 : (diag_env more v1 : Env (σ × List String)).logged.msg_verbose ≠ 0 <;>
    by_cases h2 : (diag_env more v2 : Env (σ × List String)).logged.msg_verbose ≠ 0
  · rw [if_pos h1, if_pos h2]; exact hs
  · rw [if_pos h1, if_neg h2]; exact hs
  · rw [if_neg h1, if_pos h2]; exact hs
  · rw [if_neg h1, if_neg h2]; exact hs

theorem agree_print {σ : Type} (p : ATTR_PRINT_MASTER_FN σ) (fp : VSTREAM) (flags : Nat)
    (attrs : List Attr) :
    RunsAgree (logged (with_diag p) fp flags attrs) (logged (with_diag p) fp flags attrs) := by
  intro s1 s2 hs
  obtain ⟨h1, h2⟩ := hs
  unfold logged with_diag
  rw [h1, h2]
  cases p fp flags attrs s2.1.1 with
  | ret r w1 => exact ⟨rfl, rfl, rfl⟩
  | fatal m w1 => exact ⟨rfl, rfl, rfl⟩

theorem agree_observation {σ : Type} (m1 m2 : Proc ((σ × List String) × List Call) Int)
    (h : RunsAgree m1 m2) (w : σ) (d : List String) :
    SameObservation (m1 ((w, d), [])) (m2 ((w, d), [])) := by
  have h0 := h ((w, d), []) ((w, d), []) ⟨rfl, rfl⟩
  cases h1 : m1 ((w, d), []) with
  | ret a w1 =>
    cases h2 : m2 ((w, d), []) with
    | ret b w2 =>
      rw [h1, h2] at h0
      obtain ⟨hab, hw1, hw2⟩ := h0
      subst hab
      exact ⟨hw2, rfl, hw1⟩
    | fatal m w2 => rw [h1, h2] at h0; exact h0.elim
  | fatal m w1 =>
    cases h2 : m2 ((w, d), []) with
    | ret b w2 => rw [h1, h2] at h0; exact h0.elim
    | fatal m2 w2 =>
      rw [h1, h2] at h0
      obtain ⟨hab, hw1, hw2⟩ := h0
      subst hab
      exact ⟨hw2, rfl, hw1⟩

theorem agree_chain_loop {σ ν : Type} (more : Nat) (v1 v2 : Int) (p : ATTR_PRINT_MASTER_FN σ)
    (fp : VSTREAM) (flags count : Nat) (body : ν → Except String (List Attr)) :
    ∀ (tp : List ν) (n : Nat) (ret : Int),
      RunsAgree
        (chain_loop (diag_env more v1 : Env (σ × List String)).logged (logged (with_diag p))
          fp flags count body tp n ret)
        (chain_loop (diag_env more v2 : Env (σ × List String)).logged (logged (with_diag p))
          fp flags count body tp n ret) := by
  intro tp
  induction tp with
  | nil =>
    intro n ret
    unfold chain_loop
    exact agree_ite _ _ _ _ _ (agree_panic _) (agree_pure _)
  | cons x next ih =>
    intro n ret
    unfold chain_loop
    refine agree_ite _ _ _ _ _ ?_ (agree_pure _)
    cases body x with
    | error msg => exact agree_panic _
    | ok attrs =>
      exact agree_bind _ _ _ _ (agree_print p fp _ attrs) (fun r => ih (n + 1) r)

theorem agree_chain_print {σ ν : Type} (more : Nat) (v1 v2 : Int) (p : ATTR_PRINT_MASTER_FN σ)
    (fp : VSTREAM) (flags : Nat) (msg1 msg2 : Nat → String)
    (body : ν → Except String (List Attr)) (chain : List ν) :
    RunsAgree
      (chain_print (diag_env more v1 : Env (σ × List String)).logged (logged (with_diag p))
        fp flags msg1 msg2 body chain)
      (chain_print (diag_env more v2 : Env (σ × List String)).logged (logged (with_diag p))
        fp flags msg1 msg2 body chain) := by
  unfold chain_print
  refine agree_bind _ _ _ _ (agree_verbose_info more v1 v2 _ _) (fun _ => ?_)
  refine agree_bind _ _ _ _ (agree_print p fp _ _) (fun r => ?_)
  have hjp : ∀ y : Int, RunsAgree
      ((diag_env more v1 : Env (σ × List String)).logged.verbose_info
        (msg2 (chain_count chain 0)) >>= fun _ => pure y)
      ((diag_env more v2 : Env (σ × List String)).logged.verbose_info
        (msg2 (chain_count chain 0)) >>= fun _ => pure y) :=
    fun y => agree_bind _ _ _ _ (agree_verbose_info more v1 v2 _ _) (fun _ => agree_pure _)
  dsimp only
  exact agree_ite _ _ _ _ _
    (agree_bind _ _ _ _ (agree_chain_loop more v1 v2 p fp flags _ body chain 0 r) hjp)
    (agree_bind _ _ _ _ (agree_pure _) hjp)

theorem agree_init_print {σ : Type} (more : Nat) (v1 v2 : Int) (p : ATTR_PRINT_MASTER_FN σ)
    (fp : VSTREAM) (flags : Nat) (props : TLS_CLIENT_INIT_PROPS) :
    RunsAgree
      (tls_proxy_client_init_print (diag_env more v1 : Env (σ × List String)).logged
        (logged (with_diag p)) fp flags props)
      (tls_proxy_client_init_print (diag_env more v2 : Env (σ × List String)).logged
        (logged (with_diag p)) fp flags props) := by
  unfold tls_proxy_client_init_print
  refine agree_bind _ _ _ _ (agree_verbose_info more v1 v2 _ _) (fun _ => ?_)
  refine agree_bind _ _ _ _ (agree_print p fp _ _) (fun r => ?_)
  exact agree_bind _ _ _ _ (agree_verbose_info more v1 v2 _ _) (fun _ => agree_pure _)

theorem agree_start_print {σ : Type} (more : Nat) (v1 v2 : Int) (p : ATTR_PRINT_MASTER_FN σ)
    (fp : VSTREAM) (flags : Nat) (props : TLS_CLIENT_START_PROPS) :
    RunsAgree
      (tls_proxy_client_start_print (diag_env more v1 : Env (σ × List String)).logged
        (logged (with_diag p)) fp flags props)
      (tls_proxy_client_start_print (diag_env more v2 : Env (σ × List String)).logged
        (logged (with_diag p)) fp flags props) := by
  unfold tls_proxy_client_start_print
  refine agree_bind _ _ _ _ (agree_verbose_info more v1 v2 _ _) (fun _ => ?_)
  refine agree_bind _ _ _ _ (agree_print p fp _ _) (fun r => ?_)
  exact agree_bind _ _ _ _ (agree_verbose_info more v1 v2 _ _) (fun _ => agree_pure _)

theorem agree_dane_print {σ : Type} (more : Nat) (v1 v2 : Int) (p : ATTR_PRINT_MASTER_FN σ)
    (fp : VSTREAM) (flags : Nat) (ptr : Option TLS_DANE) :
    RunsAgree
      (tls_proxy_client_dane_print (diag_env more v1 : Env (σ × List String)).logged
        (logged (with_diag p)) fp flags ptr)
      (tls_proxy_client_dane_print (diag_env more v2 : Env (σ × List String)).logged
        (logged (with_diag p)) fp flags ptr) := by
  unfold tls_proxy_client_dane_print
  refine agree_bind _ _ _ _ (agree_print p fp _ _) (fun r => ?_)
  refine agree_bind _ _ _ _ (agree_verbose_info more v1 v2 _ _) (fun _ => ?_)
  have hjp : ∀ y : Int, RunsAgree
      ((diag_env more v1 : Env (σ × List String)).logged.verbose_info
        ("tls_proxy_client_dane_print ret=" ++ toString y) >>= fun _ => pure y)
      ((diag_env more v2 : Env (σ × List String)).logged.verbose_info
        ("tls_proxy_client_dane_print ret=" ++ toString y) >>= fun _ => pure y) :=
    fun y => agree_bind _ _ _ _ (agree_verbose_info more v1 v2 _ _) (fun _ => agree_pure _)
  cases ptr with
  | none =>
    dsimp only
    exact agree_bind _ _ _ _ (agree_pure _) hjp
  | some dane =>
    dsimp only
    exact agree_ite _ _ _ _ _ (agree_bind _ _ _ _ (agree_print p fp _ _) hjp)
      (agree_bind _ _ _ _ (agree_pure _) hjp)

theorem vstring_reset_holds (vp : VSTRING) : vstring_holds (VSTRING_RESET vp) [] :=
  ⟨rfl, vp.data, rfl⟩

theorem vstring_text_holds (vp : VSTRING) (bytes : List Nat) (h : vstring_text vp bytes) :
    vstring_holds vp bytes :=
  ⟨h.1, by obtain ⟨rest, hr⟩ := h.2; exact ⟨0 :: rest, hr⟩⟩

theorem vstring_strcat_holds (vp : VSTRING) (bytes : List Nat) (src : String)
    (h : vstring_holds vp bytes) :
    vstring_text (vstring_strcat vp src) (bytes ++ char_codes src) := by
  obtain ⟨hp, rest, hd⟩ := h
  unfold vstring_strcat vstring_text char_codes
  refine ⟨?_, ?_⟩
  · show vp.ptr + src.length = _
    rw [hp, List.length_append, List.length_map]
    rfl
  · refine ⟨(bytes ++ rest).drop (bytes.length + src.length + 1), ?_⟩
    show vp.data.take vp.ptr ++ src.toList.map Char.toNat ++ [0] ++
        vp.data.drop (vp.ptr + src.length + 1) = _
    rw [hd, hp, List.take_left]
    simp only [List.append_assoc, List.singleton_append]

theorem vstring_strcat_text (vp : VSTRING) (bytes : List Nat) (src : String)
    (h : vstring_text vp bytes) :
    vstring_text (vstring_strcat vp src) (bytes ++ char_codes src) :=
  vstring_strcat_holds vp bytes src (vstring_text_holds vp bytes h)

theorem char_codes_append (a b : String) : char_codes (a ++ b) = char_codes a ++ char_codes b := by
  simp [char_codes]

theorem c_string_of_text (vp : VSTRING) (text : String) (h : vstring_text vp (char_codes text))
    (hc : c_text text) : c_string (STR vp) = text := by
  obtain ⟨_, rest, hd⟩ := h
  unfold c_string STR
  rw [hd]
  have h1 : ∀ (l : List Char), (∀ c ∈ l, c.toNat ≠ 0) →
      ((l.map Char.toNat ++ 0 :: rest).takeWhile (fun c => c ≠ 0)).map Char.ofNat = l := by
    intro l
    induction l with
    | nil => intro _; simp
    | cons c cs ih =>
      intro hl
      have hc0 : c.toNat ≠ 0 := hl c (List.mem_cons_self _ _)
      have ih2 := ih (fun x hx => hl x (List.mem_cons_of_mem _ hx))
      simpa [List.takeWhile, hc0] using ih2
  show String.mk _ = text
  rw [show char_codes text = text.toList.map Char.toNat from rfl, h1 text.toList hc]
  cases text
  rfl

theorem argv_split_token (tok : List Char) (htok : '.' ∉ tok) :
    ∀ cur : List Char, cur ++ tok ≠ [] →
      argv_split_loop ['.'] tok cur = [String.mk (cur ++ tok)] ∧
      ∀ rest, argv_split_loop ['.'] (tok ++ '.' :: rest) cur =
        String.mk (cur ++ tok) :: argv_split_loop ['.'] rest [] := by
  induction tok with
  | nil =>
    intro cur hcur
    have hc : cur ≠ [] := by simpa using hcur
    refine ⟨?_, fun rest => ?_⟩
    · simp [argv_split_loop, hc]
    · simp [argv_split_loop, hc]
  | cons c tok ih =>
    intro cur _
    have hc : c ≠ '.' := fun h => htok (h ▸ List.mem_cons_self _ _)
    have ht : '.' ∉ tok := fun h => htok (List.mem_cons_of_mem _ h)
    have h1 := ih ht (cur ++ [c]) (by simp)
    refine ⟨?_, fun rest => ?_⟩
    · simp only [argv_split_loop, List.mem_singleton, if_neg hc]
      have h2 := h1.1
      rw [List.append_assoc] at h2
      exact h2
    · simp only [List.cons_append, argv_split_loop, List.mem_singleton, if_neg hc]
      have h2 := h1.2 rest
      rw [List.append_assoc] at h2
      exact h2

theorem decimal_octet_chars (text : String) (h : decimal_octet text) :
    '.' ∉ text.toList ∧ c_text text := by
  refine ⟨fun hd => ?_, fun c hc h0 => ?_⟩
  · exact absurd (h.2 '.' hd) (by decide)
  · have hd := h.2 c hc
    have hc0 : c = Char.ofNat 0 := by rw [← h0, Char.ofNat_toNat]
    rw [hc0] at hd
    exact absurd hd (by decide)

theorem argv_split_octets (a b c d : String) (ha : decimal_octet a) (hb : decimal_octet b)
    (hc : decimal_octet c) (hd : decimal_octet d) :
    argv_split (a ++ "." ++ b ++ "." ++ c ++ "." ++ d) "." = [a, b, c, d] := by
  have h : (a ++ "." ++ b ++ "." ++ c ++ "." ++ d).toList =
      a.toList ++ '.' :: (b.toList ++ '.' :: (c.toList ++ '.' :: d.toList)) := by
    simp [String.toList]
  unfold argv_split
  rw [h, show ".".toList = ['.'] from rfl]
  rw [(argv_split_token a.toList (decimal_octet_chars a ha).1 [] (by simpa using ha.1)).2,
    (argv_split_token b.toList (decimal_octet_chars b hb).1 [] (by simpa using hb.1)).2,
    (argv_split_token c.toList (decimal_octet_chars c hc).1 [] (by simpa using hc.1)).2,
    (argv_split_token d.toList (decimal_octet_chars d hd).1 [] (by simpa using hd.1)).1]
  rfl

theorem c_text_append (a b : String) (ha : c_text a) (hb : c_text b) : c_text (a ++ b) := by
  intro c hc
  have hc2 : c ∈ a.toList ++ b.toList := by simpa [String.toList] using hc
  rcases List.mem_append.mp hc2 with h | h
  · exact ha c h
  · exact hb c h

theorem c_text_dot : c_text "." := by
  intro c hc
  have h : c = '.' := by simpa [String.toList] using hc
  rw [h]
  decide

theorem dnsblog_built_ipv4 (D : DNSBLOG_ENV) (a b c d dom : String) (query : VSTRING)
    (ha : decimal_octet a) (hb : decimal_octet b) (hc : decimal_octet c) (hd : decimal_octet d)
    (h4 : ¬ (D.HAS_IPV6 = true ∧
      D.valid_ipv6_hostaddr (a ++ "." ++ b ++ "." ++ c ++ "." ++ d) = true)) :
    ∃ q, dnsblog_built D dom (a ++ "." ++ b ++ "." ++ c ++ "." ++ d) query = some q ∧
      vstring_text q (char_codes (d ++ "." ++ c ++ "." ++ b ++ "." ++ a ++ "." ++ dom)) := by
  unfold dnsblog_built
  rw [if_neg h4, argv_split_octets a b c d ha hb hc hd]
  refine ⟨_, rfl, ?_⟩
  have h0 := vstring_reset_holds query
  have h1 := vstring_strcat_holds _ _ d h0
  have h2 := vstring_strcat_text _ _ "." h1
  have h3 := vstring_strcat_text _ _ c h2
  have h4 := vstring_strcat_text _ _ "." h3
  have h5 := vstring_strcat_text _ _ b h4
  have h6 := vstring_strcat_text _ _ "." h5
  have h7 := vstring_strcat_text _ _ a h6
  have h8 := vstring_strcat_text _ _ "." h7
  have h9 := vstring_strcat_text _ _ dom h8
  simp only [char_codes_append, List.nil_append, List.append_assoc] at h9 ⊢
  exact h9

theorem fmt_x_nibble : ∀ n, n < 16 → fmt_x n = String.mk [hex_digit n] := by
  decide

theorem hex_digit_nonzero : ∀ n, n < 16 → (hex_digit n).toNat ≠ 0 := by
  decide

theorem ipv6_loop_holds (b : List Nat) (hb : ∀ x ∈ b, x < 256) :
    ∀ (n : Nat) (vp : VSTRING) (bytes : List Nat), vstring_holds vp bytes →
      vstring_holds (dnsblog_ipv6_loop b n vp) (bytes ++ (ipv6_nibbles b n).map Char.toNat) := by
  intro n
  induction n with
  | zero =>
    intro vp bytes h
    simpa [dnsblog_ipv6_loop, ipv6_nibbles] using h
  | succ i ih =>
    intro vp bytes h
    have hx : b.getD i 0 < 256 := by
      rw [List.getD_eq_getElem?_getD]
      cases hg : b[i]? with
      | none => simp
      | some x => simpa using hb x (List.getElem?_mem hg)
    have hlo : b.getD i 0 &&& 0xf = b.getD i 0 % 16 := Nat.and_pow_two_sub_one_eq_mod _ 4
    have hhi : b.getD i 0 >>> 4 = b.getD i 0 / 16 := Nat.shiftRight_eq_div_pow _ 4
    have h1 : b.getD i 0 % 16 < 16 := Nat.mod_lt _ (by decide)
    have h2 : b.getD i 0 / 16 < 16 := by omega
    unfold dnsblog_ipv6_loop vstring_sprintf_append_x_x
    rw [hlo, hhi, fmt_x_nibble _ h1, fmt_x_nibble _ h2]
    have h3 := vstring_text_holds _ _ (vstring_strcat_holds vp bytes
      (String.mk [hex_digit (b.getD i 0 % 16)] ++ "." ++
        String.mk [hex_digit (b.getD i 0 / 16)] ++ ".") h)
    have h4 := ih _ _ h3
    have h5 : bytes ++ char_codes (String.mk [hex_digit (b.getD i 0 % 16)] ++ "." ++
          String.mk [hex_digit (b.getD i 0 / 16)] ++ ".") ++
        (ipv6_nibbles b i).map Char.toNat =
        bytes ++ (ipv6_nibbles b (i + 1)).map Char.toNat := by
      simp [char_codes, ipv6_nibbles, String.toList]
    rw [h5] at h4
    exact h4

theorem ipv6_nibbles_text (b : List Nat) (hb : ∀ x ∈ b, x < 256) :
    ∀ n, c_text (String.mk (ipv6_nibbles b n)) := by
  intro n
  induction n with
  | zero => intro c hc; simp [ipv6_nibbles, String.toList] at hc
  | succ i ih =>
    intro c hc
    have hx : b.getD i 0 < 256 := by
      rw [List.getD_eq_getElem?_getD]
      cases hg : b[i]? with
      | none => simp
      | some x => simpa using hb x (List.getElem?_mem hg)
    have h2 : b.getD i 0 / 16 < 16 := by omega
    have hc2 : c = hex_digit (b.getD i 0 % 16) ∨ c = '.' ∨ c = hex_digit (b.getD i 0 / 16) ∨
        c = '.' ∨ c ∈ ipv6_nibbles b i := by
      simpa [ipv6_nibbles, String.toList] using hc
    rcases hc2 with h | h | h | h | h
    · rw [h]; exact hex_digit_nonzero _ (Nat.mod_lt _ (by decide))
    · rw [h]; decide
    · rw [h]; exact hex_digit_nonzero _ h2
    · rw [h]; decide
    · exact ih c h

theorem ipv6_query_name_eq (b : List Nat) (dom : String) :
    ipv6_query_name b dom = String.mk (ipv6_nibbles b 16) ++ dom := rfl

theorem ipv6_nibbles_length (b : List Nat) : ∀ n, (ipv6_nibbles b n).length = 4 * n := by
  intro n
  induction n with
  | zero => rfl
  | succ i ih => simp [ipv6_nibbles, ih]; omega

theorem dnsblog_built_ipv6 (D : DNSBLOG_ENV) (addr dom : String) (res : ADDRINFO)
    (query : VSTRING) (h6 : D.HAS_IPV6 = true) (hv : D.valid_ipv6_hostaddr addr = true)
    (hc : D.hostaddr_to_sockaddr addr = some res) (hf : res.ai_family = D.PF_INET6)
    (hb : ∀ x ∈ res.sin6_addr, x < 256) :
    ∃ q, dnsblog_built D dom addr query = some q ∧
      vstring_text q (char_codes (ipv6_query_name res.sin6_addr dom)) := by
  unfold dnsblog_built
  rw [if_pos ⟨h6, hv⟩, hc]
  simp only [hf, ne_eq, not_true_eq_false, if_false]
  refine ⟨_, rfl, ?_⟩
  have h1 := ipv6_loop_holds res.sin6_addr hb 16 _ _ (vstring_reset_holds query)
  have h2 := vstring_strcat_holds _ _ dom h1
  rw [ipv6_query_name_eq, char_codes_append]
  simpa [char_codes, String.toList] using h2

theorem strcmp_loop_total : ∀ x y : List Char, strcmp_loop x y ≤ 0 ∨ strcmp_loop y x ≤ 0 := by
  intro x
  induction x with
  | nil => intro y; cases y <;> simp [strcmp_loop]
  | cons a as ih =>
    intro y
    cases y with
    | nil => simp [strcmp_loop]
    | cons b bs =>
      by_cases hab : a.toNat = b.toNat
      · simp only [strcmp_loop, hab, if_true]
        exact ih bs
      · have hba : ¬ b.toNat = a.toNat := fun h => hab h.symm
        simp only [strcmp_loop, hab, hba, if_false]
        omega

theorem strcmp_loop_trans : ∀ x y z : List Char,
    strcmp_loop x y ≤ 0 → strcmp_loop y z ≤ 0 → strcmp_loop x z ≤ 0 := by
  intro x
  induction x with
  | nil => intro y z _ _; cases z <;> simp [strcmp_loop]
  | cons a as ih =>
    intro y z h1 h2
    cases y with
    | nil => simp [strcmp_loop] at h1
    | cons b bs =>
      cases z with
      | nil => simp [strcmp_loop] at h2
      | cons c cs =>
        by_cases hab : a.toNat = b.toNat
        · by_cases hbc : b.toNat = c.toNat
          · have hac : a.toNat = c.toNat := hab.trans hbc
            simp only [strcmp_loop, hab, hbc, hac, if_true] at h1 h2 ⊢
            exact ih bs cs h1 h2
          · have hac : ¬ a.toNat = c.toNat := fun h => hbc (hab.symm.trans h)
            simp only [strcmp_loop, hbc, hac, if_false] at h2 ⊢
            omega
        · by_cases hbc : b.toNat = c.toNat
          · have hac : ¬ a.toNat = c.toNat := fun h => hab (h.trans hbc.symm)
            simp only [strcmp_loop, hab, hac, if_false] at h1 ⊢
            omega
          · simp only [strcmp_loop, hab, hbc, if_false] at h1 h2
            have hac : ¬ a.toNat = c.toNat := by omega
            simp only [strcmp_loop, hac, if_false]
            omega

theorem qsort_comp_names (base : List HTABLE_INFO) :
    (qsort base comp_names).Perm base ∧
      (qsort base comp_names).Pairwise (fun a b => strcmp a.key b.key ≤ 0) := by
  haveI : IsTotal HTABLE_INFO (fun a b => comp_names a b ≤ 0) :=
    ⟨fun a b => strcmp_loop_total a.key.toList b.key.toList⟩
  haveI : IsTrans HTABLE_INFO (fun a b => comp_names a b ≤ 0) :=
    ⟨fun a b c => strcmp_loop_trans a.key.toList b.key.toList c.key.toList⟩
  have h1 : List.Sorted (fun a b => comp_names a b ≤ 0)
      (List.insertionSort (fun a b => comp_names a b ≤ 0) base) :=
    List.sorted_insertionSort _ base
  exact ⟨List.perm_insertionSort _ base, h1⟩

theorem list_loop_visits (P : POSTCONF_ENV) (mode : Nat) :
    ∀ (list : List HTABLE_INFO) (s : POSTCONF_STATE),
      show_parameters_list_loop P mode list s =
        visit_in_order P mode (list.map (fun ht => (ht.key, some ht.value))) s := by
  intro list
  induction list with
  | nil => intro s; rfl
  | cons ht rest ih =>
    intro s
    simp only [show_parameters_list_loop, List.map_cons, visit_in_order, proc_bind_apply]
    cases print_parameter P mode ht.value s with
    | ret a s1 => exact ih s1
    | fatal msg s1 => rfl

theorem names_loop_visits (P : POSTCONF_ENV) (mode : Nat) (param_table : HTABLE) :
    ∀ (names : List String) (s : POSTCONF_STATE),
      show_parameters_names_loop P mode param_table names s =
        visit_in_order P mode (names.map (fun name => (name, htable_find param_table name))) s := by
  intro names
  induction names with
  | nil => intro s; rfl
  | cons name rest ih =>
    intro s
    simp only [show_parameters_names_loop, List.map_cons, proc_bind_apply]
    cases htable_find param_table name with
    | none =>
      simp only [visit_in_order, msg_warn]
      exact ih _
    | some value =>
      simp only [visit_in_order]
      cases print_parameter P mode value s with
      | ret a s1 => exact ih s1
      | fatal msg s1 => rfl

theorem htable_find_none (param_table : HTABLE) (name : String) :
    htable_find param_table name = none ↔ ∀ ht ∈ param_table, ht.key ≠ name := by
  unfold htable_find
  simp [List.find?_eq_none]

theorem fflush_after (m : Proc POSTCONF_STATE Unit) (s s1 : POSTCONF_STATE)
    (h : m s = .ret () s1) (hmode : s1.mode = s.mode) :
    ∃ s2, (m >>= fun _ => verbose_fflush) s = .ret () s2 ∧ s2.mode = s.mode := by
  rw [proc_bind_apply, h]
  refine ⟨_, rfl, ?_⟩
  by_cases hv : s1.msg_verbose ≠ 0
  · rw [if_pos hv]; exact hmode
  · rw [if_neg hv]; exact hmode

theorem print_parameter_completes (P : POSTCONF_ENV) (mode : Nat) (ptr : PARAM_PTR)
    (s : POSTCONF_STATE)
    (h : (mode &&& SHOW_DEFS ≠ 0 ∧ s.mode = mode) ∨
      (mode &&& SHOW_DEFS = 0 ∧ mode &&& SHOW_NONDEF ≠ 0)) :
    ∃ s1, print_parameter P mode ptr s = .ret () s1 ∧ s1.mode = s.mode := by
  unfold print_parameter
  rcases h with ⟨hd, hg⟩ | ⟨hd, hn⟩
  · cases ptr with
    | bool_table cbt => exact fflush_after _ s _ (print_bool_select mode (Or.inl hd) cbt s) rfl
    | int_table cit => exact fflush_after _ s _ (print_int_select mode (Or.inl hd) cit s) rfl
    | str_table cst => exact fflush_after _ s _ (print_str_select mode (Or.inl hd) cst s) rfl
    | str_fn_table csft =>
      obtain ⟨dv, s1, hcall, hprint⟩ := (print_str_fn_selects P mode s).1 hd hg csft
      have hf := call_defval_frame P csft.defval s
      rw [hcall] at hf
      exact fflush_after _ s _ hprint hf.2.1
    | str_fn_table_2 csft =>
      obtain ⟨dv, s1, hcall, hprint⟩ := (print_str_fn_2_selects P mode s).1 hd hg csft
      have hf := call_defval_frame P csft.defval s
      rw [hcall] at hf
      exact fflush_after _ s _ hprint hf.2.1
  · cases ptr with
    | bool_table cbt => exact fflush_after _ s _ (print_bool_nondef mode hn hd cbt s) rfl
    | int_table cit => exact fflush_after _ s _ (print_int_nondef mode hn hd cit s) rfl
    | str_table cst => exact fflush_after _ s _ (print_str_nondef mode hn hd cst s) rfl
    | str_fn_table csft =>
      exact fflush_after _ s _ (print_str_fn_nondef P mode hn hd csft s) rfl
    | str_fn_table_2 csft =>
      exact fflush_after _ s _ (print_str_fn_2_nondef P mode hn hd csft s) rfl

theorem visit_in_order_completes (P : POSTCONF_ENV) (mode : Nat) :
    ∀ (items : List (String × Option PARAM_PTR)) (s : POSTCONF_STATE),
      ((mode &&& SHOW_DEFS ≠ 0 ∧ s.mode = mode) ∨
        (mode &&& SHOW_DEFS = 0 ∧ mode &&& SHOW_NONDEF ≠ 0)) →
      ∃ s1, visit_in_order P mode items s = .ret () s1 := by
  intro items
  induction items with
  | nil => intro s _; exact ⟨s, rfl⟩
  | cons item rest ih =>
    intro s h
    obtain ⟨name, found⟩ := item
    cases found with
    | none =>
      simp only [visit_in_order]
      exact ih _ h
    | some ptr =>
      obtain ⟨s1, h1, hm⟩ := print_parameter_completes P mode ptr s h
      simp only [visit_in_order, h1]
      refine ih s1 ?_
      rcases h with ⟨hd, hg⟩ | h
      · exact Or.inl ⟨hd, hm.trans hg⟩
      · exact Or.inr h

end Lemmas2

/-! ## The properties -/

section Claims

variable {σ : Type}

/-- C1 (code defect): for a one-node certificate chain and a one-node public
key chain whose DER encoder reports length 5 and then stores exactly 5 bytes,
the data item handed to the print routine has length 0 and holds no byte, not
the 5 DER bytes: LEN(buf) is still 0 after VSTRING_RESET, VSTRING_SPACE and the
store through the raw pointer. -/
theorem der_data_item_is_empty :
    (tls_proxy_client_certs_print (plain_env 4 0 : Env Unit).logged (logged ok_print) 7 0
        [⟨5, [48, 3, 1, 2, 3]⟩] ((), [])).calls
      = [⟨7, 4, [Attr.int TLS_ATTR_COUNT 1], .returned 0⟩,
         ⟨7, 4, [Attr.data TLS_ATTR_CERT 0 []], .returned 0⟩] ∧
    (tls_proxy_client_pkeys_print (plain_env 4 0 : Env Unit).logged (logged ok_print) 7 0
        [⟨5, [48, 3, 1, 2, 3]⟩] ((), [])).calls
      = [⟨7, 4, [Attr.int TLS_ATTR_COUNT 1], .returned 0⟩,
         ⟨7, 4, [Attr.data TLS_ATTR_PKEY 0 []], .returned 0⟩] ∧
    LEN (i2d_X509 ⟨5, [48, 3, 1, 2, 3]⟩
      (VSTRING_SPACE (VSTRING_RESET (vstring_alloc 100)) 5)).1 = 0 := by
  decide

/-- C2 (code defect): two start records that differ in the DER bytes of the
certificate of their DANE record put the same items on the wire, so no decoder
can return the certificate bytes. -/
theorem start_print_loses_der_bytes :
    start_with_cert ⟨5, [48, 3, 1, 2, 3]⟩ ≠ start_with_cert ⟨5, [48, 3, 9, 9, 9]⟩ ∧
    tls_proxy_client_start_print (plain_env 4 0) (wire_print 4 0) 7 0
        (start_with_cert ⟨5, [48, 3, 1, 2, 3]⟩) []
      = tls_proxy_client_start_print (plain_env 4 0) (wire_print 4 0) 7 0
        (start_with_cert ⟨5, [48, 3, 9, 9, 9]⟩) [] ∧
    (tls_proxy_client_start_print (plain_env 4 0) (wire_print 4 0) 7 0
        (start_with_cert ⟨5, [48, 3, 1, 2, 3]⟩) []).ending = .returned 0 ∧
    Attr.data TLS_ATTR_CERT 0 [] ∈
      (tls_proxy_client_start_print (plain_env 4 0) (wire_print 4 0) 7 0
        (start_with_cert ⟨5, [48, 3, 1, 2, 3]⟩) []).state := by
  decide

/-- C3: the decoder `init_scan`, reading the items tls_proxy_client_init_print
submits in order, returns the record with every absent string replaced by the
empty string, for every record, print routine, stream, flags and verbosity;
hence two records that submit the same items agree in verifydepth and in the
twelve strings after that replacement. -/
theorem init_print_round_trip :
    (∀ (σ : Type) (E : Env σ) (p : ATTR_PRINT_MASTER_FN σ) (fp : VSTREAM) (flags : Nat)
        (props : TLS_CLIENT_INIT_PROPS) (w : σ),
        (tls_proxy_client_init_print E.logged (logged p) fp flags props (w, [])).submitted.length
          = 13 ∧
        init_scan
          (tls_proxy_client_init_print E.logged (logged p) fp flags props (w, [])).submitted
          = some (init_normalize props)) ∧
    (∀ (σ : Type) (E E2 : Env σ) (p p2 : ATTR_PRINT_MASTER_FN σ) (fp fp2 : VSTREAM)
        (flags flags2 : Nat) (props props2 : TLS_CLIENT_INIT_PROPS) (w w2 : σ),
        (tls_proxy_client_init_print E.logged (logged p) fp flags props (w, [])).submitted
          = (tls_proxy_client_init_print E2.logged (logged p2) fp2 flags2 props2
              (w2, [])).submitted →
        init_normalize props = init_normalize props2) := by
  have key : ∀ (σ : Type) (E : Env σ) (p : ATTR_PRINT_MASTER_FN σ) (fp : VSTREAM) (flags : Nat)
      (props : TLS_CLIENT_INIT_PROPS) (w : σ),
      (tls_proxy_client_init_print E.logged (logged p) fp flags props (w, [])).submitted.length
        = 13 ∧
      init_scan
        (tls_proxy_client_init_print E.logged (logged p) fp flags props (w, [])).submitted
        = some (init_normalize props) := by
    intro σ E p fp flags props w
    obtain ⟨cs, h1, h2⟩ := init_print_follows E p fp flags props w []
    have h3 := follows_single _ _ _ _ _ h2
    simp only [List.nil_append] at h1
    simp only [Outcome.submitted, h1, h3, List.map_cons, List.map_nil, List.flatten_cons,
      List.flatten_nil, List.append_nil, absent_to_empty_eq]
    exact ⟨rfl, rfl⟩
  refine ⟨key, ?_⟩
  intro σ E E2 p p2 fp fp2 flags flags2 props props2 w w2 h
  have h1 := (key σ E p fp flags props w).2
  have h2 := (key σ E2 p2 fp2 flags2 props2 w2).2
  rw [h] at h1
  rw [h1] at h2
  exact Option.some.inj h2

/-- C4: called with a null DANE record, tls_proxy_client_dane_print makes
exactly one print routine call, on the caller's stream, whose only item is the
integer presence flag with value 0, and ends the way that call ended (it
returns the status the call returned); when the verbosity flag is off its
whole effect on the process is the effect of that one call. -/
theorem dane_print_absent (E : Env σ) (p : ATTR_PRINT_MASTER_FN σ) (fp : VSTREAM)
    (flags : Nat) (w : σ) :
    (tls_proxy_client_dane_print E.logged (logged p) fp flags none (w, [])).calls
      = [⟨fp, flags ||| E.ATTR_FLAG_MORE, [Attr.int TLS_ATTR_DANE 0],
          (p fp (flags ||| E.ATTR_FLAG_MORE) [Attr.int TLS_ATTR_DANE 0] w).ending⟩] ∧
    (tls_proxy_client_dane_print E.logged (logged p) fp flags none (w, [])).ending
      = (p fp (flags ||| E.ATTR_FLAG_MORE) [Attr.int TLS_ATTR_DANE 0] w).ending ∧
    (E.msg_verbose = 0 →
      tls_proxy_client_dane_print E p fp flags none w
        = p fp (flags ||| E.ATTR_FLAG_MORE) [Attr.int TLS_ATTR_DANE 0] w) := by
  have hfl : E.logged.ATTR_FLAG_MORE = E.ATTR_FLAG_MORE := rfl
  have hz : c_bool (none : Option TLS_DANE).isSome = 0 := rfl
  refine ⟨?_, ?_, ?_⟩
  · unfold tls_proxy_client_dane_print
    rw [proc_bind_apply]
    simp only [hfl, SEND_ATTR_INT, hz, logged]
    cases hp : p fp (flags ||| E.ATTR_FLAG_MORE) [Attr.int TLS_ATTR_DANE 0] w <;>
      simp [proc_bind_apply, proc_pure_apply, Env.verbose_info_apply, Env.told_logged,
        Outcome.calls, Outcome.state, Outcome.ending]
  · unfold tls_proxy_client_dane_print
    rw [proc_bind_apply]
    simp only [hfl, SEND_ATTR_INT, hz, logged]
    cases hp : p fp (flags ||| E.ATTR_FLAG_MORE) [Attr.int TLS_ATTR_DANE 0] w <;>
      simp [proc_bind_apply, proc_pure_apply, Env.verbose_info_apply, Env.told_logged,
        Outcome.ending]
  · intro hv
    unfold tls_proxy_client_dane_print
    rw [proc_bind_apply]
    simp only [SEND_ATTR_INT, hz]
    cases hp : p fp (flags ||| E.ATTR_FLAG_MORE) [Attr.int TLS_ATTR_DANE 0] w <;>
      simp [proc_bind_apply, proc_pure_apply, Env.verbose_info_apply, Env.told, hv]

/-- C5: called with a DANE record, when every print routine call it makes
returns 0, tls_proxy_client_dane_print makes exactly two calls: the first
carries the presence flag with value 1 and nothing else, the second carries, in
this order and with nothing else, the trust-anchor TLSA list, the end-entity
TLSA list, the certificate chain, the public key chain, the base domain string
(empty when absent), the integer flags and the 64-bit expiry; it returns 0. -/
theorem dane_print_present (E : Env σ) (p : ATTR_PRINT_MASTER_FN σ) (fp : VSTREAM)
    (flags : Nat) (dane : TLS_DANE) (w : σ)
    (hok : ∀ c ∈ (tls_proxy_client_dane_print E.logged (logged p) fp flags (some dane)
      (w, [])).calls, c.ending = .returned 0) :
    (tls_proxy_client_dane_print E.logged (logged p) fp flags (some dane) (w, [])).calls.map
        Call.attrs
      = [[Attr.int TLS_ATTR_DANE 1],
         [Attr.func (.tls_proxy_client_tlsa_print dane.ta),
          Attr.func (.tls_proxy_client_tlsa_print dane.ee),
          Attr.func (.tls_proxy_client_certs_print dane.certs),
          Attr.func (.tls_proxy_client_pkeys_print dane.pkeys),
          Attr.str TLS_ATTR_DOMAIN (some (dane.base_domain.getD "")),
          Attr.int TLS_ATTR_FLAGS dane.flags,
          Attr.long TLS_ATTR_EXP dane.expires]] ∧
    (tls_proxy_client_dane_print E.logged (logged p) fp flags (some dane) (w, [])).ending
      = .returned 0 := by
  obtain ⟨cs, h1, h2⟩ := dane_print_follows E p fp flags (some dane) w []
  simp only [List.nil_append] at h1
  rw [h1] at hok ⊢
  have h3 := follows_all_ok _ _ _ _ _ _ h2 hok
  rw [h3.1, h3.2]
  simp [dane_plan, c_bool, string_or_empty_eq]

/-- A run of C5 on `dane_example` with a print routine that always succeeds. -/
theorem dane_print_present_witness :
    (tls_proxy_client_dane_print (plain_env 4 0 : Env Unit).logged (logged ok_print) 7 0
        (some dane_example) ((), [])).calls.map Call.attrs
      = [[Attr.int TLS_ATTR_DANE 1],
         [Attr.func (.tls_proxy_client_tlsa_print [⟨some "sha256", ["A"], []⟩]),
          Attr.func (.tls_proxy_client_tlsa_print []),
          Attr.func (.tls_proxy_client_certs_print [⟨5, [48, 3, 1, 2, 3]⟩]),
          Attr.func (.tls_proxy_client_pkeys_print [⟨4, [48, 2, 5, 0]⟩]),
          Attr.str TLS_ATTR_DOMAIN (some ""),
          Attr.int TLS_ATTR_FLAGS 0,
          Attr.long TLS_ATTR_EXP 1700000000]] ∧
    (tls_proxy_client_dane_print (plain_env 4 0 : Env Unit).logged (logged ok_print) 7 0
        (some dane_example) ((), [])).ending = .returned 0 :=
  dane_print_present (plain_env 4 0) ok_print 7 0 dane_example () (by decide)

/-- C10: for every record, print routine, stream, flags and verbosity,
tls_proxy_client_init_print makes exactly one print routine call; the call
carries thirteen items in the order log_param, log_level, verifydepth,
cache_type, cert_file, key_file, dcert_file, dkey_file, eccert_file,
eckey_file, CAfile, CApath, mdalg, the third an integer and the others strings,
each the record's field with the empty string for an absent string; and the
encoder ends the way that call ended, returning the status it returned. -/
theorem init_print_wire_order (E : Env σ) (p : ATTR_PRINT_MASTER_FN σ) (fp : VSTREAM)
    (flags : Nat) (props : TLS_CLIENT_INIT_PROPS) (w : σ) :
    (tls_proxy_client_init_print E.logged (logged p) fp flags props (w, [])).calls
      = [⟨fp, flags ||| E.ATTR_FLAG_MORE,
          [Attr.str TLS_ATTR_LOG_PARAM (some (props.log_param.getD "")),
           Attr.str TLS_ATTR_LOG_LEVEL (some (props.log_level.getD "")),
           Attr.int TLS_ATTR_VERIFYDEPTH props.verifydepth,
           Attr.str TLS_ATTR_CACHE_TYPE (some (props.cache_type.getD "")),
           Attr.str TLS_ATTR_CERT_FILE (some (props.cert_file.getD "")),
           Attr.str TLS_ATTR_KEY_FILE (some (props.key_file.getD "")),
           Attr.str TLS_ATTR_DCERT_FILE (some (props.dcert_file.getD "")),
           Attr.str TLS_ATTR_DKEY_FILE (some (props.dkey_file.getD "")),
           Attr.str TLS_ATTR_ECCERT_FILE (some (props.eccert_file.getD "")),
           Attr.str TLS_ATTR_ECKEY_FILE (some (props.eckey_file.getD "")),
           Attr.str TLS_ATTR_CAFILE (some (props.CAfile.getD "")),
           Attr.str TLS_ATTR_CAPATH (some (props.CApath.getD "")),
           Attr.str TLS_ATTR_MDALG (some (props.mdalg.getD ""))],
          (tls_proxy_client_init_print E.logged (logged p) fp flags props (w, [])).ending⟩] ∧
    (tls_proxy_client_init_print E.logged (logged p) fp flags props (w, [])).ending
      = (p fp (flags ||| E.ATTR_FLAG_MORE)
          [Attr.str TLS_ATTR_LOG_PARAM (some (props.log_param.getD "")),
           Attr.str TLS_ATTR_LOG_LEVEL (some (props.log_level.getD "")),
           Attr.int TLS_ATTR_VERIFYDEPTH props.verifydepth,
           Attr.str TLS_ATTR_CACHE_TYPE (some (props.cache_type.getD "")),
           Attr.str TLS_ATTR_CERT_FILE (some (props.cert_file.getD "")),
           Attr.str TLS_ATTR_KEY_FILE (some (props.key_file.getD "")),
           Attr.str TLS_ATTR_DCERT_FILE (some (props.dcert_file.getD "")),
           Attr.str TLS_ATTR_DKEY_FILE (some (props.dkey_file.getD "")),
           Attr.str TLS_ATTR_ECCERT_FILE (some (props.eccert_file.getD "")),
           Attr.str TLS_ATTR_ECKEY_FILE (some (props.eckey_file.getD "")),
           Attr.str TLS_ATTR_CAFILE (some (props.CAfile.getD "")),
           Attr.str TLS_ATTR_CAPATH (some (props.CApath.getD "")),
           Attr.str TLS_ATTR_MDALG (some (props.mdalg.getD ""))]
          (E.told "begin tls_proxy_client_init_print" w)).ending := by
  refine ⟨?_, ?_⟩
  · obtain ⟨cs, h1, h2⟩ := init_print_follows E p fp flags props w []
    have h3 := follows_single _ _ _ _ _ h2
    simp only [List.nil_append] at h1
    rw [h1, h3]
    simp only [string_or_empty_eq]
  · unfold tls_proxy_client_init_print
    simp only [Env.verbose_info_bind, Env.told_logged, string_or_empty_eq, SEND_ATTR_STR,
      SEND_ATTR_INT]
    rw [finish_ending E _ (fun ret => "tls_proxy_client_init_print ret=" ++ toString ret)]
    have hfl : E.logged.ATTR_FLAG_MORE = E.ATTR_FLAG_MORE := rfl
    simp only [logged, hfl]
    split <;> rename_i h <;> simp [h, Outcome.ending]

/-- C6 as stated fails: on a one-node certificate chain whose DER encoder
reports 5 bytes and stores 3, every print routine call succeeds, yet the
encoder submits the count 1 and no element and ends in a panic instead of
returning 0. -/
theorem certs_print_mismatch_no_element :
    (∀ c ∈ (tls_proxy_client_certs_print (plain_env 4 0 : Env Unit).logged (logged ok_print)
        7 0 [⟨5, [1, 2, 3]⟩] ((), [])).calls, c.ending = .returned 0) ∧
    (tls_proxy_client_certs_print (plain_env 4 0 : Env Unit).logged (logged ok_print)
        7 0 [⟨5, [1, 2, 3]⟩] ((), [])).calls.map Call.attrs
      = [[Attr.int TLS_ATTR_COUNT 1]] ∧
    (tls_proxy_client_certs_print (plain_env 4 0 : Env Unit).logged (logged ok_print)
        7 0 [⟨5, [1, 2, 3]⟩] ((), [])).ending ≠ .returned 0 := by
  decide

/-- C6, amended: when every print routine call returns 0, each chain encoder
first submits one integer count item equal to the number of nodes and then one
call per node in chain order, and returns 0: for the certificate and public
key encoders provided every node's DER encoder stores as many bytes as it
reported, each element call carrying one data item; for the TLSA encoder for
every chain, each element call carrying the node's digest name and its two
name lists. An empty chain gives the single count 0. -/
theorem chain_print_count_then_elements :
    (∀ (σ : Type) (E : Env σ) (p : ATTR_PRINT_MASTER_FN σ) (fp : VSTREAM) (flags : Nat)
        (chain : TLS_CERTS) (w : σ),
        (∀ cert ∈ chain, cert.i2d_out.length = cert.i2d_len) →
        (∀ c ∈ (tls_proxy_client_certs_print E.logged (logged p) fp flags chain (w, [])).calls,
          c.ending = .returned 0) →
        (∃ items : List Attr, items.length = chain.length ∧
          (∀ a ∈ items, ∃ len val, a = Attr.data TLS_ATTR_CERT len val) ∧
          (tls_proxy_client_certs_print E.logged (logged p) fp flags chain (w, [])).calls.map
              Call.attrs
            = [Attr.int TLS_ATTR_COUNT chain.length] :: items.map (fun a => [a])) ∧
        (tls_proxy_client_certs_print E.logged (logged p) fp flags chain (w, [])).ending
          = .returned 0) ∧
    (∀ (σ : Type) (E : Env σ) (p : ATTR_PRINT_MASTER_FN σ) (fp : VSTREAM) (flags : Nat)
        (chain : TLS_PKEYS) (w : σ),
        (∀ pkey ∈ chain, pkey.i2d_out.length = pkey.i2d_len) →
        (∀ c ∈ (tls_proxy_client_pkeys_print E.logged (logged p) fp flags chain (w, [])).calls,
          c.ending = .returned 0) →
        (∃ items : List Attr, items.length = chain.length ∧
          (∀ a ∈ items, ∃ len val, a = Attr.data TLS_ATTR_PKEY len val) ∧
          (tls_proxy_client_pkeys_print E.logged (logged p) fp flags chain (w, [])).calls.map
              Call.attrs
            = [Attr.int TLS_ATTR_COUNT chain.length] :: items.map (fun a => [a])) ∧
        (tls_proxy_client_pkeys_print E.logged (logged p) fp flags chain (w, [])).ending
          = .returned 0) ∧
    (∀ (σ : Type) (E : Env σ) (p : ATTR_PRINT_MASTER_FN σ) (fp : VSTREAM) (flags : Nat)
        (chain : TLS_TLSA) (w : σ),
        (∀ c ∈ (tls_proxy_client_tlsa_print E.logged (logged p) fp flags chain (w, [])).calls,
          c.ending = .returned 0) →
        (tls_proxy_client_tlsa_print E.logged (logged p) fp flags chain (w, [])).calls.map
            Call.attrs
          = [Attr.int TLS_ATTR_COUNT chain.length] ::
              chain.map (fun tp => [Attr.str TLS_ATTR_MDALG tp.mdalg,
                Attr.func (.argv_attr_print tp.certs),
                Attr.func (.argv_attr_print tp.pkeys)]) ∧
        (tls_proxy_client_tlsa_print E.logged (logged p) fp flags chain (w, [])).ending
          = .returned 0) := by
  refine ⟨?_, ?_, ?_⟩
  · intro σ E p fp flags chain w hcons hok
    have h := follows_all_ok _ _ _ _ _ _ (certs_print_follows E p fp flags chain w) hok
    rw [(cert_plan_ok chain hcons).1, (cert_plan_ok chain hcons).2] at h
    obtain ⟨items, hlen, hdata, hmap⟩ := data_items_exist TLS_ATTR_CERT chain
    exact ⟨⟨items, hlen, hdata, by rw [h.1, hmap]⟩, h.2⟩
  · intro σ E p fp flags chain w hcons hok
    have h := follows_all_ok _ _ _ _ _ _ (pkeys_print_follows E p fp flags chain w) hok
    rw [(pkey_plan_ok chain hcons).1, (pkey_plan_ok chain hcons).2] at h
    obtain ⟨items, hlen, hdata, hmap⟩ := data_items_exist TLS_ATTR_PKEY chain
    exact ⟨⟨items, hlen, hdata, by rw [h.1, hmap]⟩, h.2⟩
  · intro σ E p fp flags chain w hok
    exact follows_all_ok _ _ _ _ _ _ (tlsa_print_follows E p fp flags chain w) hok

/-- A run of C6 on a two-node certificate chain with consistent DER lengths and
a print routine that always succeeds. -/
theorem chain_print_count_then_elements_witness :
    (∃ items : List Attr, items.length = 2 ∧
      (∀ a ∈ items, ∃ len val, a = Attr.data TLS_ATTR_CERT len val) ∧
      (tls_proxy_client_certs_print (plain_env 4 0 : Env Unit).logged (logged ok_print) 7 0
          [⟨5, [48, 3, 1, 2, 3]⟩, ⟨2, [5, 0]⟩] ((), [])).calls.map Call.attrs
        = [Attr.int TLS_ATTR_COUNT 2] :: items.map (fun a => [a])) ∧
    (tls_proxy_client_certs_print (plain_env 4 0 : Env Unit).logged (logged ok_print) 7 0
        [⟨5, [48, 3, 1, 2, 3]⟩, ⟨2, [5, 0]⟩] ((), [])).ending = .returned 0 :=
  chain_print_count_then_elements.1 Unit (plain_env 4 0) ok_print 7 0
    [⟨5, [48, 3, 1, 2, 3]⟩, ⟨2, [5, 0]⟩] () (by decide) (by decide)

/-- C7 as stated fails: on a one-node certificate chain whose DER encoder
reports 5 bytes and stores 3 (the first mismatch is node 0), with a print
routine that fails the count write with status 1, the encoder does not take
the panic path: it returns the status code 1. -/
theorem certs_print_mismatch_after_failed_write :
    (tls_proxy_client_certs_print (plain_env 4 0 : Env Unit).logged (logged (fail_print 1))
        7 0 [⟨5, [1, 2, 3]⟩] ((), [])).ending = .returned 1 ∧
    (tls_proxy_client_certs_print (plain_env 4 0 : Env Unit).logged (logged (fail_print 1))
        7 0 [⟨5, [1, 2, 3]⟩] ((), [])).calls
      = [⟨7, 4, [Attr.int TLS_ATTR_COUNT 1], .returned 1⟩] := by
  decide

/-- C7, amended: in the certificate and public key encoders, when node k is
the first node whose DER encoder stores a different number of bytes than it
reported and every print routine call made returns 0, the encoder ends in the
panic of that encoder and returns no status; the calls made are the count and
one data item for each of the k nodes before it, and none for node k or a
later node. Conversely, when every node's stored length equals its reported
length and every print routine call returns, the encoder returns a status. -/
theorem der_mismatch_is_fatal :
    (∀ (σ : Type) (E : Env σ) (p : ATTR_PRINT_MASTER_FN σ) (fp : VSTREAM) (flags : Nat)
        (pre : TLS_CERTS) (bad : X509) (post : TLS_CERTS) (w : σ),
        (∀ cert ∈ pre, cert.i2d_out.length = cert.i2d_len) →
        bad.i2d_out.length ≠ bad.i2d_len →
        (∀ c ∈ (tls_proxy_client_certs_print E.logged (logged p) fp flags
            (pre ++ bad :: post) (w, [])).calls, c.ending = .returned 0) →
        (tls_proxy_client_certs_print E.logged (logged p) fp flags
            (pre ++ bad :: post) (w, [])).ending
          = .terminated "i2d_X509 failed to encode certificate" ∧
        ∃ items : List Attr, items.length = pre.length ∧
          (∀ a ∈ items, ∃ len val, a = Attr.data TLS_ATTR_CERT len val) ∧
          (tls_proxy_client_certs_print E.logged (logged p) fp flags
              (pre ++ bad :: post) (w, [])).calls.map Call.attrs
            = [Attr.int TLS_ATTR_COUNT (pre ++ bad :: post).length] ::
                items.map (fun a => [a])) ∧
    (∀ (σ : Type) (E : Env σ) (p : ATTR_PRINT_MASTER_FN σ) (fp : VSTREAM) (flags : Nat)
        (pre : TLS_PKEYS) (bad : EVP_PKEY) (post : TLS_PKEYS) (w : σ),
        (∀ pkey ∈ pre, pkey.i2d_out.length = pkey.i2d_len) →
        bad.i2d_out.length ≠ bad.i2d_len →
        (∀ c ∈ (tls_proxy_client_pkeys_print E.logged (logged p) fp flags
            (pre ++ bad :: post) (w, [])).calls, c.ending = .returned 0) →
        (tls_proxy_client_pkeys_print E.logged (logged p) fp flags
            (pre ++ bad :: post) (w, [])).ending
          = .terminated "i2d_PUBKEY failed to encode public key" ∧
        ∃ items : List Attr, items.length = pre.length ∧
          (∀ a ∈ items, ∃ len val, a = Attr.data TLS_ATTR_PKEY len val) ∧
          (tls_proxy_client_pkeys_print E.logged (logged p) fp flags
              (pre ++ bad :: post) (w, [])).calls.map Call.attrs
            = [Attr.int TLS_ATTR_COUNT (pre ++ bad :: post).length] ::
                items.map (fun a => [a])) ∧
    (∀ (σ : Type) (E : Env σ) (p : ATTR_PRINT_MASTER_FN σ) (fp : VSTREAM) (flags : Nat)
        (chain : TLS_CERTS) (w : σ),
        (∀ cert ∈ chain, cert.i2d_out.length = cert.i2d_len) →
        (∀ c ∈ (tls_proxy_client_certs_print E.logged (logged p) fp flags chain (w, [])).calls,
          ∃ r, c.ending = .returned r) →
        ∃ r, (tls_proxy_client_certs_print E.logged (logged p) fp flags chain (w, [])).ending
          = .returned r) ∧
    (∀ (σ : Type) (E : Env σ) (p : ATTR_PRINT_MASTER_FN σ) (fp : VSTREAM) (flags : Nat)
        (chain : TLS_PKEYS) (w : σ),
        (∀ pkey ∈ chain, pkey.i2d_out.length = pkey.i2d_len) →
        (∀ c ∈ (tls_proxy_client_pkeys_print E.logged (logged p) fp flags chain (w, [])).calls,
          ∃ r, c.ending = .returned r) →
        ∃ r, (tls_proxy_client_pkeys_print E.logged (logged p) fp flags chain (w, [])).ending
          = .returned r) := by
  refine ⟨?_, ?_, ?_, ?_⟩
  · intro σ E p fp flags pre bad post w hpre hbad hok
    have h := follows_all_ok _ _ _ _ _ _
      (certs_print_follows E p fp flags (pre ++ bad :: post) w) hok
    rw [(cert_plan_bad pre bad post hpre hbad).1, (cert_plan_bad pre bad post hpre hbad).2] at h
    obtain ⟨items, hlen, hdata, hmap⟩ := data_items_exist TLS_ATTR_CERT pre
    exact ⟨h.2, items, hlen, hdata, by rw [h.1, hmap]⟩
  · intro σ E p fp flags pre bad post w hpre hbad hok
    have h := follows_all_ok _ _ _ _ _ _
      (pkeys_print_follows E p fp flags (pre ++ bad :: post) w) hok
    rw [(pkey_plan_bad pre bad post hpre hbad).1, (pkey_plan_bad pre bad post hpre hbad).2] at h
    obtain ⟨items, hlen, hdata, hmap⟩ := data_items_exist TLS_ATTR_PKEY pre
    exact ⟨h.2, items, hlen, hdata, by rw [h.1, hmap]⟩
  · intro σ E p fp flags chain w hcons hret
    have h := certs_print_follows E p fp flags chain w
    rw [(cert_plan_ok chain hcons).2] at h
    exact follows_returns _ _ _ _ _ _ h hret
  · intro σ E p fp flags chain w hcons hret
    have h := pkeys_print_follows E p fp flags chain w
    rw [(pkey_plan_ok chain hcons).2] at h
    exact follows_returns _ _ _ _ _ _ h hret

/-- A run of C7 on a certificate chain whose second node is the first
mismatch, with a print routine that always succeeds. -/
theorem der_mismatch_is_fatal_witness :
    (tls_proxy_client_certs_print (plain_env 4 0 : Env Unit).logged (logged ok_print) 7 0
        ([⟨5, [48, 3, 1, 2, 3]⟩] ++ ⟨5, [1, 2, 3]⟩ :: [⟨2, [5, 0]⟩]) ((), [])).ending
      = .terminated "i2d_X509 failed to encode certificate" ∧
    ∃ items : List Attr, items.length = [(⟨5, [48, 3, 1, 2, 3]⟩ : X509)].length ∧
      (∀ a ∈ items, ∃ len val, a = Attr.data TLS_ATTR_CERT len val) ∧
      (tls_proxy_client_certs_print (plain_env 4 0 : Env Unit).logged (logged ok_print) 7 0
          ([⟨5, [48, 3, 1, 2, 3]⟩] ++ ⟨5, [1, 2, 3]⟩ :: [⟨2, [5, 0]⟩]) ((), [])).calls.map
          Call.attrs
        = [Attr.int TLS_ATTR_COUNT
            (([⟨5, [48, 3, 1, 2, 3]⟩] ++ ⟨5, [1, 2, 3]⟩ :: [⟨2, [5, 0]⟩] : TLS_CERTS)).length] ::
            items.map (fun a => [a]) :=
  der_mismatch_is_fatal.1 Unit (plain_env 4 0) ok_print 7 0
    [⟨5, [48, 3, 1, 2, 3]⟩] ⟨5, [1, 2, 3]⟩ [⟨2, [5, 0]⟩] () (by decide) (by decide) (by decide)

/-- C8 as stated fails: on a one-node public key chain whose DER encoder
reports 2 bytes and stores 1, every print routine call the encoder makes
returns 0, yet the encoder does not return 0: it ends in a panic. -/
theorem pkeys_print_all_calls_ok_no_return :
    (∀ c ∈ (tls_proxy_client_pkeys_print (plain_env 4 0 : Env Unit).logged (logged ok_print)
        7 0 [⟨2, [7]⟩] ((), [])).calls, c.ending = .returned 0) ∧
    (tls_proxy_client_pkeys_print (plain_env 4 0 : Env Unit).logged (logged ok_print)
        7 0 [⟨2, [7]⟩] ((), [])).ending ≠ .returned 0 ∧
    (tls_proxy_client_pkeys_print (plain_env 4 0 : Env Unit).logged (logged ok_print)
        7 0 [⟨2, [7]⟩] ((), [])).ending = .terminated "i2d_PUBKEY failed to encode public key" := by
  decide

/-- C8, amended: in each of the four encoders, a print routine call that
returns a nonzero status r is the last call the encoder makes and the encoder
returns exactly r; an encoder that returns 0 made only calls that returned 0;
and when every call it made returned 0, the TLSA and DANE encoders return 0,
and the certificate and public key encoders return 0 provided every node's
DER encoder stores as many bytes as it reported. Every encoder makes at least
one call. -/
theorem first_failure_wins :
    (∀ (σ : Type) (E : Env σ) (p : ATTR_PRINT_MASTER_FN σ) (fp : VSTREAM) (flags : Nat)
        (chain : TLS_CERTS) (w : σ),
        FirstFailureWins
          (tls_proxy_client_certs_print E.logged (logged p) fp flags chain (w, [])).calls
          (tls_proxy_client_certs_print E.logged (logged p) fp flags chain (w, [])).ending ∧
        (tls_proxy_client_certs_print E.logged (logged p) fp flags chain (w, [])).calls ≠ [] ∧
        ((∀ cert ∈ chain, cert.i2d_out.length = cert.i2d_len) →
          (∀ c ∈ (tls_proxy_client_certs_print E.logged (logged p) fp flags chain
              (w, [])).calls, c.ending = .returned 0) →
          (tls_proxy_client_certs_print E.logged (logged p) fp flags chain (w, [])).ending
            = .returned 0)) ∧
    (∀ (σ : Type) (E : Env σ) (p : ATTR_PRINT_MASTER_FN σ) (fp : VSTREAM) (flags : Nat)
        (chain : TLS_PKEYS) (w : σ),
        FirstFailureWins
          (tls_proxy_client_pkeys_print E.logged (logged p) fp flags chain (w, [])).calls
          (tls_proxy_client_pkeys_print E.logged (logged p) fp flags chain (w, [])).ending ∧
        (tls_proxy_client_pkeys_print E.logged (logged p) fp flags chain (w, [])).calls ≠ [] ∧
        ((∀ pkey ∈ chain, pkey.i2d_out.length = pkey.i2d_len) →
          (∀ c ∈ (tls_proxy_client_pkeys_print E.logged (logged p) fp flags chain
              (w, [])).calls, c.ending = .returned 0) →
          (tls_proxy_client_pkeys_print E.logged (logged p) fp flags chain (w, [])).ending
            = .returned 0)) ∧
    (∀ (σ : Type) (E : Env σ) (p : ATTR_PRINT_MASTER_FN σ) (fp : VSTREAM) (flags : Nat)
        (chain : TLS_TLSA) (w : σ),
        FirstFailureWins
          (tls_proxy_client_tlsa_print E.logged (logged p) fp flags chain (w, [])).calls
          (tls_proxy_client_tlsa_print E.logged (logged p) fp flags chain (w, [])).ending ∧
        (tls_proxy_client_tlsa_print E.logged (logged p) fp flags chain (w, [])).calls ≠ [] ∧
        ((tls_proxy_client_tlsa_print E.logged (logged p) fp flags chain (w, [])).ending
            = .returned 0 ↔
          ∀ c ∈ (tls_proxy_client_tlsa_print E.logged (logged p) fp flags chain
              (w, [])).calls, c.ending = .returned 0)) ∧
    (∀ (σ : Type) (E : Env σ) (p : ATTR_PRINT_MASTER_FN σ) (fp : VSTREAM) (flags : Nat)
        (ptr : Option TLS_DANE) (w : σ),
        FirstFailureWins
          (tls_proxy_client_dane_print E.logged (logged p) fp flags ptr (w, [])).calls
          (tls_proxy_client_dane_print E.logged (logged p) fp flags ptr (w, [])).ending ∧
        (tls_proxy_client_dane_print E.logged (logged p) fp flags ptr (w, [])).calls ≠ [] ∧
        ((tls_proxy_client_dane_print E.logged (logged p) fp flags ptr (w, [])).ending
            = .returned 0 ↔
          ∀ c ∈ (tls_proxy_client_dane_print E.logged (logged p) fp flags ptr
              (w, [])).calls, c.ending = .returned 0)) := by
  refine ⟨?_, ?_, ?_, ?_⟩
  · intro σ E p fp flags chain w
    have h := certs_print_follows E p fp flags chain w
    refine ⟨follows_first_failure_wins _ _ _ _ _ _ h, follows_ne_nil _ _ _ _ _ _ _ h, ?_⟩
    intro hcons hok
    rw [← (cert_plan_ok chain hcons).2]
    exact (follows_all_ok _ _ _ _ _ _ h hok).2
  · intro σ E p fp flags chain w
    have h := pkeys_print_follows E p fp flags chain w
    refine ⟨follows_first_failure_wins _ _ _ _ _ _ h, follows_ne_nil _ _ _ _ _ _ _ h, ?_⟩
    intro hcons hok
    rw [← (pkey_plan_ok chain hcons).2]
    exact (follows_all_ok _ _ _ _ _ _ h hok).2
  · intro σ E p fp flags chain w
    have h := tlsa_print_follows E p fp flags chain w
    exact ⟨follows_first_failure_wins _ _ _ _ _ _ h, follows_ne_nil _ _ _ _ _ _ _ h,
      follows_zero _ _ _ _ _ _ h, fun hok => (follows_all_ok _ _ _ _ _ _ h hok).2⟩
  · intro σ E p fp flags ptr w
    have h := dane_print_follows_nil E p fp flags ptr w
    exact ⟨follows_first_failure_wins _ _ _ _ _ _ h, follows_ne_nil _ _ _ _ _ _ _ h,
      follows_zero _ _ _ _ _ _ h, fun hok => (follows_all_ok _ _ _ _ _ _ h hok).2⟩

/-- A run of C8: the print routine fails the count write of a certificate
chain with status 5; that call is the last and the encoder returns 5. -/
theorem first_failure_wins_witness :
    ([] : List Call) = [] ∧
    (tls_proxy_client_certs_print (plain_env 4 0 : Env Unit).logged (logged (fail_print 5))
        7 0 [⟨5, [48, 3, 1, 2, 3]⟩] ((), [])).ending = .returned 5 :=
  (first_failure_wins.1 Unit (plain_env 4 0) (fail_print 5) 7 0 [⟨5, [48, 3, 1, 2, 3]⟩] ()).1.1
    [] ⟨7, 4, [Attr.int TLS_ATTR_COUNT 1], .returned 5⟩ [] 5 (by decide) rfl (by decide)

/-- C9: for every record, print routine, stream, flags and verbosity,
tls_proxy_client_start_print makes one print routine call carrying thirteen
items in the order timeout, tls_level (integers), nexthop, host, namaddr,
serverid, helo, protocols, cipher_grade, cipher_exclusions (strings, empty when
absent), the match pattern string list, mdalg (string) and last the DANE field.
Written out by the print routine, a record with timeout 300, tls_level 2, host
"mail.example.com" and a null DANE record starts with the integers 300 and 2,
has the host string as its fourth item, and ends with the presence flag 0 with
nothing after it. -/
theorem start_print_wire_order :
    (∀ (σ : Type) (E : Env σ) (p : ATTR_PRINT_MASTER_FN σ) (fp : VSTREAM) (flags : Nat)
        (props : TLS_CLIENT_START_PROPS) (w : σ),
        (tls_proxy_client_start_print E.logged (logged p) fp flags props (w, [])).calls
          = [⟨fp, flags ||| E.ATTR_FLAG_MORE,
              [Attr.int TLS_ATTR_TIMEOUT props.timeout,
               Attr.int TLS_ATTR_TLS_LEVEL props.tls_level,
               Attr.str TLS_ATTR_NEXTHOP (some (props.nexthop.getD "")),
               Attr.str TLS_ATTR_HOST (some (props.host.getD "")),
               Attr.str TLS_ATTR_NAMADDR (some (props.namaddr.getD "")),
               Attr.str TLS_ATTR_SERVERID (some (props.serverid.getD "")),
               Attr.str TLS_ATTR_HELO (some (props.helo.getD "")),
               Attr.str TLS_ATTR_PROTOCOLS (some (props.protocols.getD "")),
               Attr.str TLS_ATTR_CIPHER_GRADE (some (props.cipher_grade.getD "")),
               Attr.str TLS_ATTR_CIPHER_EXCLUSIONS (some (props.cipher_exclusions.getD "")),
               Attr.func (.argv_attr_print props.matchargv),
               Attr.str TLS_ATTR_MDALG (some (props.mdalg.getD "")),
               Attr.func (.tls_proxy_client_dane_print props.dane)],
              (tls_proxy_client_start_print E.logged (logged p) fp flags props
                (w, [])).ending⟩]) ∧
    (∀ (more : Nat) (verbose : Int) (fp : VSTREAM) (flags : Nat)
        (nexthop namaddr serverid helo protocols cipher_grade cipher_exclusions mdalg : CStr)
        (matchargv : ARGV),
        tls_proxy_client_start_print (plain_env more verbose) (wire_print more verbose) fp flags
            { timeout := 300, tls_level := 2, nexthop := nexthop,
              host := some "mail.example.com", namaddr := namaddr, serverid := serverid,
              helo := helo, protocols := protocols, cipher_grade := cipher_grade,
              cipher_exclusions := cipher_exclusions, matchargv := matchargv, mdalg := mdalg,
              dane := none } []
          = .ret 0
              ([Attr.int TLS_ATTR_TIMEOUT 300,
                Attr.int TLS_ATTR_TLS_LEVEL 2,
                Attr.str TLS_ATTR_NEXTHOP (some (nexthop.getD "")),
                Attr.str TLS_ATTR_HOST (some "mail.example.com"),
                Attr.str TLS_ATTR_NAMADDR (some (namaddr.getD "")),
                Attr.str TLS_ATTR_SERVERID (some (serverid.getD "")),
                Attr.str TLS_ATTR_HELO (some (helo.getD "")),
                Attr.str TLS_ATTR_PROTOCOLS (some (protocols.getD "")),
                Attr.str TLS_ATTR_CIPHER_GRADE (some (cipher_grade.getD "")),
                Attr.str TLS_ATTR_CIPHER_EXCLUSIONS (some (cipher_exclusions.getD "")),
                Attr.int ARGV_ATTR_SIZE matchargv.length] ++
               matchargv.map (fun s => Attr.str ARGV_ATTR_VALUE (some s)) ++
               [Attr.str TLS_ATTR_MDALG (some (mdalg.getD "")),
                Attr.int TLS_ATTR_DANE 0])) := by
  refine ⟨?_, ?_⟩
  · intro σ E p fp flags props w
    obtain ⟨cs, h1, h2⟩ := start_print_follows E p fp flags props w []
    have h3 := follows_single _ _ _ _ _ h2
    simp only [List.nil_append] at h1
    rw [h1, h3]
    simp only [string_or_empty_eq]
  · intro more verbose fp flags nexthop namaddr serverid helo protocols cipher_grade
      cipher_exclusions mdalg matchargv
    unfold tls_proxy_client_start_print
    simp only [Env.verbose_info_bind, plain_told, string_or_empty_eq, SEND_ATTR_STR,
      SEND_ATTR_INT, SEND_ATTR_FUNC, wire_print]
    rw [proc_bind_apply, attr_print_succ]
    simp [attr_print_items, proc_bind_apply, proc_pure_apply, wire_write,
      call_callback, argv_print_wire, dane_absent_wire, Env.verbose_info_apply, plain_told]

end Claims

/-! ## The later properties -/

section Claims2

variable {σ : Type}

/-- C11: replacing absent string fields by the empty string changes nothing:
the init encoder, the DANE encoder and the start encoder behave the same (same
calls, same items, same status, for every print routine) on a record and on
the record with its absent strings replaced by the empty string; two init
records that agree after that replacement are encoded the same; and with the
base domain of the attached DANE record replaced as well, the start encoder
puts the same items on the wire. The macro sends an absent string as the
empty string. -/
theorem absent_equals_empty :
    (∀ (σ : Type) (E : Env σ) (p : ATTR_PRINT_MASTER_FN σ) (fp : VSTREAM) (flags : Nat)
        (props : TLS_CLIENT_INIT_PROPS),
        tls_proxy_client_init_print E p fp flags (init_normalize props)
          = tls_proxy_client_init_print E p fp flags props) ∧
    (∀ (σ : Type) (E : Env σ) (p : ATTR_PRINT_MASTER_FN σ) (fp : VSTREAM) (flags : Nat)
        (props props2 : TLS_CLIENT_INIT_PROPS),
        init_normalize props = init_normalize props2 →
        tls_proxy_client_init_print E p fp flags props
          = tls_proxy_client_init_print E p fp flags props2) ∧
    (∀ (σ : Type) (E : Env σ) (p : ATTR_PRINT_MASTER_FN σ) (fp : VSTREAM) (flags : Nat)
        (dane : TLS_DANE),
        tls_proxy_client_dane_print E p fp flags (some (dane_normalize dane))
          = tls_proxy_client_dane_print E p fp flags (some dane)) ∧
    (∀ (σ : Type) (E : Env σ) (p : ATTR_PRINT_MASTER_FN σ) (fp : VSTREAM) (flags : Nat)
        (props : TLS_CLIENT_START_PROPS),
        tls_proxy_client_start_print E p fp flags
            { start_normalize props with dane := props.dane }
          = tls_proxy_client_start_print E p fp flags props) ∧
    (∀ (more : Nat) (verbose : Int) (fp : VSTREAM) (flags : Nat)
        (props : TLS_CLIENT_START_PROPS),
        tls_proxy_client_start_print (plain_env more verbose) (wire_print more verbose) fp flags
            (start_normalize props)
          = tls_proxy_client_start_print (plain_env more verbose) (wire_print more verbose)
            fp flags props) ∧
    (∀ s : CStr, STRING_OR_EMPTY s = some (s.getD "")) := by
  refine ⟨?_, ?_, ?_, ?_, ?_, string_or_empty_eq⟩
  · intro σ E p fp flags props
    exact init_print_normalize E p fp flags props
  · intro σ E p fp flags props props2 h
    rw [← init_print_normalize E p fp flags props, h, init_print_normalize]
  · intro σ E p fp flags dane
    exact dane_print_normalize E p fp flags (some dane)
  · intro σ E p fp flags props
    exact start_print_normalize_strings E p fp flags props
  · intro more verbose fp flags props
    exact start_print_normalize_driver _ _ wire_write 3 fp flags props

/-- A run of C11: two init records that differ in one absent string, replaced
by the empty string in the second, are encoded the same. -/
theorem absent_equals_empty_witness :
    tls_proxy_client_init_print (plain_env 4 0 : Env Unit) ok_print 7 0 init_example
      = tls_proxy_client_init_print (plain_env 4 0 : Env Unit) ok_print 7 0
          { init_example with cache_type := some "" } :=
  absent_equals_empty.2.1 Unit (plain_env 4 0) ok_print 7 0 init_example
    { init_example with cache_type := some "" } (by decide)

/-- C12: when every print routine call returns 0, tls_proxy_client_tlsa_print
submits the entry count and then one call per entry in chain order, each
carrying exactly three items in this order: the digest algorithm name
(string), the certificate name list, the key name list; it returns 0. Written
out by the print routine, the wire holds the count and then the items of the
entries one entry after the other, so no item of a later entry precedes an item
of an earlier one. -/
theorem tlsa_print_entry_order (E : Env σ) (p : ATTR_PRINT_MASTER_FN σ) (fp : VSTREAM)
    (flags : Nat) (chain : TLS_TLSA) (w : σ)
    (hok : ∀ c ∈ (tls_proxy_client_tlsa_print E.logged (logged p) fp flags chain
      (w, [])).calls, c.ending = .returned 0) :
    (tls_proxy_client_tlsa_print E.logged (logged p) fp flags chain (w, [])).calls.map
        Call.attrs
      = [Attr.int TLS_ATTR_COUNT chain.length] ::
          chain.map (fun tp => [Attr.str TLS_ATTR_MDALG tp.mdalg,
            Attr.func (.argv_attr_print tp.certs),
            Attr.func (.argv_attr_print tp.pkeys)]) ∧
    (tls_proxy_client_tlsa_print E.logged (logged p) fp flags chain (w, [])).ending
      = .returned 0 ∧
    (∀ (more : Nat) (verbose : Int) (fp2 : VSTREAM) (flags2 : Nat),
      tls_proxy_client_tlsa_print (plain_env more verbose) (wire_print more verbose) fp2 flags2
          chain []
        = .ret 0 (Attr.int TLS_ATTR_COUNT chain.length :: (chain.map tlsa_wire).flatten)) := by
  refine ⟨(follows_all_ok _ _ _ _ _ _ (tlsa_print_follows E p fp flags chain w) hok).1,
    (follows_all_ok _ _ _ _ _ _ (tlsa_print_follows E p fp flags chain w) hok).2, ?_⟩
  intro more verbose fp2 flags2
  rw [wire_print, tlsa_print_wire more verbose 3 fp2 flags2 chain []]
  rfl

/-- A run of C12 on a chain of two entries with a print routine that always
succeeds. -/
theorem tlsa_print_entry_order_witness :
    (tls_proxy_client_tlsa_print (plain_env 4 0 : Env Unit).logged (logged ok_print) 7 0
        tlsa_example ((), [])).calls.map Call.attrs
      = [Attr.int TLS_ATTR_COUNT tlsa_example.length] ::
          tlsa_example.map (fun tp => [Attr.str TLS_ATTR_MDALG tp.mdalg,
            Attr.func (.argv_attr_print tp.certs),
            Attr.func (.argv_attr_print tp.pkeys)]) ∧
    (tls_proxy_client_tlsa_print (plain_env 4 0 : Env Unit).logged (logged ok_print) 7 0
        tlsa_example ((), [])).ending = .returned 0 ∧
    (∀ (more : Nat) (verbose : Int) (fp2 : VSTREAM) (flags2 : Nat),
      tls_proxy_client_tlsa_print (plain_env more verbose) (wire_print more verbose) fp2 flags2
          tlsa_example []
        = .ret 0 (Attr.int TLS_ATTR_COUNT tlsa_example.length ::
            (tlsa_example.map tlsa_wire).flatten)) :=
  tlsa_print_entry_order (plain_env 4 0) ok_print 7 0 tlsa_example () (by decide)

/-- C13: with the count-prefixed string list encoder for the name lists, and
for every stream, flags and verbosity, tls_proxy_client_dane_print applied to
the DANE record of the scenario puts exactly these items on the wire, in this
order: the presence flag 1, the count 1, the string "sha256", the count 1, the
string "A", the count 0 (key names), the count 0 (end-entity list), the count
0 (certificate chain), the count 0 (key chain), the empty string (base
domain), the integer 0 (flags) and the 64-bit integer 1700000000; it
returns 0. -/
theorem dane_print_scenario (more : Nat) (verbose : Int) (fp : VSTREAM) (flags : Nat) :
    tls_proxy_client_dane_print (plain_env more verbose) (wire_print more verbose) fp flags
        (some dane_scenario) []
      = .ret 0
          [Attr.int TLS_ATTR_DANE 1,
           Attr.int TLS_ATTR_COUNT 1,
           Attr.str TLS_ATTR_MDALG (some "sha256"),
           Attr.int ARGV_ATTR_SIZE 1,
           Attr.str ARGV_ATTR_VALUE (some "A"),
           Attr.int ARGV_ATTR_SIZE 0,
           Attr.int TLS_ATTR_COUNT 0,
           Attr.int TLS_ATTR_COUNT 0,
           Attr.int TLS_ATTR_COUNT 0,
           Attr.str TLS_ATTR_DOMAIN (some ""),
           Attr.int TLS_ATTR_FLAGS 0,
           Attr.long TLS_ATTR_EXP 1700000000] := by
  unfold tls_proxy_client_dane_print
  simp only [wire_print, proc_bind_apply, SEND_ATTR_INT, SEND_ATTR_FUNC, SEND_ATTR_STR,
    SEND_ATTR_LONG]
  rw [wire_scalar_call _ 4 fp _ _ (by intro cb h; cases h)]
  have ht : ∀ (fl : Nat) (chain : TLS_TLSA) (w : List Attr),
      tls_proxy_client_tlsa_print (plain_env more verbose)
          (attr_print (plain_env more verbose) wire_write 3) fp fl chain w
        = .ret 0 (w ++ Attr.int TLS_ATTR_COUNT chain.length :: (chain.map tlsa_wire).flatten) :=
    fun fl chain w => tlsa_print_wire more verbose 2 fp fl chain w
  simp only [Env.verbose_info_apply, plain_told, if_true, attr_print_succ, attr_print_items,
    dane_scenario]
  simp [proc_bind_apply, call_callback, ht, certs_print_wire_nil, pkeys_print_wire_nil,
    wire_write, proc_pure_apply, tlsa_wire, argv_wire, c_bool, STRING_OR_EMPTY,
    Env.verbose_info_apply, plain_told]

/-- C14 as stated fails: the lookup of the reversed name "4.3.2.1.example.com"
returns DNS_OK with a reply record, but dns_rr_to_pa does not convert the
record, so the record is skipped and dnsblog_query returns the status 0. -/
theorem dnsblog_query_skipped_record :
    c_string (STR (dnsblog_query (dns_env_example false) "example.com" "1.2.3.4"
        dnsblog_state_example).state.query) = "4.3.2.1.example.com" ∧
    ((dns_env_example false).dns_lookup "4.3.2.1.example.com").status
      = (dns_env_example false).DNS_OK ∧
    ((dns_env_example false).dns_lookup "4.3.2.1.example.com").addr_list ≠ [] ∧
    (dnsblog_query (dns_env_example false) "example.com" "1.2.3.4"
        dnsblog_state_example).ending = .returned 0 := by
  decide

/-- C14, amended: for every blocklist domain, address, DNS library and process
state, dnsblog_query returns 1 when the lookup of the name it built returns
DNS_OK with at least one reply record that dns_rr_to_pa converts to a printable
address, and returns 0 otherwise (DNS_OK with only skipped records,
DNS_NOTFOUND, or a lookup error), so the status is always 0 or 1; it fails to
return only when an address that valid_ipv6_hostaddr accepts cannot be
converted, which is fatal. When attr_scan received both attributes,
dnsblog_service replies on the client stream with the received domain, the
received address and that status, in that order, and flushes the stream;
otherwise it sends nothing. -/
theorem dnsblog_status :
    (∀ (D : DNSBLOG_ENV) (dnsbl_domain addr : String) (s : DNSBLOG_STATE),
      (dnsblog_query D dnsbl_domain addr s).ending
          = .returned
              (if (D.dns_lookup (c_string
                    (STR (dnsblog_query D dnsbl_domain addr s).state.query))).status = D.DNS_OK ∧
                  ∃ rr ∈ (D.dns_lookup (c_string
                    (STR (dnsblog_query D dnsbl_domain addr s).state.query))).addr_list,
                    (D.dns_rr_to_pa rr).isSome
               then 1 else 0) ∨
      ((dnsblog_query D dnsbl_domain addr s).ending
          = .terminated ("dnsblog_query" ++ ": unable to convert address " ++ addr) ∧
        D.HAS_IPV6 = true ∧ D.valid_ipv6_hostaddr addr = true ∧
        ∀ res, D.hostaddr_to_sockaddr addr = some res → res.ai_family ≠ D.PF_INET6)) ∧
    (∀ (D : DNSBLOG_ENV) (client_stream : VSTREAM) (service : String) (s : DNSBLOG_STATE)
        (found : Int),
      (D.attr_scan client_stream).1 = 2 →
      (dnsblog_query D (D.attr_scan client_stream).2.1 (D.attr_scan client_stream).2.2
          { s with rbl_domain := (D.attr_scan client_stream).2.1,
                   addr := (D.attr_scan client_stream).2.2 }).ending = .returned found →
      ∃ s2, dnsblog_service D client_stream service [] s = .ret () s2 ∧
        s2.sent = s.sent ++ [(client_stream, D.ATTR_FLAG_NONE,
          [Attr.str MAIL_ATTR_RBL_DOMAIN (some (D.attr_scan client_stream).2.1),
           Attr.str MAIL_ATTR_ADDR (some (D.attr_scan client_stream).2.2),
           Attr.int MAIL_ATTR_STATUS found])] ∧
        s2.flushed = s.flushed ++ [client_stream]) ∧
    (∀ (D : DNSBLOG_ENV) (client_stream : VSTREAM) (service : String) (s : DNSBLOG_STATE),
      (D.attr_scan client_stream).1 ≠ 2 →
      ∃ s2, dnsblog_service D client_stream service [] s = .ret () s2 ∧
        s2.sent = s.sent ∧ s2.flushed = s.flushed) := by
  refine ⟨?_, ?_, ?_⟩
  · intro D dom addr s
    cases hb : dnsblog_built D dom addr s.query with
    | none =>
      right
      have h := dnsblog_query_ending D dom addr s
      rw [hb] at h
      exact ⟨h, dnsblog_built_none D dom addr s.query hb⟩
    | some q =>
      left
      have h := dnsblog_query_ending D dom addr s
      rw [hb] at h
      rw [dnsblog_query_final D dom addr s q hb, h]
      rfl
  · intro D fp name s found h2 hq
    rw [dnsblog_service_run, if_pos h2]
    have hframe := dnsblog_query_frame D (D.attr_scan fp).2.1 (D.attr_scan fp).2.2
      { s with rbl_domain := (D.attr_scan fp).2.1, addr := (D.attr_scan fp).2.2 }
    cases hrun : dnsblog_query D (D.attr_scan fp).2.1 (D.attr_scan fp).2.2
        { s with rbl_domain := (D.attr_scan fp).2.1, addr := (D.attr_scan fp).2.2 } with
    | fatal msg s1 =>
      rw [hrun] at hq
      cases hq
    | ret f s1 =>
      rw [hrun] at hq hframe
      have hf : f = found := Ending.returned.inj hq
      obtain ⟨h1, h3, h4, h5⟩ := hframe
      simp only [Outcome.state] at h1 h3 h4 h5
      refine ⟨_, rfl, ?_, ?_⟩
      · simp only [h1, h3, h4, hf]
      · simp only [h5]
  · intro D fp name s h2
    rw [dnsblog_service_run, if_neg h2]
    exact ⟨_, rfl, rfl, rfl⟩

/-- A run of C14: the lookup returns DNS_OK with a record that converts; the
service replies with the domain, the address and the status 1. -/
theorem dnsblog_status_witness :
    ∃ s2, dnsblog_service (dns_env_example true) 5 "dnsblog" [] dnsblog_state_example
        = .ret () s2 ∧
      s2.sent = dnsblog_state_example.sent ++ [(5, (dns_env_example true).ATTR_FLAG_NONE,
        [Attr.str MAIL_ATTR_RBL_DOMAIN (some ((dns_env_example true).attr_scan 5).2.1),
         Attr.str MAIL_ATTR_ADDR (some ((dns_env_example true).attr_scan 5).2.2),
         Attr.int MAIL_ATTR_STATUS 1])] ∧
      s2.flushed = dnsblog_state_example.flushed ++ [5] :=
  dnsblog_status.2.1 (dns_env_example true) 5 "dnsblog" dnsblog_state_example 1
    (by decide) (by decide)

/-- C15 (counterexample): in SHOW_NONDEF mode, print_bool prints the line
`biff = yes` for a bool parameter whose dictionary entry "yes" is its built-in
default, the same line that SHOW_DEFS mode prints for it. -/
theorem print_bool_prints_default_setting :
    (print_bool (SHOW_NONDEF ||| SHOW_NAME) ⟨"biff", 1⟩
      (postconf_state_example (SHOW_NONDEF ||| SHOW_NAME) [("biff", "yes")])).state.out
        = ["biff = yes\n"] ∧
    (print_bool (SHOW_DEFS ||| SHOW_NAME) ⟨"biff", 1⟩
      (postconf_state_example (SHOW_DEFS ||| SHOW_NAME) [("biff", "yes")])).state.out
        = ["biff = yes\n"] := by
  decide

/-- C15 (amended): in SHOW_NONDEF mode (SHOW_NONDEF set and SHOW_DEFS clear),
for every dictionary, print_bool, print_int, print_str, print_str_fn and
print_str_fn_2 return, and print for the parameter exactly the line with its
dictionary entry when it has one, whether or not that value differs from the
built-in default, and nothing when it has none. -/
theorem postconf_nondef_prints_entries (P : POSTCONF_ENV) (mode : Nat)
    (hn : mode &&& SHOW_NONDEF ≠ 0) (hd : mode &&& SHOW_DEFS = 0) (s : POSTCONF_STATE) :
    (∀ cbt : CONFIG_BOOL_TABLE, print_bool mode cbt s =
      .ret () { s with out := (s.out ++
        nondef_lines mode cbt.name (s.config_dict.lookup cbt.name)) }) ∧
    (∀ cit : CONFIG_INT_TABLE, print_int mode cit s =
      .ret () { s with out := (s.out ++
        nondef_lines mode cit.name (s.config_dict.lookup cit.name)) }) ∧
    (∀ cst : CONFIG_STR_TABLE, print_str mode cst s =
      .ret () { s with out := (s.out ++
        nondef_lines mode cst.name (s.config_dict.lookup cst.name)) }) ∧
    (∀ csft : CONFIG_STR_FN_TABLE, print_str_fn P mode csft s =
      .ret () { s with out := (s.out ++
        nondef_lines mode csft.name (s.config_dict.lookup csft.name)) }) ∧
    (∀ csft : CONFIG_STR_FN_TABLE, print_str_fn_2 P mode csft s =
      .ret () { s with out := (s.out ++
        nondef_lines mode csft.name (s.config_dict.lookup csft.name)) }) :=
  ⟨fun cbt => print_bool_nondef mode hn hd cbt s, fun cit => print_int_nondef mode hn hd cit s,
    fun cst => print_str_nondef mode hn hd cst s,
    fun csft => print_str_fn_nondef P mode hn hd csft s,
    fun csft => print_str_fn_2_nondef P mode hn hd csft s⟩

/-- C15 (witness): with SHOW_NONDEF and SHOW_NAME set and a dictionary that
sets "biff" to "no", print_bool prints `biff = no` for the bool parameter
"biff" with default yes. -/
theorem postconf_nondef_prints_entries_witness :
    5 &&& SHOW_NONDEF ≠ 0 ∧ 5 &&& SHOW_DEFS = 0 ∧
    print_bool 5 ⟨"biff", 1⟩ (postconf_state_example 5 [("biff", "no")]) =
      .ret () { (postconf_state_example 5 [("biff", "no")]) with out := ["biff = no\n"] } :=
  ⟨by decide, by decide,
    (postconf_nondef_prints_entries postconf_env_example 5 (by decide) (by decide)
      (postconf_state_example 5 [("biff", "no")])).1 ⟨"biff", 1⟩⟩

/-- C16 (counterexample): with neither SHOW_DEFS nor SHOW_NONDEF, on a host
named "foo" and a dictionary with no myhostname and no mydomain, print_str_fn
for the parameter myhostname ends in the fatal error of check_myhostname and
prints no line. -/
theorem print_str_fn_fatal_prints_nothing :
    print_str_fn postconf_env_example SHOW_NAME ⟨"myhostname", .check_myhostname⟩
      (postconf_state_example SHOW_NAME []) =
      .fatal ("My hostname foo is not a fully qualified name - set myhostname or mydomain " ++
        "in /etc/postfix/main.cf") (postconf_state_example SHOW_NAME []) := by
  decide

/-- C16 (amended): for every dictionary, in SHOW_DEFS mode and in the mode with
neither SHOW_DEFS nor SHOW_NONDEF, print_bool, print_int and print_str return
and print exactly one line, whose value is the built-in default ("yes" or "no",
the decimal default, the default string) in SHOW_DEFS mode, and otherwise the
dictionary entry when there is one and the built-in default when there is
none. print_str_fn and print_str_fn_2 do the same with the result of the
default function, which always returns in SHOW_DEFS mode; with neither flag and
no dictionary entry, a default function that ends in a fatal error ends the run
and no line is printed. -/
theorem postconf_value_selection (P : POSTCONF_ENV) (mode : Nat)
    (h : mode &&& SHOW_DEFS ≠ 0 ∨ mode &&& SHOW_NONDEF = 0) (s : POSTCONF_STATE) :
    (∀ cbt : CONFIG_BOOL_TABLE, print_bool mode cbt s =
      .ret () { s with
        out := s.out ++ [postconf_line mode cbt.name
          (selected_value mode s cbt.name (if cbt.defval ≠ 0 then "yes" else "no"))] }) ∧
    (∀ cit : CONFIG_INT_TABLE, print_int mode cit s =
      .ret () { s with
        out := s.out ++ [postconf_line mode cit.name
          (selected_value mode s cit.name (toString cit.defval))] }) ∧
    (∀ cst : CONFIG_STR_TABLE, print_str mode cst s =
      .ret () { s with
        out := s.out ++ [postconf_line mode cst.name
          (selected_value mode s cst.name cst.defval)] }) ∧
    StrFnSelects P mode s (print_str_fn P mode) ∧
    StrFnSelects P mode s (print_str_fn_2 P mode) :=
  ⟨fun cbt => print_bool_select mode h cbt s, fun cit => print_int_select mode h cit s,
    fun cst => print_str_select mode h cst s, print_str_fn_selects P mode s,
    print_str_fn_2_selects P mode s⟩

/-- C16 (witness): with only SHOW_NAME set and a dictionary that sets only
"biff", print_int prints the decimal default of the int parameter
"queue_minfree". -/
theorem postconf_value_selection_witness :
    (4 &&& SHOW_DEFS ≠ 0 ∨ 4 &&& SHOW_NONDEF = 0) ∧
    print_int 4 ⟨"queue_minfree", 0⟩ (postconf_state_example 4 [("biff", "no")]) =
      .ret () { (postconf_state_example 4 [("biff", "no")]) with
        out := ["queue_minfree = 0\n"] } :=
  ⟨Or.inr (by decide),
    (postconf_value_selection postconf_env_example 4 (Or.inr (by decide))
      (postconf_state_example 4 [("biff", "no")])).2.1 ⟨"queue_minfree", 0⟩⟩

/-- C17: starting from mode = SHOW_NAME, for every sequence of option letters
from d, h, n and v, the option loop of main either ends in the fatal error
"specify one of -d and -n" or returns with a mode in which SHOW_DEFS and
SHOW_NONDEF are not both set; it ends in that fatal error exactly when the
sequence contains both a 'd' and an 'n'. -/
theorem postconf_options_exclusive (argv0 : String) (opts : List Char)
    (hl : ∀ c ∈ opts, c = 'd' ∨ c = 'h' ∨ c = 'n' ∨ c = 'v') (s : POSTCONF_STATE)
    (hs : s.mode = SHOW_NAME) :
    ((∃ s1, postconf_options argv0 opts s = .fatal "specify one of -d and -n" s1) ∨
      (∃ s1, postconf_options argv0 opts s = .ret () s1 ∧
        ¬(s1.mode &&& SHOW_DEFS ≠ 0 ∧ s1.mode &&& SHOW_NONDEF ≠ 0))) ∧
    ((∃ s1, postconf_options argv0 opts s = .fatal "specify one of -d and -n" s1) ↔
      ('d' ∈ opts ∧ 'n' ∈ opts)) := by
  have hrun := postconf_options_run argv0 opts hl s (by rw [hs]; decide)
    (by rw [hs]; decide)
  have hD : ¬ s.mode &&& SHOW_DEFS ≠ 0 := by rw [hs]; decide
  have hN : ¬ s.mode &&& SHOW_NONDEF ≠ 0 := by rw [hs]; decide
  simp only [hD, hN, false_or] at hrun
  by_cases hboth : 'd' ∈ opts ∧ 'n' ∈ opts
  · exact ⟨Or.inl (hrun.1 hboth), fun _ => hboth, fun _ => hrun.1 hboth⟩
  · obtain ⟨s1, h1, h2⟩ := hrun.2 hboth
    refine ⟨Or.inr ⟨s1, h1, h2⟩, fun ⟨s2, h3⟩ => ?_, fun h => absurd h hboth⟩
    rw [h1] at h3
    cases h3

/-- C17 (witness): the options `-h -n -v` from the initial state. -/
theorem postconf_options_exclusive_witness :
    (∃ s1, postconf_options "postconf" ['h', 'n', 'v'] (postconf_state_example SHOW_NAME []) =
      .fatal "specify one of -d and -n" s1) ↔ ('d' ∈ ['h', 'n', 'v'] ∧ 'n' ∈ ['h', 'n', 'v']) :=
  (postconf_options_exclusive "postconf" ['h', 'n', 'v'] (by decide)
    (postconf_state_example SHOW_NAME []) rfl).2

/-- C18: every print routine call made by the six encoders is made on the
caller's stream with flags equal to the caller's flags or-ed with
ATTR_FLAG_MORE: every bit of ATTR_FLAG_MORE is set on every call, for every
caller-supplied flags value, and every other bit is the caller's. -/
theorem encoders_pass_flags_with_more (E : Env σ) (p : ATTR_PRINT_MASTER_FN σ) (fp : VSTREAM)
    (flags : Nat) (w : σ) :
    (∀ props, PassesFlags E.ATTR_FLAG_MORE flags fp
      (tls_proxy_client_init_print E.logged (logged p) fp flags props (w, [])).calls) ∧
    (∀ props, PassesFlags E.ATTR_FLAG_MORE flags fp
      (tls_proxy_client_start_print E.logged (logged p) fp flags props (w, [])).calls) ∧
    (∀ ptr, PassesFlags E.ATTR_FLAG_MORE flags fp
      (tls_proxy_client_dane_print E.logged (logged p) fp flags ptr (w, [])).calls) ∧
    (∀ chain, PassesFlags E.ATTR_FLAG_MORE flags fp
      (tls_proxy_client_tlsa_print E.logged (logged p) fp flags chain (w, [])).calls) ∧
    (∀ chain, PassesFlags E.ATTR_FLAG_MORE flags fp
      (tls_proxy_client_certs_print E.logged (logged p) fp flags chain (w, [])).calls) ∧
    (∀ chain, PassesFlags E.ATTR_FLAG_MORE flags fp
      (tls_proxy_client_pkeys_print E.logged (logged p) fp flags chain (w, [])).calls) := by
  refine ⟨fun props => ?_, fun props => ?_, fun ptr => ?_, fun chain => ?_, fun chain => ?_,
    fun chain => ?_⟩
  · obtain ⟨cs, h1, h2⟩ := init_print_follows E p fp flags props w []
    rw [h1, List.nil_append]
    exact passes_of_follows _ _ _ _ _ _ _ h2
  · obtain ⟨cs, h1, h2⟩ := start_print_follows E p fp flags props w []
    rw [h1, List.nil_append]
    exact passes_of_follows _ _ _ _ _ _ _ h2
  · exact passes_of_follows _ _ _ _ _ _ _ (dane_print_follows_nil E p fp flags ptr w)
  · exact passes_of_follows _ _ _ _ _ _ _ (tlsa_print_follows E p fp flags chain w)
  · exact passes_of_follows _ _ _ _ _ _ _ (certs_print_follows E p fp flags chain w)
  · exact passes_of_follows _ _ _ _ _ _ _ (pkeys_print_follows E p fp flags chain w)

/-- C19 (counterexample): for a one-entry TLSA list whose digest-algorithm
name is absent, tls_proxy_client_tlsa_print hands the print routine a string
item for TLS_ATTR_MDALG that is the null pointer. -/
theorem tlsa_print_submits_null_string :
    (tls_proxy_client_tlsa_print (plain_env 4 0 : Env Unit).logged (logged ok_print)
        7 0 [⟨none, ["A"], []⟩] ((), [])).calls.map Call.attrs =
      [[Attr.int TLS_ATTR_COUNT 1],
       [Attr.str TLS_ATTR_MDALG none, Attr.func (.argv_attr_print ["A"]),
        Attr.func (.argv_attr_print [])]] ∧
    ¬ StringsPresent
      (tls_proxy_client_tlsa_print (plain_env 4 0 : Env Unit).logged (logged ok_print)
        7 0 [⟨none, ["A"], []⟩] ((), [])).calls := by
  refine ⟨by decide, fun h => ?_⟩
  have h2 := h ⟨7, 4, [Attr.str TLS_ATTR_MDALG none, Attr.func (.argv_attr_print ["A"]),
    Attr.func (.argv_attr_print [])], .returned 0⟩ (by decide)
    (Attr.str TLS_ATTR_MDALG none) (by decide)
  exact absurd h2 (by decide)

/-- C19 (amended): for every input structure, print routine, stream and flags,
every string item that tls_proxy_client_init_print,
tls_proxy_client_start_print and tls_proxy_client_dane_print hand to the print
routine is a present string, and so is every string item handed over by
tls_proxy_client_tlsa_print provided the digest-algorithm name of every entry
of the list is present. -/
theorem encoders_strings_present (E : Env σ) (p : ATTR_PRINT_MASTER_FN σ) (fp : VSTREAM)
    (flags : Nat) (w : σ) :
    (∀ props, StringsPresent
      (tls_proxy_client_init_print E.logged (logged p) fp flags props (w, [])).calls) ∧
    (∀ props, StringsPresent
      (tls_proxy_client_start_print E.logged (logged p) fp flags props (w, [])).calls) ∧
    (∀ ptr, StringsPresent
      (tls_proxy_client_dane_print E.logged (logged p) fp flags ptr (w, [])).calls) ∧
    (∀ chain : TLS_TLSA, (∀ tp ∈ chain, tp.mdalg ≠ none) → StringsPresent
      (tls_proxy_client_tlsa_print E.logged (logged p) fp flags chain (w, [])).calls) :=
  ⟨fun props => init_print_strings E p fp flags props w,
    fun props => start_print_strings E p fp flags props w,
    fun ptr => dane_print_strings E p fp flags ptr w,
    fun chain hm => tlsa_print_strings E p fp flags chain w hm⟩

/-- C19 (witness): a two-entry TLSA list whose entries name "sha256" and
"sha512". -/
theorem encoders_strings_present_witness :
    (∀ tp ∈ tlsa_example, tp.mdalg ≠ none) ∧
    StringsPresent
      (tls_proxy_client_tlsa_print (plain_env 4 0 : Env Unit).logged (logged ok_print)
        7 0 tlsa_example ((), [])).calls :=
  ⟨by decide, (encoders_strings_present (plain_env 4 0 : Env Unit) ok_print 7 0 ()).2.2.2
    tlsa_example (by decide)⟩

/-- C20: for every input structure, print routine, stream, flags and process
state, two runs of any of the six encoders that differ only in msg_verbose
make the same sequence of print routine calls with the same arguments and the
same results, end the same way (the same returned status, or the same panic)
and leave the same process state; only the diagnostic log may differ. -/
theorem encoders_ignore_verbosity (more : Nat) (v1 v2 : Int) (p : ATTR_PRINT_MASTER_FN σ)
    (fp : VSTREAM) (flags : Nat) (w : σ) (d : List String) :
    (∀ props, SameObservation
      (tls_proxy_client_init_print (diag_env more v1 : Env (σ × List String)).logged
        (logged (with_diag p)) fp flags props ((w, d), []))
      (tls_proxy_client_init_print (diag_env more v2 : Env (σ × List String)).logged
        (logged (with_diag p)) fp flags props ((w, d), []))) ∧
    (∀ props, SameObservation
      (tls_proxy_client_start_print (diag_env more v1 : Env (σ × List String)).logged
        (logged (with_diag p)) fp flags props ((w, d), []))
      (tls_proxy_client_start_print (diag_env more v2 : Env (σ × List String)).logged
        (logged (with_diag p)) fp flags props ((w, d), []))) ∧
    (∀ ptr, SameObservation
      (tls_proxy_client_dane_print (diag_env more v1 : Env (σ × List String)).logged
        (logged (with_diag p)) fp flags ptr ((w, d), []))
      (tls_proxy_client_dane_print (diag_env more v2 : Env (σ × List String)).logged
        (logged (with_diag p)) fp flags ptr ((w, d), []))) ∧
    (∀ chain, SameObservation
      (tls_proxy_client_tlsa_print (diag_env more v1 : Env (σ × List String)).logged
        (logged (with_diag p)) fp flags chain ((w, d), []))
      (tls_proxy_client_tlsa_print (diag_env more v2 : Env (σ × List String)).logged
        (logged (with_diag p)) fp flags chain ((w, d), []))) ∧
    (∀ chain, SameObservation
      (tls_proxy_client_certs_print (diag_env more v1 : Env (σ × List String)).logged
        (logged (with_diag p)) fp flags chain ((w, d), []))
      (tls_proxy_client_certs_print (diag_env more v2 : Env (σ × List String)).logged
        (logged (with_diag p)) fp flags chain ((w, d), []))) ∧
    (∀ chain, SameObservation
      (tls_proxy_client_pkeys_print (diag_env more v1 : Env (σ × List String)).logged
        (logged (with_diag p)) fp flags chain ((w, d), []))
      (tls_proxy_client_pkeys_print (diag_env more v2 : Env (σ × List String)).logged
        (logged (with_diag p)) fp flags chain ((w, d), []))) := by
  refine ⟨fun props => ?_, fun props => ?_, fun ptr => ?_, fun chain => ?_, fun chain => ?_,
    fun chain => ?_⟩
  · exact agree_observation _ _ (agree_init_print more v1 v2 p fp flags props) w d
  · exact agree_observation _ _ (agree_start_print more v1 v2 p fp flags props) w d
  · exact agree_observation _ _ (agree_dane_print more v1 v2 p fp flags ptr) w d
  · rw [tlsa_print_eq, tlsa_print_eq]
    exact agree_observation _ _ (agree_chain_print more v1 v2 p fp flags _ _ _ chain) w d
  · rw [certs_print_eq, certs_print_eq]
    exact agree_observation _ _ (agree_chain_print more v1 v2 p fp flags _ _ _ chain) w d
  · rw [pkeys_print_eq, pkeys_print_eq]
    exact agree_observation _ _ (agree_chain_print more v1 v2 p fp flags _ _ _ chain) w d

/-- C21: for every address made of four non-empty decimal octets a.b.c.d that
is not taken for an IPv6 address, every blocklist domain and every process
state, the DNS name dnsblog_query looks up is "d.c.b.a." followed by the
domain: the status it returns is the one the lookup of that name gives, and
the query buffer then holds exactly that name, followed by its terminating
null, whatever an earlier request left in the buffer. -/
theorem dnsblog_ipv4_query_name (D : DNSBLOG_ENV) (a b c d dnsbl_domain : String)
    (s : DNSBLOG_STATE) (ha : decimal_octet a) (hb : decimal_octet b) (hc : decimal_octet c)
    (hd : decimal_octet d) (hdom : c_text dnsbl_domain)
    (h4 : ¬ (D.HAS_IPV6 = true ∧
      D.valid_ipv6_hostaddr (a ++ "." ++ b ++ "." ++ c ++ "." ++ d) = true)) :
    (dnsblog_query D dnsbl_domain (a ++ "." ++ b ++ "." ++ c ++ "." ++ d) s).ending =
      .returned (dnsblog_found D
        (D.dns_lookup (d ++ "." ++ c ++ "." ++ b ++ "." ++ a ++ "." ++ dnsbl_domain))) ∧
    vstring_text (dnsblog_query D dnsbl_domain (a ++ "." ++ b ++ "." ++ c ++ "." ++ d) s).state.query
      (char_codes (d ++ "." ++ c ++ "." ++ b ++ "." ++ a ++ "." ++ dnsbl_domain)) ∧
    c_string (STR (dnsblog_query D dnsbl_domain
        (a ++ "." ++ b ++ "." ++ c ++ "." ++ d) s).state.query) =
      d ++ "." ++ c ++ "." ++ b ++ "." ++ a ++ "." ++ dnsbl_domain := by
  obtain ⟨q, hq, ht⟩ := dnsblog_built_ipv4 D a b c d dnsbl_domain s.query ha hb hc hd h4
  have hname : c_text (d ++ "." ++ c ++ "." ++ b ++ "." ++ a ++ "." ++ dnsbl_domain) :=
    c_text_append _ _ (c_text_append _ _ (c_text_append _ _ (c_text_append _ _
      (c_text_append _ _ (c_text_append _ _ (c_text_append _ _ (c_text_append _ _
        (decimal_octet_chars d hd).2 c_text_dot) (decimal_octet_chars c hc).2) c_text_dot)
        (decimal_octet_chars b hb).2) c_text_dot) (decimal_octet_chars a ha).2) c_text_dot) hdom
  have hs := c_string_of_text q _ ht hname
  have he := dnsblog_query_ending D dnsbl_domain (a ++ "." ++ b ++ "." ++ c ++ "." ++ d) s
  have hf := dnsblog_query_final D dnsbl_domain (a ++ "." ++ b ++ "." ++ c ++ "." ++ d) s q hq
  rw [hq] at he
  rw [hf]
  have he2 : (dnsblog_query D dnsbl_domain (a ++ "." ++ b ++ "." ++ c ++ "." ++ d) s).ending =
      .returned (dnsblog_found D (D.dns_lookup (c_string (STR q)))) := he
  refine ⟨?_, ht, hs⟩
  rw [he2, hs]

/-- C21 (witness): address 1.2.3.4 and domain example.com, from a state whose
query buffer holds residue of an earlier request: the name is
"4.3.2.1.example.com". -/
theorem dnsblog_ipv4_query_name_witness :
    c_string (STR (dnsblog_query (dns_env_example true) "example.com" "1.2.3.4"
      dnsblog_state_example).state.query) = "4.3.2.1.example.com" :=
  (dnsblog_ipv4_query_name (dns_env_example true) "1" "2" "3" "4" "example.com"
    dnsblog_state_example (by unfold decimal_octet; decide) (by unfold decimal_octet; decide)
    (by unfold decimal_octet; decide) (by unfold decimal_octet; decide)
    (by unfold c_text; decide) (by decide)).2.2

/-- C22: for every address that is taken for an IPv6 address and converts to
the 16 bytes b[0..15], every blocklist domain and every process state, the DNS
name dnsblog_query looks up is, for i from 15 down to 0, the low nibble of b[i]
and then its high nibble, each as one lowercase hexadecimal digit followed by
a dot, then the domain: the status it returns is the one the lookup of that
name gives, the query buffer then holds exactly that name, and the length of
the name is 64 plus the length of the domain. -/
theorem dnsblog_ipv6_query_name (D : DNSBLOG_ENV) (addr dnsbl_domain : String) (res : ADDRINFO)
    (s : DNSBLOG_STATE) (h6 : D.HAS_IPV6 = true) (hv : D.valid_ipv6_hostaddr addr = true)
    (hc : D.hostaddr_to_sockaddr addr = some res) (hf : res.ai_family = D.PF_INET6)
    (_hlen : res.sin6_addr.length = 16) (hb : ∀ x ∈ res.sin6_addr, x < 256)
    (hdom : c_text dnsbl_domain) :
    (dnsblog_query D dnsbl_domain addr s).ending =
      .returned (dnsblog_found D
        (D.dns_lookup (ipv6_query_name res.sin6_addr dnsbl_domain))) ∧
    vstring_text (dnsblog_query D dnsbl_domain addr s).state.query
      (char_codes (ipv6_query_name res.sin6_addr dnsbl_domain)) ∧
    c_string (STR (dnsblog_query D dnsbl_domain addr s).state.query) =
      ipv6_query_name res.sin6_addr dnsbl_domain ∧
    (ipv6_query_name res.sin6_addr dnsbl_domain).length = 64 + dnsbl_domain.length := by
  obtain ⟨q, hq, ht⟩ := dnsblog_built_ipv6 D addr dnsbl_domain res s.query h6 hv hc hf hb
  have hname : c_text (ipv6_query_name res.sin6_addr dnsbl_domain) := by
    rw [ipv6_query_name_eq]
    exact c_text_append _ _ (ipv6_nibbles_text res.sin6_addr hb 16) hdom
  have hs := c_string_of_text q _ ht hname
  have he := dnsblog_query_ending D dnsbl_domain addr s
  have hfin := dnsblog_query_final D dnsbl_domain addr s q hq
  rw [hq] at he
  have he2 : (dnsblog_query D dnsbl_domain addr s).ending =
      .returned (dnsblog_found D (D.dns_lookup (c_string (STR q)))) := he
  rw [hfin]
  refine ⟨?_, ht, hs, ?_⟩
  · rw [he2, hs]
  · rw [ipv6_query_name_eq, String.length_append]
    show (ipv6_nibbles res.sin6_addr 16).length + _ = _
    rw [ipv6_nibbles_length]

/-- C22 (witness): the address 2001:db8::1 and the domain example.com, from a
state whose query buffer holds residue of an earlier request. -/
theorem dnsblog_ipv6_query_name_witness :
    c_string (STR (dnsblog_query dns_env_ipv6_example "example.com" "2001:db8::1"
      dnsblog_state_example).state.query) =
      "1.0.0.0.0.0.0.0.0.0.0.0.0.0.0.0.0.0.0.0.0.0.0.0.8.b.d.0.1.0.0.2.example.com" :=
  (dnsblog_ipv6_query_name dns_env_ipv6_example "2001:db8::1" "example.com"
    ⟨10, [0x20, 0x01, 0x0d, 0xb8, 0, 0, 0, 0, 0, 0, 0, 0, 0, 0, 0, 1]⟩
    dnsblog_state_example rfl rfl rfl rfl rfl (by decide) (by unfold c_text; decide)).2.2.1

/-- C23 (counterexample): with no name given and neither SHOW_DEFS nor
SHOW_NONDEF, on a host named "foo" and an empty dictionary, show_parameters
visits "biff", ends in the fatal error of check_myhostname at "mydomain", and
never visits "myhostname", "mynetworks" and "queue_directory", which are in
the parameter table. -/
theorem show_parameters_stops_at_fatal :
    (hash_parameters postconf_env_example postconf_tables_example).map HTABLE_INFO.key =
      ["mynetworks", "mydomain", "myhostname", "queue_directory", "biff"] ∧
    show_parameters postconf_env_example SHOW_NAME
        (hash_parameters postconf_env_example postconf_tables_example) []
        (postconf_state_example SHOW_NAME []) =
      .fatal ("My hostname foo is not a fully qualified name - set myhostname or mydomain " ++
          "in /etc/postfix/main.cf")
        { (postconf_state_example SHOW_NAME []) with out := ["biff = yes\n"] } := by
  decide

/-- C23 (amended): when no parameter name is given, show_parameters visits the
entries of the parameter table in ascending strcmp order of parameter name:
the visited sequence is a rearrangement of the table, so every entry is in it
exactly once. When names are given, it visits them in command-line order; a
name that is not in the table gets nothing but a warning and the remaining
names are visited. A visit is one call of print_parameter; in SHOW_DEFS mode
and in SHOW_NONDEF mode every visit returns, so the whole sequence is visited;
otherwise a visit that ends in a fatal error ends the run, and the entries or
names after it are not visited. -/
theorem show_parameters_order (P : POSTCONF_ENV) (mode : Nat) (param_table : HTABLE) :
    (∃ sorted : List HTABLE_INFO, sorted.Perm param_table ∧
      sorted.Pairwise (fun a b => strcmp a.key b.key ≤ 0) ∧
      ∀ s, show_parameters P mode param_table [] s =
        visit_in_order P mode (sorted.map (fun ht => (ht.key, some ht.value))) s) ∧
    (∀ names : List String, names ≠ [] → ∀ s,
      show_parameters P mode param_table names s =
        visit_in_order P mode (names.map (fun name => (name, htable_find param_table name))) s) ∧
    (∀ name, htable_find param_table name = none ↔ ∀ ht ∈ param_table, ht.key ≠ name) ∧
    (∀ name rest s, visit_in_order P mode ((name, none) :: rest) s =
      visit_in_order P mode rest
        { s with warnings := s.warnings ++ [name ++ ": unknown parameter"] }) ∧
    (∀ name ptr rest s s1, print_parameter P mode ptr s = .ret () s1 →
      visit_in_order P mode ((name, some ptr) :: rest) s = visit_in_order P mode rest s1) ∧
    (∀ name ptr rest s msg s1, print_parameter P mode ptr s = .fatal msg s1 →
      visit_in_order P mode ((name, some ptr) :: rest) s = .fatal msg s1) ∧
    (∀ items s, ((mode &&& SHOW_DEFS ≠ 0 ∧ s.mode = mode) ∨
        (mode &&& SHOW_DEFS = 0 ∧ mode &&& SHOW_NONDEF ≠ 0)) →
      ∃ s1, visit_in_order P mode items s = .ret () s1) := by
  refine ⟨⟨qsort (htable_list param_table) comp_names, (qsort_comp_names _).1,
    (qsort_comp_names _).2, fun s => list_loop_visits P mode _ s⟩, ?_,
    htable_find_none param_table, fun _ _ _ => rfl, ?_, ?_,
    visit_in_order_completes P mode⟩
  · intro names hn s
    cases names with
    | nil => exact absurd rfl hn
    | cons name rest => exact names_loop_visits P mode param_table (name :: rest) s
  · intro name ptr rest s s1 h
    simp only [visit_in_order, h]
  · intro name ptr rest s msg s1 h
    simp only [visit_in_order, h]

/-- C23 (witness): the names "queue_directory", "nosuch" and "biff" with a
dictionary that sets "biff" to "no": two lines in command-line order and one
warning. -/
theorem show_parameters_order_witness :
    show_parameters postconf_env_example 4
        (hash_parameters postconf_env_example postconf_tables_example)
        ["queue_directory", "nosuch", "biff"] (postconf_state_example 4 [("biff", "no")]) =
      .ret () { (postconf_state_example 4 [("biff", "no")]) with
        out := ["queue_directory = /var/spool/postfix\n", "biff = no\n"],
        warnings := ["nosuch: unknown parameter"] } :=
  (show_parameters_order postconf_env_example 4
    (hash_parameters postconf_env_example postconf_tables_example)).2.1
    ["queue_directory", "nosuch", "biff"] (by decide) (postconf_state_example 4 [("biff", "no")])

end Claims2

end Postfix
